import Mathlib

/-!
# Role-scoped data access and reconciliation (`FlightContext.jsx`)

A shallow embedding of the permission resolver, the account-scope resolver, the
loader's in-memory join / visibility filter / sort, and the flight and passenger
mutation operations of `src/context/FlightContext.jsx`.

Conventions of the embedding:

* a JavaScript primitive is a `JVal`; `===` on primitives is structural equality
  (`NaN` is not representable, JSON rows cannot carry it);
* a JSON object used as a map is an association list, property access is
  `List.lookup` on own properties;
* the backend is an oracle: every operation receives the responses of the remote
  calls it awaits as arguments, and returns the list of calls it issued together
  with the new local state.
-/

namespace Areys

/-! ## JavaScript values -/

/-- A JavaScript primitive value as it appears in a row or in a permission flag. -/
inductive JVal where
  | undefined
  | null
  | bool (b : Bool)
  | num (n : Int)
  | str (s : String)
  deriving DecidableEq, Repr, Inhabited

namespace JVal

/-- JavaScript `ToBoolean`. -/
def truthy : JVal → Bool
  | undefined => false
  | null => false
  | bool b => b
  | num n => n != 0
  | str s => s != ""

/-- JavaScript `a || b` on primitives. -/
def or (a b : JVal) : JVal := if a.truthy then a else b

/-- Digits of a natural number, as JavaScript prints an integer. -/
def natDigits (n : Nat) : String := toString n

/-- JavaScript `ToString` on a primitive (integers only for numbers). -/
def toJsString : JVal → String
  | undefined => "undefined"
  | null => "null"
  | bool true => "true"
  | bool false => "false"
  | num (Int.ofNat n) => natDigits n
  | num (Int.negSucc n) => "-" ++ natDigits (n + 1)
  | str s => s

end JVal

/-- Property access `o?.[k]` on an optional JSON object: `none` is `undefined`. -/
def getProp {α : Type} (o : Option (List (String × α))) (k : String) : Option α :=
  o.bind (fun fields => fields.lookup k)

/-! ## Role definitions and the permission resolver -/

/-- The flags of one category, `{action: flag}`. -/
abbrev ActionMap := List (String × JVal)

/-- The permission matrix of a role, `{category: {action: flag}}`. -/
abbrev PermissionMatrix := List (String × ActionMap)

/-- A row of `role_permissions`. -/
structure RoleDefinition where
  id : JVal
  role : String
  permissions : Option PermissionMatrix
  deriving DecidableEq, Repr

/-- The flag `definition.permissions?.[category]?.[action]` read from the own
properties of the stored matrix, `undefined` when absent. This is the value of the
expression for every key that names no member of `Object.prototype`, the keys of the
operations among them; `readFlag` below follows the read for the other keys. -/
def RoleDefinition.flag (d : RoleDefinition) (category action : String) : JVal :=
  (getProp (getProp d.permissions category) action).getD JVal.undefined

/-- The lookup `roleDefinitions.find(r => r.role === userRole)`. -/
def findRoleDef (defs : List RoleDefinition) (userRole : Option String) : Option RoleDefinition :=
  defs.find? (fun r => decide (some r.role = userRole))

/-- The function `hasPermission(category, action)` of `FlightContext.jsx`, over the
acting role and the loaded role definitions it closes over. -/
def hasPermission (userRole : Option String) (roleDefinitions : List RoleDefinition)
    (category action : String) : JVal :=
  if userRole = some "Admin" then JVal.bool true
  else
    match findRoleDef roleDefinitions userRole with
    | none => JVal.bool false
    | some definition => JVal.or (definition.flag category action) (JVal.bool false)

/-! ## The permission read along the prototype chain -/

/-- The property names every plain object inherits from `Object.prototype`
(ECMAScript 20.1.3.1 to 20.1.3.8 and B.2.2.2 to B.2.2.5). -/
def objectPrototypeKeys : List String :=
  ["constructor", "hasOwnProperty", "isPrototypeOf", "propertyIsEnumerable", "toLocaleString",
    "toString", "valueOf", "__proto__", "__defineGetter__", "__defineSetter__",
    "__lookupGetter__", "__lookupSetter__"]

/-- What `definition.permissions?.[category]?.[action] || false` evaluates to when the
read is followed along the prototype chain of the JSON objects. -/
inductive FlagRead where
  /-- A primitive: a truthy flag stored in the matrix, the `name` of a built-in
  function, or `false`. -/
  | value (v : JVal)
  /-- The member a plain object inherits under `key`: a built-in function, or for
  `__proto__` the object `Object.prototype`; an object, hence truthy. -/
  | member (key : String)
  /-- The value of `Object.prototype[category][action] || false` for a built-in
  function `Object.prototype[category]` and an action other than `name`: a property of
  the engine's built-in, which the stored matrix does not determine. -/
  | memberProperty (category action : String)
  deriving DecidableEq, Repr

/-- The `name` of the built-in function a plain object inherits under `key`: the key
itself, and `Object` for `constructor` (ECMAScript 20.1.2 and 10.3.5). -/
def memberName (key : String) : String :=
  if key = "constructor" then "Object" else key

/-- The read `permissions?.[category]?.[action] || false`: an own property of the
JSON object is found first, then the member inherited from `Object.prototype`;
`Object.prototype.__proto__` is `null`. -/
def readFlag (permissions : Option PermissionMatrix) (category action : String) : FlagRead :=
  match permissions with
  | none => FlagRead.value (JVal.bool false)
  | some m =>
    match m.lookup category with
    | some am =>
      match am.lookup action with
      | some v => FlagRead.value (JVal.or v (JVal.bool false))
      | none =>
        if action ∈ objectPrototypeKeys then FlagRead.member action
        else FlagRead.value (JVal.bool false)
    | none =>
      if category = "__proto__" then
        if action = "__proto__" then FlagRead.value (JVal.bool false)
        else if action ∈ objectPrototypeKeys then FlagRead.member action
        else FlagRead.value (JVal.bool false)
      else if category ∈ objectPrototypeKeys then
        if action = "name" then FlagRead.value (JVal.str (memberName category))
        else FlagRead.memberProperty category action
      else FlagRead.value (JVal.bool false)

/-- The function `hasPermission(category, action)` for arbitrary keys, with the read
of the matrix followed along the prototype chain. For keys that name no member of
`Object.prototype` it agrees with `hasPermission` above, which reads own properties
only. -/
def Chain.hasPermission (userRole : Option String) (roleDefinitions : List RoleDefinition)
    (category action : String) : FlagRead :=
  if userRole = some "Admin" then FlagRead.value (JVal.bool true)
  else
    match findRoleDef roleDefinitions userRole with
    | none => FlagRead.value (JVal.bool false)
    | some definition => readFlag definition.permissions category action

/-! ## Rows and the in-memory aggregates -/

/-- A row of `flights` as the backend returns it. -/
structure FlightRow where
  id : JVal
  uuid : JVal
  user_id : JVal
  airline : JVal
  flight_number : JVal
  date : JVal
  route : JVal
  created_by : JVal
  deriving DecidableEq, Repr

/-- A row of `passengers` as the backend returns it. -/
structure PassengerRow where
  id : JVal
  flight_id : JVal
  user_id : JVal
  name : JVal
  type : JVal
  gender : JVal
  phone_number : JVal
  agency : JVal
  flight_number : JVal
  booking_reference : JVal
  ticket_price : JVal
  tax : JVal
  surcharge : JVal
  total_price : JVal
  date_of_issue : JVal
  created_by : JVal
  updated_by : JVal
  deriving DecidableEq, Repr

/-- A row of `infants`. -/
structure InfantRow where
  id : JVal
  passenger_id : JVal
  user_id : JVal
  name : String
  created_by : JVal
  deriving DecidableEq, Repr

/-- A passenger held in the local snapshot: the spread row `...row`, the infant name
list (`none` is `undefined`), and the camelCase copies some paths add (`undefined`
when the path does not add them). -/
structure Passenger where
  row : PassengerRow
  infants : Option (List String)
  phoneNumber : JVal
  flightNumber : JVal
  bookingReference : JVal
  deriving DecidableEq, Repr

/-- A flight held in the local snapshot: the spread row, the camelCase
`flightNumber` copy and the joined passenger list. -/
structure Flight where
  row : FlightRow
  flightNumber : JVal
  passengers : List Passenger
  deriving DecidableEq, Repr

/-- A backend response `{ data, error }`. -/
structure Res (α : Type) where
  data : Option α
  error : Option String
  deriving Repr

/-! ## Account scope (`loadInitialData`, lines 48-65) -/

/-- The row `{ role, created_by }` of `user_roles` selected for the actor. -/
structure RoleRow where
  role : JVal
  created_by : JVal
  deriving DecidableEq, Repr

/-- The `targetUserId` computed by `loadInitialData`: `roleData` is the `data` of the
`maybeSingle()` lookup (`none` when there is no row or the lookup failed). -/
def loadInitialDataTargetUserId (userId : String) (roleData : Option RoleRow) : JVal :=
  match roleData with
  | none => JVal.str userId
  | some r =>
    if r.created_by.truthy && decide (r.role ≠ JVal.str "Admin") then r.created_by
    else JVal.str userId

/-! ## The loader: join, visibility filter, sort (`loadInitialData`, lines 79-148) -/

/-- One element of `passengersWithInfants`: `{...passenger, infants: ...}`. -/
def joinInfants (infantsData : List InfantRow) (passenger : PassengerRow) : Passenger :=
  { row := passenger
    infants := some ((infantsData.filter
      (fun infant => decide (infant.passenger_id = passenger.id))).map (fun i => i.name))
    phoneNumber := JVal.undefined
    flightNumber := JVal.undefined
    bookingReference := JVal.undefined }

/-- The list `passengersWithInfants`. -/
def passengersWithInfants (passengersData : List PassengerRow) (infantsData : List InfantRow) :
    List Passenger :=
  passengersData.map (joinInfants infantsData)

/-- One joined flight: `{...flight, flightNumber: flight.flight_number, passengers: ...}`. -/
def joinFlight (pwi : List Passenger) (flight : FlightRow) : Flight :=
  { row := flight
    flightNumber := flight.flight_number
    passengers := pwi.filter (fun p => decide (p.row.flight_id = flight.uuid)) }

/-- The joined `flightData` (lines 92-108). -/
def joinFlights (flightData : List FlightRow) (passengersData : List PassengerRow)
    (infantsData : List InfantRow) : List Flight :=
  flightData.map (joinFlight (passengersWithInfants passengersData infantsData))

/-- The predicate of the passenger filter (lines 131-135). -/
def passengerVisible (canViewAnyPassenger canViewOwnPassenger : JVal) (me : String)
    (p : Passenger) : Bool :=
  if canViewAnyPassenger.truthy then true
  else if canViewOwnPassenger.truthy then decide (p.row.created_by = JVal.str me)
  else false

/-- The mapping applied to every kept passenger (lines 135-141). -/
def addCamelCase (p : Passenger) : Passenger :=
  { p with flightNumber := p.row.flight_number, bookingReference := p.row.booking_reference }

/-- The visibility filter (lines 110-144) applied to the joined flights. -/
def filterVisible (userRole : Option String) (currentRoleDefs : List RoleDefinition)
    (me : String) (flightData : List Flight) : List Flight :=
  if userRole = some "Admin" then flightData
  else
    match findRoleDef currentRoleDefs userRole with
    | none => flightData
    | some myRoleDef =>
      let canViewAnyFlight := myRoleDef.flag "flight" "view_any"
      let canViewOwnFlight := myRoleDef.flag "flight" "view_own"
      let canViewAnyPassenger := myRoleDef.flag "passenger" "view_any"
      let canViewOwnPassenger := myRoleDef.flag "passenger" "view_own"
      let kept :=
        if canViewAnyFlight.truthy then flightData
        else if canViewOwnFlight.truthy then
          flightData.filter (fun f => decide (f.row.created_by = JVal.str me))
        else []
      kept.map (fun f =>
        { f with passengers :=
            (f.passengers.filter
              (passengerVisible canViewAnyPassenger canViewOwnPassenger me)).map addCamelCase })

/-- The comparator `new Date(b.date) - new Date(a.date)`; `toTime` is the time value
of `new Date(x)`, `none` for an invalid date, and a `NaN` difference counts as `0`
as `Array.prototype.sort` prescribes. -/
def dateCompare (toTime : JVal → Option Int) (a b : Flight) : Int :=
  match toTime b.row.date, toTime a.row.date with
  | some tb, some ta => tb - ta
  | _, _ => 0

/-- The order `a` may stay before `b`: the comparator is not positive. -/
def dateOrder (toTime : JVal → Option Int) (a b : Flight) : Prop :=
  dateCompare toTime a b ≤ 0

instance (toTime : JVal → Option Int) : DecidableRel (dateOrder toTime) :=
  fun a b => inferInstanceAs (Decidable (dateCompare toTime a b ≤ 0))

/-- The call `flightData.sort((a, b) => new Date(b.date) - new Date(a.date))`, as a
stable sort. When every date is valid the comparator is consistent and this is the
result `Array.prototype.sort` must give; with an invalid date among them the order is
left to the engine, and this is one arrangement of the same flights. -/
def sortFlights (toTime : JVal → Option Int) (flightData : List Flight) : List Flight :=
  flightData.insertionSort (dateOrder toTime)

/-- The role definitions the loader works with (lines 81-85). -/
def currentRoleDefs (rolesRes : Res (List RoleDefinition)) : List RoleDefinition :=
  match rolesRes.error, rolesRes.data with
  | none, some defs => defs
  | _, _ => []

/-- The flights part of `loadInitialData` (lines 87-148): the value passed to
`setFlights`, or `none` when the flights fetch failed and `setFlights` is not called. -/
def loadInitialDataFlights (toTime : JVal → Option Int) (me : String) (userRole : Option String)
    (flightsRes : Res (List FlightRow)) (passengersRes : Res (List PassengerRow))
    (infantsRes : Res (List InfantRow)) (rolesRes : Res (List RoleDefinition)) :
    Option (List Flight) :=
  match flightsRes.error, flightsRes.data with
  | none, some flightData =>
    let passengersData := passengersRes.data.getD []
    let infantsData := infantsRes.data.getD []
    some (sortFlights toTime
      (filterVisible userRole (currentRoleDefs rolesRes) me
        (joinFlights flightData passengersData infantsData)))
  | _, _ => none

/-! ## Account-wide resources: airlines, agencies, prices, users -/

/-- A JavaScript number that may be `NaN`: `none` is `NaN`. -/
abbrev JNum := Option Int

/-- A JavaScript value that may be `NaN`: `none` is `NaN`. -/
abbrev NVal := Option JVal

/-- JavaScript `ToBoolean` on a value that may be `NaN`. -/
def NVal.truthy : NVal → Bool
  | none => false
  | some v => v.truthy

/-- JavaScript `Number(x)`; `numberStr` is the numeric value of a string. -/
def jsNumber (numberStr : String → JNum) : NVal → JNum
  | none => none
  | some JVal.undefined => none
  | some JVal.null => some 0
  | some (JVal.bool b) => some (if b then 1 else 0)
  | some (JVal.num n) => some n
  | some (JVal.str s) => numberStr s

/-- Addition of JavaScript numbers. -/
def JNum.add (a b : JNum) : JNum :=
  match a, b with
  | some x, some y => some (x + y)
  | _, _ => none

/-- Multiplication of JavaScript numbers. -/
def JNum.mul (a b : JNum) : JNum :=
  match a, b with
  | some x, some y => some (x * y)
  | _, _ => none

/-- The test `x == null`, which `??` and `?.` make. -/
def JVal.nullish : JVal → Bool
  | JVal.undefined => true
  | JVal.null => true
  | _ => false

/-- JavaScript `a ?? b` where `a` reads a property that may be absent. -/
def nullishOr (a : Option JVal) (b : JVal) : JVal :=
  match a with
  | none => b
  | some v => if v.nullish then b else v

/-- The value read from a property that may be absent. -/
def readProp (a : Option JVal) : JVal := a.getD JVal.undefined

/-- A row of `airlines`. -/
structure AirlineRow where
  id : JVal
  user_id : JVal
  name : JVal
  ticket_template : JVal
  manifest_template : JVal
  manifest_us : JVal
  manifest_airport : JVal
  default_booking_reference : JVal
  default_flight_number : JVal
  adult_price : JVal
  child_price : JVal
  infant_price : JVal
  tax : JVal
  surcharge : JVal
  updated_at : JVal
  updated_by : JVal
  deriving DecidableEq, Repr

/-- An airline held in the local snapshot. -/
structure Airline where
  id : JVal
  name : JVal
  ticketTemplate : JVal
  manifestTemplate : JVal
  manifestUs : JVal
  manifestAirport : JVal
  defaultBookingReference : JVal
  defaultFlightNumber : JVal
  adultPrice : JVal
  childPrice : JVal
  infantPrice : JVal
  tax : JVal
  surcharge : JVal
  updatedAt : JVal
  updatedBy : JVal
  deriving DecidableEq, Repr

/-- The airline object a caller hands to `addAirline` and `updateAirline`: `none` is
an absent property. -/
structure AirlineInput where
  id : Option JVal
  name : Option JVal
  ticketTemplate : Option JVal
  ticket_template : Option JVal
  manifestTemplate : Option JVal
  manifest_template : Option JVal
  manifestUs : Option JVal
  manifest_us : Option JVal
  manifestAirport : Option JVal
  manifest_airport : Option JVal
  defaultBookingReference : Option JVal
  default_booking_reference : Option JVal
  defaultFlightNumber : Option JVal
  default_flight_number : Option JVal
  adultPrice : Option JVal
  childPrice : Option JVal
  infantPrice : Option JVal
  tax : Option JVal
  surcharge : Option JVal
  updatedAt : Option JVal
  updatedBy : Option JVal
  deriving DecidableEq, Repr

/-- The object an insert or update of `airlines` writes (`user_id` and `id` only on
insert). -/
structure AirlinePayload where
  user_id : JVal
  name : JVal
  ticket_template : JVal
  manifest_template : JVal
  manifest_us : JVal
  manifest_airport : JVal
  default_booking_reference : JVal
  default_flight_number : JVal
  adult_price : JVal
  child_price : JVal
  infant_price : JVal
  tax : JVal
  surcharge : JVal
  updated_by : JVal
  id : JVal
  deriving DecidableEq, Repr

/-- A row of `agencies`. -/
structure AgencyRow where
  id : JVal
  user_id : JVal
  name : JVal
  phone : JVal
  manager_name : JVal
  manager_phone : JVal
  updated_at : JVal
  updated_by : JVal
  deriving DecidableEq, Repr

/-- An agency held in the local snapshot. -/
structure Agency where
  id : JVal
  name : JVal
  phone : JVal
  managerName : JVal
  managerPhone : JVal
  updatedAt : JVal
  updatedBy : JVal
  deriving DecidableEq, Repr

/-- The agency object a caller hands to `addAgency` and `updateAgency`. -/
structure AgencyInput where
  id : Option JVal
  name : Option JVal
  phone : Option JVal
  managerName : Option JVal
  manager_name : Option JVal
  managerPhone : Option JVal
  manager_phone : Option JVal
  updatedAt : Option JVal
  updatedBy : Option JVal
  deriving DecidableEq, Repr

/-- The object an insert or update of `agencies` writes. -/
structure AgencyPayload where
  user_id : JVal
  name : JVal
  phone : JVal
  manager_name : JVal
  manager_phone : JVal
  updated_by : JVal
  id : JVal
  deriving DecidableEq, Repr

/-- The state `prices`. -/
structure Prices where
  adult : JNum
  child : JNum
  infant : JNum
  tax : JNum
  surcharge : JNum
  updatedAt : JVal
  updatedBy : JVal
  deriving DecidableEq, Repr

/-- The object `updatePrices` upserts into `settings`. -/
structure PricePayload where
  user_id : JVal
  adult_price : NVal
  child_price : NVal
  infant_price : NVal
  tax : NVal
  surcharge : NVal
  updated_by : JVal
  deriving DecidableEq, Repr

/-- The object the insert of `flights` writes. -/
structure FlightInsert where
  user_id : JVal
  airline : JVal
  flight_number : JVal
  date : JVal
  route : JVal
  created_by : JVal
  deriving DecidableEq, Repr

/-- A user held in the local snapshot. -/
structure User where
  id : JVal
  managed_user_id : JVal
  name : JVal
  email : JVal
  role : JVal
  active : JVal
  agencyName : JVal
  isAccountUser : JVal
  deriving DecidableEq, Repr

/-! ## Provider state, backend calls and operation results -/

/-- The part of the provider state the flight and passenger operations close over:
`currentUser` is `currentUser.id` (`none` when nobody is signed in). -/
structure Ctx where
  currentUser : Option String
  userRole : Option String
  flights : List Flight
  roleDefinitions : List RoleDefinition
  targetUserId : JVal
  deriving Repr

/-- The object an update of `flights` writes. -/
structure FlightPayload where
  airline : JVal
  flight_number : JVal
  date : JVal
  route : JVal
  deriving DecidableEq, Repr

/-- The object an insert or update of `passengers` writes (`flight_id`, `user_id`
and `created_by` only on insert, `updated_by` only on update). -/
structure PassengerPayload where
  flight_id : JVal
  user_id : JVal
  name : JVal
  type : JVal
  gender : JVal
  phone_number : JVal
  agency : JVal
  flight_number : JVal
  booking_reference : JVal
  ticket_price : JVal
  tax : JVal
  surcharge : JVal
  total_price : JVal
  date_of_issue : JVal
  created_by : JVal
  updated_by : JVal
  deriving DecidableEq, Repr

/-- One object of the `infants` insert. -/
structure InfantInsert where
  passenger_id : JVal
  user_id : JVal
  name : String
  created_by : JVal
  deriving DecidableEq, Repr

/-- The row `logActivity` inserts (the free-text description and the diff details
are not modelled). -/
structure LogEntry where
  user_id : String
  action_type : String
  entity_type : String
  entity_id : JVal
  created_by : String
  deriving DecidableEq, Repr

/-- A call issued to the backend. -/
inductive Call where
  | flightsUpdate (id : JVal) (userId : JVal) (payload : FlightPayload)
  | flightsDelete (id : JVal) (userId : JVal)
  | passengersUpdate (id : JVal) (userId : JVal) (payload : PassengerPayload)
  | passengersInsert (payload : PassengerPayload)
  | passengersDelete (id : JVal) (userId : JVal)
  | infantsDelete (passengerId : JVal)
  | infantsInsert (rows : List InfantInsert)
  | activityLogsInsert (entry : LogEntry)
  | flightsInsert (payload : FlightInsert)
  | airlinesInsert (payload : AirlinePayload)
  | airlinesSelect (userId : JVal)
  | airlinesUpdate (id : JVal) (userId : JVal) (payload : AirlinePayload)
  | airlinesDelete (id : JVal) (userId : JVal)
  | agenciesInsert (payload : AgencyPayload)
  | agenciesSelect (userId : JVal)
  | agenciesUpdate (id : JVal) (userId : JVal) (payload : AgencyPayload)
  | agenciesDelete (id : JVal) (userId : JVal)
  | settingsUpsert (payload : PricePayload)
  | rolePermissionsInsert (role : String) (permissions : PermissionMatrix)
  | rolePermissionsUpdate (id : JVal) (permissions : PermissionMatrix)
  deriving DecidableEq, Repr

/-- A notice shown through `toast` or `alert`. -/
inductive Toast where
  | error (message : String)
  | success (message : String)
  | alert (message : String)
  deriving DecidableEq, Repr

/-- How an `async` operation settles. -/
inductive Outcome where
  | returned
  | threw (err : String)
  deriving DecidableEq, Repr

/-- What one operation did: the backend calls it issued in order, the local
`flights` after it, the notices it showed and how it settled. -/
structure OpResult where
  calls : List Call
  flights : List Flight
  toasts : List Toast
  outcome : Outcome
  deriving Repr

/-- What the backend answers to the `activity_logs` insert. -/
inductive LogResult where
  | ok
  | error (message : String)
  | thrown (err : String)
  deriving DecidableEq, Repr

/-- The helper `logActivity` (lines 289-304): the insert is awaited inside `try`,
its result is not inspected and an exception is caught. -/
def logActivity (me : String) (actionType entityType : String) (entityId : JVal)
    (logResult : LogResult) : List Call × Outcome :=
  let call := Call.activityLogsInsert
    { user_id := me, action_type := actionType, entity_type := entityType,
      entity_id := entityId, created_by := me }
  match logResult with
  | LogResult.ok => ([call], Outcome.returned)
  | LogResult.error _ => ([call], Outcome.returned)
  | LogResult.thrown _ => ([call], Outcome.returned)

/-! ## Flight operations -/

/-- The argument of `updateFlight`. -/
structure FlightInput where
  airline : JVal
  flightNumber : JVal
  flight_number : JVal
  date : JVal
  route : JVal
  deriving DecidableEq, Repr

/-- The ownership check `flight?.created_by === currentUser.id`. -/
def isFlightOwner (flight : Option Flight) (me : String) : Bool :=
  match flight with
  | none => false
  | some f => decide (f.row.created_by = JVal.str me)

/-- The operation `updateFlight(id, updatedFlight)` (lines 340-396); `resp` is the
backend's answer to the update, should it be issued. -/
def updateFlight (ctx : Ctx) (id : JVal) (updatedFlight : FlightInput)
    (resp : Res FlightRow) (logResult : LogResult) : OpResult :=
  match ctx.currentUser with
  | none => { calls := [], flights := ctx.flights, toasts := [], outcome := Outcome.returned }
  | some me =>
    let flightData : FlightPayload :=
      { airline := updatedFlight.airline
        flight_number := JVal.or updatedFlight.flightNumber updatedFlight.flight_number
        date := updatedFlight.date
        route := updatedFlight.route }
    let flight := ctx.flights.find? (fun f => decide (f.row.id = id))
    let isOwner := isFlightOwner flight me
    if !(hasPermission ctx.userRole ctx.roleDefinitions "flight" "delete").truthy && !isOwner then
      { calls := [], flights := ctx.flights
        toasts := [Toast.error "You do not have permission to edit flights you did not create"]
        outcome := Outcome.returned }
    else
      let call := Call.flightsUpdate id ctx.targetUserId flightData
      match resp.error with
      | some e =>
        { calls := [call], flights := ctx.flights
          toasts := [Toast.error ("Failed to update flight: " ++ e)]
          outcome := Outcome.threw e }
      | none =>
        match resp.data with
        | none => { calls := [call], flights := ctx.flights, toasts := [], outcome := Outcome.returned }
        | some data =>
          let flights1 := ctx.flights.map
            (fun f => if f.row.id = id then { f with row := data } else f)
          match flight with
          | none =>
            { calls := [call], flights := flights1, toasts := []
              outcome := Outcome.threw "TypeError" }
          | some _ =>
            let logged := logActivity me "UPDATE" "FLIGHT" id logResult
            match logged.2 with
            | Outcome.threw e =>
              { calls := call :: logged.1, flights := flights1, toasts := []
                outcome := Outcome.threw e }
            | Outcome.returned =>
              { calls := call :: logged.1, flights := flights1
                toasts := [Toast.success "Flight updated successfully"]
                outcome := Outcome.returned }

/-- The operation `deleteFlight(id)` (lines 398-432); `respError` is the `error` of
the backend's answer to the delete, should it be issued. -/
def deleteFlight (ctx : Ctx) (id : JVal) (respError : Option String)
    (logResult : LogResult) : OpResult :=
  match ctx.currentUser with
  | none => { calls := [], flights := ctx.flights, toasts := [], outcome := Outcome.returned }
  | some me =>
    let flight := ctx.flights.find? (fun f => decide (f.row.id = id))
    let isOwner := isFlightOwner flight me
    if !(hasPermission ctx.userRole ctx.roleDefinitions "flight" "delete").truthy && !isOwner then
      { calls := [], flights := ctx.flights
        toasts := [Toast.error "You do not have permission to delete flights you did not create"]
        outcome := Outcome.returned }
    else
      let call := Call.flightsDelete id ctx.targetUserId
      match respError with
      | some e =>
        { calls := [call], flights := ctx.flights
          toasts := [Toast.error ("Failed to delete flight: " ++ e)]
          outcome := Outcome.threw e }
      | none =>
        let flights1 := ctx.flights.filter (fun f => decide (f.row.id ≠ id))
        match flight with
        | none =>
          { calls := [call], flights := flights1
            toasts := [Toast.success "Flight deleted successfully"]
            outcome := Outcome.returned }
        | some _ =>
          let logged := logActivity me "DELETE" "FLIGHT" id logResult
          match logged.2 with
          | Outcome.threw e =>
            { calls := call :: logged.1, flights := flights1, toasts := []
              outcome := Outcome.threw e }
          | Outcome.returned =>
            { calls := call :: logged.1, flights := flights1
              toasts := [Toast.success "Flight deleted successfully"]
              outcome := Outcome.returned }

/-! ## Flight lookup -/

/-- The characters `parseInt` and `String.prototype.trim` strip: white space and
line terminators. -/
def jsWhite (c : Char) : Bool :=
  [9, 10, 11, 12, 13, 32, 160, 5760, 8192, 8193, 8194, 8195, 8196, 8197, 8198, 8199,
    8200, 8201, 8202, 8232, 8233, 8239, 8287, 12288, 65279].contains c.toNat

/-- The value of a character as a digit in some radix up to 36. -/
def digitValue (c : Char) : Option Nat :=
  if 48 ≤ c.toNat ∧ c.toNat ≤ 57 then some (c.toNat - 48)
  else if 97 ≤ c.toNat ∧ c.toNat ≤ 122 then some (c.toNat - 87)
  else if 65 ≤ c.toNat ∧ c.toNat ≤ 90 then some (c.toNat - 55)
  else none

/-- The values of the longest prefix of digits of the radix. -/
def radixDigits (radix : Nat) : List Char → List Nat
  | [] => []
  | c :: cs =>
    match digitValue c with
    | some v => if v < radix then v :: radixDigits radix cs else []
    | none => []

/-- JavaScript `parseInt(s)` without a radix argument; `none` is `NaN`. -/
def parseInt (s : String) : Option Int :=
  let trimmed := s.toList.dropWhile jsWhite
  let signed : Bool × List Char :=
    match trimmed with
    | '-' :: r => (true, r)
    | '+' :: r => (false, r)
    | r => (false, r)
  let based : Nat × List Char :=
    match signed.2 with
    | '0' :: 'x' :: r => (16, r)
    | '0' :: 'X' :: r => (16, r)
    | r => (10, r)
  let ds := radixDigits based.1 based.2
  if ds.isEmpty then none
  else
    let v : Int := ds.foldl (fun acc d => acc * (based.1 : Int) + (d : Int)) 0
    some (if signed.1 then -v else v)

/-- The predicate of `getFlight`, evaluated left to right: `id.toString()` throws a
`TypeError` on `null` and `undefined`. -/
def getFlightMatch (id : JVal) (f : Flight) : Except String Bool :=
  if f.row.uuid = id then Except.ok true
  else if f.row.id = id then Except.ok true
  else
    match id with
    | JVal.undefined => Except.error "TypeError"
    | JVal.null => Except.error "TypeError"
    | _ =>
      Except.ok (decide (f.row.id = JVal.str id.toJsString)
        || decide (some f.row.id = (parseInt id.toJsString).map JVal.num))

/-- The function `getFlight(id)` (lines 434-442): the first flight the predicate
accepts, `none` for `null`. -/
def getFlight : List Flight → JVal → Except String (Option Flight)
  | [], _ => Except.ok none
  | f :: rest, id =>
    match getFlightMatch id f with
    | Except.error e => Except.error e
    | Except.ok true => Except.ok (some f)
    | Except.ok false => getFlight rest id

/-! ## Passenger operations -/

/-- The passenger object handed to `addPassengerToFlight` (`infants` is `none`
when the property is absent). -/
structure PassengerInput where
  id : JVal
  name : JVal
  type : JVal
  gender : JVal
  phoneNumber : JVal
  agency : JVal
  flightNumber : JVal
  bookingReference : JVal
  ticketPrice : JVal
  basePrice : JVal
  tax : JVal
  surcharge : JVal
  totalPrice : JVal
  dateOfIssue : JVal
  infants : Option (List String)
  deriving DecidableEq, Repr

/-- A character class `[0-9a-f]` under the `i` flag. -/
def isHexDigit (c : Char) : Bool :=
  (48 ≤ c.toNat && c.toNat ≤ 57) || (97 ≤ c.toNat && c.toNat ≤ 102)
    || (65 ≤ c.toNat && c.toNat ≤ 70)

/-- A match of `/^[0-9a-f]{8}-[0-9a-f]{4}-[0-9a-f]{4}-[0-9a-f]{4}-[0-9a-f]{12}$/i`. -/
def uuidRegexTest (cs : List Char) : Bool :=
  cs.length == 36 && cs.enum.all (fun ic =>
    if ic.1 == 8 || ic.1 == 13 || ic.1 == 18 || ic.1 == 23 then ic.2 == '-'
    else isHexDigit ic.2)

/-- The helper `isValidUUID(id)` (lines 455-459). -/
def isValidUUID (id : JVal) : Bool :=
  if !id.truthy then false else uuidRegexTest id.toJsString.toList

/-- JavaScript `String.prototype.trim`. -/
def jsTrim (s : String) : String :=
  String.mk ((s.toList.dropWhile jsWhite).reverse.dropWhile jsWhite).reverse

/-- The rows `manageInfants` inserts (lines 476-483). -/
def infantsToInsert (passengerId userId : JVal) (infantNames : List String) (creatorId : String) :
    List InfantInsert :=
  (infantNames.filter (fun name => name != "" && (jsTrim name).length > 0)).map
    (fun name =>
      { passenger_id := passengerId, user_id := userId, name := jsTrim name,
        created_by := JVal.str creatorId })

/-- The helper `manageInfants(passengerId, userId, infantNames, creatorId)` (lines
462-496); the two arguments after are the `error` of the delete and of the insert. -/
def manageInfants (passengerId userId : JVal) (infantNames : Option (List String))
    (creatorId : String) (deleteError insertError : Option String) : List Call × Outcome :=
  let del := Call.infantsDelete passengerId
  match deleteError with
  | some e => ([del], Outcome.threw e)
  | none =>
    match infantNames with
    | none => ([del], Outcome.returned)
    | some names =>
      if names.length > 0 then
        let rows := infantsToInsert passengerId userId names creatorId
        if rows.length > 0 then
          match insertError with
          | some e => ([del, Call.infantsInsert rows], Outcome.threw e)
          | none => ([del, Call.infantsInsert rows], Outcome.returned)
        else ([del], Outcome.returned)
      else ([del], Outcome.returned)

/-- The local passenger built from a written row (lines 541-547 and 627-633). -/
def passengerOfRow (data : PassengerRow) (infants : Option (List String)) : Passenger :=
  { row := data
    infants := infants
    phoneNumber := data.phone_number
    flightNumber := data.flight_number
    bookingReference := data.booking_reference }

/-- The test `f.uuid === flight.uuid || f.id === flightId` that selects the flights
an operation patches. -/
def patchesFlight (flight : Flight) (flightId : JVal) (f : Flight) : Bool :=
  decide (f.row.uuid = flight.row.uuid) || decide (f.row.id = flightId)

/-- The object the update branch writes (lines 506-520). -/
def passengerUpdatePayload (passenger : PassengerInput) (me : String) : PassengerPayload :=
  { flight_id := JVal.undefined
    user_id := JVal.undefined
    name := passenger.name
    type := passenger.type
    gender := passenger.gender
    phone_number := passenger.phoneNumber
    agency := passenger.agency
    flight_number := passenger.flightNumber
    booking_reference := passenger.bookingReference
    ticket_price := JVal.or (JVal.or passenger.ticketPrice passenger.basePrice) (JVal.num 0)
    tax := passenger.tax
    surcharge := passenger.surcharge
    total_price := passenger.totalPrice
    date_of_issue := passenger.dateOfIssue
    created_by := JVal.undefined
    updated_by := JVal.str me }

/-- The object the insert branch writes (lines 588-604); `today` is
`new Date().toISOString().split('T')[0]`. -/
def passengerInsertPayload (flight : Flight) (targetUserId : JVal) (passenger : PassengerInput)
    (me today : String) : PassengerPayload :=
  { flight_id := flight.row.uuid
    user_id := targetUserId
    name := passenger.name
    type := JVal.or passenger.type (JVal.str "Adult")
    gender := passenger.gender
    phone_number := passenger.phoneNumber
    agency := passenger.agency
    flight_number := passenger.flightNumber
    booking_reference := passenger.bookingReference
    ticket_price := JVal.or (JVal.or passenger.ticketPrice passenger.basePrice) (JVal.num 0)
    tax := passenger.tax
    surcharge := passenger.surcharge
    total_price := passenger.totalPrice
    date_of_issue := JVal.or passenger.dateOfIssue (JVal.str today)
    created_by := JVal.str me
    updated_by := JVal.undefined }

/-- The operation `addPassengerToFlight(flightId, passenger)` (lines 445-642); `resp`
answers the passenger write, `infantsDeleteError` and `infantsInsertError` are the
`error` of the two calls of `manageInfants`. -/
def addPassengerToFlight (ctx : Ctx) (flightId : JVal) (passenger : PassengerInput)
    (today : String) (resp : Res PassengerRow) (infantsDeleteError infantsInsertError : Option String)
    (logResult : LogResult) : OpResult :=
  match ctx.currentUser with
  | none => { calls := [], flights := ctx.flights, toasts := [], outcome := Outcome.returned }
  | some me =>
    match getFlight ctx.flights flightId with
    | Except.error e =>
      { calls := [], flights := ctx.flights, toasts := [], outcome := Outcome.threw e }
    | Except.ok none =>
      { calls := [], flights := ctx.flights, toasts := [Toast.error "Flight not found"]
        outcome := Outcome.returned }
    | Except.ok (some flight) =>
      if passenger.id.truthy && isValidUUID passenger.id then
        let existingPassenger := flight.passengers.find? (fun p => decide (p.row.id = passenger.id))
        let call := Call.passengersUpdate passenger.id ctx.targetUserId
          (passengerUpdatePayload passenger me)
        match resp.error with
        | some e =>
          { calls := [call], flights := ctx.flights
            toasts := [Toast.error ("Failed to update passenger: " ++ e)]
            outcome := Outcome.threw e }
        | none =>
          match resp.data with
          | none =>
            { calls := [call], flights := ctx.flights, toasts := [], outcome := Outcome.returned }
          | some data =>
            let managed := manageInfants data.id ctx.targetUserId passenger.infants me
              infantsDeleteError infantsInsertError
            match managed.2 with
            | Outcome.threw e =>
              { calls := call :: managed.1, flights := ctx.flights, toasts := []
                outcome := Outcome.threw e }
            | Outcome.returned =>
              let flights1 := ctx.flights.map (fun f =>
                if patchesFlight flight flightId f then
                  { f with passengers := f.passengers.map (fun p =>
                      if p.row.id = data.id then passengerOfRow data passenger.infants else p) }
                else f)
              match existingPassenger with
              | none =>
                { calls := call :: managed.1, flights := flights1
                  toasts := [Toast.success "Passenger updated successfully"]
                  outcome := Outcome.returned }
              | some _ =>
                let logged := logActivity me "UPDATE" "PASSENGER" data.id logResult
                match logged.2 with
                | Outcome.threw e =>
                  { calls := call :: (managed.1 ++ logged.1), flights := flights1, toasts := []
                    outcome := Outcome.threw e }
                | Outcome.returned =>
                  { calls := call :: (managed.1 ++ logged.1), flights := flights1
                    toasts := [Toast.success "Passenger updated successfully"]
                    outcome := Outcome.returned }
      else
        let call := Call.passengersInsert
          (passengerInsertPayload flight ctx.targetUserId passenger me today)
        match resp.error with
        | some e =>
          { calls := [call], flights := ctx.flights
            toasts := [Toast.error ("Failed to add passenger: " ++ e)]
            outcome := Outcome.threw e }
        | none =>
          match resp.data with
          | none =>
            { calls := [call], flights := ctx.flights, toasts := [], outcome := Outcome.returned }
          | some data =>
            let managed := manageInfants data.id ctx.targetUserId passenger.infants me
              infantsDeleteError infantsInsertError
            match managed.2 with
            | Outcome.threw e =>
              { calls := call :: managed.1, flights := ctx.flights, toasts := []
                outcome := Outcome.threw e }
            | Outcome.returned =>
              let flights1 := ctx.flights.map (fun f =>
                if patchesFlight flight flightId f then
                  { f with passengers := f.passengers ++ [passengerOfRow data passenger.infants] }
                else f)
              { calls := call :: managed.1, flights := flights1
                toasts := [Toast.success "Passenger added successfully"]
                outcome := Outcome.returned }

/-- The ownership check `passenger?.created_by === currentUser.id`. -/
def isPassengerOwner (passenger : Option Passenger) (me : String) : Bool :=
  match passenger with
  | none => false
  | some p => decide (p.row.created_by = JVal.str me)

/-- The operation `removePassengerFromFlight(flightId, passengerId)` (lines 644-690);
`respError` is the `error` of the backend's answer to the delete. -/
def removePassengerFromFlight (ctx : Ctx) (flightId passengerId : JVal)
    (respError : Option String) (logResult : LogResult) : OpResult :=
  match ctx.currentUser with
  | none => { calls := [], flights := ctx.flights, toasts := [], outcome := Outcome.returned }
  | some me =>
    match getFlight ctx.flights flightId with
    | Except.error e =>
      { calls := [], flights := ctx.flights, toasts := [], outcome := Outcome.threw e }
    | Except.ok none =>
      { calls := [], flights := ctx.flights, toasts := [], outcome := Outcome.returned }
    | Except.ok (some flight) =>
      let passenger := flight.passengers.find? (fun p => decide (p.row.id = passengerId))
      let isOwner := isPassengerOwner passenger me
      if !(hasPermission ctx.userRole ctx.roleDefinitions "passenger" "delete").truthy
          && !isOwner then
        { calls := [], flights := ctx.flights
          toasts := [Toast.error "You do not have permission to remove this passenger"]
          outcome := Outcome.returned }
      else
        let call := Call.passengersDelete passengerId ctx.targetUserId
        match respError with
        | some e =>
          { calls := [call], flights := ctx.flights
            toasts := [Toast.error ("Failed to remove passenger: " ++ e)]
            outcome := Outcome.threw e }
        | none =>
          let flights1 := ctx.flights.map (fun f =>
            if patchesFlight flight flightId f then
              { f with passengers := f.passengers.filter (fun p => decide (p.row.id ≠ passengerId)) }
            else f)
          match passenger with
          | none =>
            { calls := [call], flights := flights1
              toasts := [Toast.success "Passenger removed successfully"]
              outcome := Outcome.returned }
          | some _ =>
            let logged := logActivity me "DELETE" "PASSENGER" passengerId logResult
            match logged.2 with
            | Outcome.threw e =>
              { calls := call :: logged.1, flights := flights1, toasts := []
                outcome := Outcome.threw e }
            | Outcome.returned =>
              { calls := call :: logged.1, flights := flights1
                toasts := [Toast.success "Passenger removed successfully"]
                outcome := Outcome.returned }

/-! ## The full provider state and the account-wide operations -/

/-- What `useAuth()` supplies: `currentUser.id` (`none` when nobody is signed in) and
the acting role. -/
structure Actor where
  currentUser : Option String
  userRole : Option String
  deriving DecidableEq, Repr

/-- The state of `FlightProvider`. -/
structure State where
  flights : List Flight
  airlines : List Airline
  agencies : List Agency
  prices : Prices
  users : List User
  roleDefinitions : List RoleDefinition
  targetUserId : JVal
  agencyName : JVal
  agencyTagline : JVal
  loading : Bool
  deriving DecidableEq, Repr

/-- The part of the state the flight and passenger operations close over. -/
def State.ctx (a : Actor) (st : State) : Ctx :=
  { currentUser := a.currentUser
    userRole := a.userRole
    flights := st.flights
    roleDefinitions := st.roleDefinitions
    targetUserId := st.targetUserId }

/-- What one operation did, over the full provider state. -/
structure StResult where
  calls : List Call
  state : State
  toasts : List Toast
  outcome : Outcome
  deriving Repr

/-- A flight or passenger operation seen on the full state: it calls no setter
other than `setFlights`. -/
def liftFlights (st : State) (r : OpResult) : StResult :=
  { calls := r.calls, state := { st with flights := r.flights }, toasts := r.toasts
    outcome := r.outcome }

/-- An operation that did nothing before returning. -/
def StResult.skip (st : State) : StResult :=
  { calls := [], state := st, toasts := [], outcome := Outcome.returned }

/-- The operation `createFlight(flight)` (lines 307-338), with the value it
resolves to. -/
def createFlight (toTime : JVal → Option Int) (a : Actor) (st : State) (flight : FlightInput)
    (resp : Res FlightRow) : StResult × Option FlightRow :=
  match a.currentUser with
  | none => (StResult.skip st, none)
  | some me =>
    if !st.targetUserId.truthy then (StResult.skip st, none)
    else
      let flightData : FlightInsert :=
        { user_id := st.targetUserId
          airline := flight.airline
          flight_number := JVal.or flight.flightNumber flight.flight_number
          date := flight.date
          route := flight.route
          created_by := JVal.str me }
      let call := Call.flightsInsert flightData
      match resp.error with
      | some e =>
        ({ calls := [call], state := st
           toasts := [Toast.error ("Failed to create flight: " ++ e)]
           outcome := Outcome.threw e }, none)
      | none =>
        match resp.data with
        | none => ({ calls := [call], state := st, toasts := [], outcome := Outcome.returned }, none)
        | some data =>
          let created : Flight := { row := data, flightNumber := JVal.undefined, passengers := [] }
          let flights1 := sortFlights toTime (st.flights ++ [created])
          ({ calls := [call]
             state := { st with flights := flights1 }
             toasts := [Toast.success "Flight created successfully"]
             outcome := Outcome.returned }, some data)

/-- The object `addAirline` and `updateAirline` build from their argument (lines
695-711 and 750-765), before `user_id` and `id` are set. -/
def airlinePayload (airline : AirlineInput) (me : String) : AirlinePayload :=
  { user_id := JVal.undefined
    name := readProp airline.name
    ticket_template :=
      nullishOr airline.ticketTemplate (nullishOr airline.ticket_template (JVal.str ""))
    manifest_template :=
      nullishOr airline.manifestTemplate (nullishOr airline.manifest_template (JVal.str ""))
    manifest_us := nullishOr airline.manifestUs (nullishOr airline.manifest_us (JVal.str ""))
    manifest_airport :=
      nullishOr airline.manifestAirport (nullishOr airline.manifest_airport (JVal.str ""))
    default_booking_reference :=
      nullishOr airline.defaultBookingReference
        (nullishOr airline.default_booking_reference (JVal.str ""))
    default_flight_number :=
      nullishOr airline.defaultFlightNumber
        (nullishOr airline.default_flight_number (JVal.str ""))
    adult_price := nullishOr airline.adultPrice (JVal.num 0)
    child_price := nullishOr airline.childPrice (JVal.num 0)
    infant_price := nullishOr airline.infantPrice (JVal.num 0)
    tax := nullishOr airline.tax (JVal.num 0)
    surcharge := nullishOr airline.surcharge (JVal.num 0)
    updated_by := JVal.str me
    id := JVal.undefined }

/-- The local airline `addAirline` builds from a refetched row (lines 730-743). -/
def airlineOfRefetched (r : AirlineRow) : Airline :=
  { id := r.id
    name := r.name
    ticketTemplate := r.ticket_template
    manifestTemplate := JVal.undefined
    manifestUs := r.manifest_us
    manifestAirport := r.manifest_airport
    defaultBookingReference := r.default_booking_reference
    defaultFlightNumber := r.default_flight_number
    adultPrice := r.adult_price
    childPrice := r.child_price
    infantPrice := r.infant_price
    tax := r.tax
    surcharge := r.surcharge
    updatedAt := JVal.undefined
    updatedBy := JVal.undefined }

/-- The operation `addAirline(airline)` (lines 693-746); `respError` is the `error`
of the insert and `refetched` the `data` of the select that follows it. -/
def addAirline (a : Actor) (st : State) (airline : AirlineInput) (respError : Option String)
    (refetched : Option (List AirlineRow)) : StResult :=
  match a.currentUser with
  | none => StResult.skip st
  | some me =>
    if !st.targetUserId.truthy then StResult.skip st
    else
      let base := airlinePayload airline me
      let airlineData : AirlinePayload :=
        { base with
          user_id := st.targetUserId
          id := if (readProp airline.id).truthy then readProp airline.id else JVal.undefined }
      let call := Call.airlinesInsert airlineData
      match respError with
      | some e =>
        { calls := [call], state := st
          toasts := [Toast.error ("Failed to add airline: " ++ e)]
          outcome := Outcome.threw e }
      | none =>
        let sel := Call.airlinesSelect (JVal.str me)
        match refetched with
        | none => { calls := [call, sel], state := st, toasts := [], outcome := Outcome.returned }
        | some newAirlines =>
          { calls := [call, sel]
            state := { st with airlines := newAirlines.map airlineOfRefetched }
            toasts := [Toast.success "Airline added successfully"]
            outcome := Outcome.returned }

/-- The merge `{ ...a, ...updatedAirline }` on the properties an airline of the
snapshot carries. -/
def mergeAirline (a : Airline) (u : AirlineInput) : Airline :=
  { id := u.id.getD a.id
    name := u.name.getD a.name
    ticketTemplate := u.ticketTemplate.getD a.ticketTemplate
    manifestTemplate := u.manifestTemplate.getD a.manifestTemplate
    manifestUs := u.manifestUs.getD a.manifestUs
    manifestAirport := u.manifestAirport.getD a.manifestAirport
    defaultBookingReference := u.defaultBookingReference.getD a.defaultBookingReference
    defaultFlightNumber := u.defaultFlightNumber.getD a.defaultFlightNumber
    adultPrice := u.adultPrice.getD a.adultPrice
    childPrice := u.childPrice.getD a.childPrice
    infantPrice := u.infantPrice.getD a.infantPrice
    tax := u.tax.getD a.tax
    surcharge := u.surcharge.getD a.surcharge
    updatedAt := u.updatedAt.getD a.updatedAt
    updatedBy := u.updatedBy.getD a.updatedBy }

/-- The tail shared by the operations that log after their optimistic update: the
log is written only when the record was found in the snapshot the closure holds. -/
def finishLogged (call : Call) (st1 : State) (found : Bool) (me : String)
    (actionType entityType : String) (id : JVal) (done : List Toast) (logResult : LogResult) :
    StResult :=
  if found then
    let logged := logActivity me actionType entityType id logResult
    match logged.2 with
    | Outcome.threw e =>
      { calls := call :: logged.1, state := st1, toasts := [], outcome := Outcome.threw e }
    | Outcome.returned =>
      { calls := call :: logged.1, state := st1, toasts := done, outcome := Outcome.returned }
  else { calls := [call], state := st1, toasts := done, outcome := Outcome.returned }

/-- The operation `updateAirline(id, updatedAirline)` (lines 748-792). -/
def updateAirline (a : Actor) (st : State) (id : JVal) (updatedAirline : AirlineInput)
    (respError : Option String) (logResult : LogResult) : StResult :=
  match a.currentUser with
  | none => StResult.skip st
  | some me =>
    let call := Call.airlinesUpdate id st.targetUserId (airlinePayload updatedAirline me)
    match respError with
    | some e =>
      { calls := [call], state := st
        toasts := [Toast.error ("Failed to update airline: " ++ e)]
        outcome := Outcome.threw e }
    | none =>
      let airlines1 := st.airlines.map
        (fun x => if x.id = id then mergeAirline x updatedAirline else x)
      let st1 := { st with airlines := airlines1 }
      finishLogged call st1 (st.airlines.find? (fun x => decide (x.id = id))).isSome me
        "UPDATE" "AIRLINE" id [Toast.success "Airline updated successfully"] logResult

/-- The operation `deleteAirline(id)` (lines 794-819). -/
def deleteAirline (a : Actor) (st : State) (id : JVal) (respError : Option String)
    (logResult : LogResult) : StResult :=
  match a.currentUser with
  | none => StResult.skip st
  | some me =>
    let call := Call.airlinesDelete id st.targetUserId
    match respError with
    | some e =>
      { calls := [call], state := st
        toasts := [Toast.error ("Failed to delete airline: " ++ e)]
        outcome := Outcome.threw e }
    | none =>
      let st1 := { st with airlines := st.airlines.filter (fun x => decide (x.id ≠ id)) }
      finishLogged call st1 (st.airlines.find? (fun x => decide (x.id = id))).isSome me
        "DELETE" "AIRLINE" id [Toast.success "Airline deleted successfully"] logResult

/-- JavaScript `a || b` on two properties that may be absent. -/
def propOr (a b : Option JVal) : JVal := JVal.or (readProp a) (readProp b)

/-- The object `addAgency` and `updateAgency` build from their argument (lines
828-835 and 866-872), before `user_id` and `id` are set. -/
def agencyPayload (agency : AgencyInput) (me : String) : AgencyPayload :=
  { user_id := JVal.undefined
    name := readProp agency.name
    phone := readProp agency.phone
    manager_name := propOr agency.managerName agency.manager_name
    manager_phone := propOr agency.managerPhone agency.manager_phone
    updated_by := JVal.str me
    id := JVal.undefined }

/-- The local agency `addAgency` builds from a refetched row (lines 854-860). -/
def agencyOfRefetched (r : AgencyRow) : Agency :=
  { id := r.id
    name := r.name
    phone := r.phone
    managerName := r.manager_name
    managerPhone := r.manager_phone
    updatedAt := JVal.undefined
    updatedBy := JVal.undefined }

/-- The operation `addAgency(agency)` (lines 826-862). -/
def addAgency (a : Actor) (st : State) (agency : AgencyInput) (respError : Option String)
    (refetched : Option (List AgencyRow)) : StResult :=
  match a.currentUser with
  | none => StResult.skip st
  | some me =>
    if !st.targetUserId.truthy then StResult.skip st
    else
      let base := agencyPayload agency me
      let agencyData : AgencyPayload :=
        { base with
          user_id := st.targetUserId
          id := if (readProp agency.id).truthy then readProp agency.id else JVal.undefined }
      let call := Call.agenciesInsert agencyData
      match respError with
      | some e =>
        { calls := [call], state := st
          toasts := [Toast.alert ("Failed to add agency: " ++ e)]
          outcome := Outcome.threw e }
      | none =>
        let sel := Call.agenciesSelect (JVal.str me)
        match refetched with
        | none => { calls := [call, sel], state := st, toasts := [], outcome := Outcome.returned }
        | some newAgencies =>
          { calls := [call, sel]
            state := { st with agencies := newAgencies.map agencyOfRefetched }
            toasts := []
            outcome := Outcome.returned }

/-- The merge `{ ...a, ...updatedAgency }` on the properties an agency of the
snapshot carries. -/
def mergeAgency (a : Agency) (u : AgencyInput) : Agency :=
  { id := u.id.getD a.id
    name := u.name.getD a.name
    phone := u.phone.getD a.phone
    managerName := u.managerName.getD a.managerName
    managerPhone := u.managerPhone.getD a.managerPhone
    updatedAt := u.updatedAt.getD a.updatedAt
    updatedBy := u.updatedBy.getD a.updatedBy }

/-- The operation `updateAgency(id, updatedAgency)` (lines 864-896). -/
def updateAgency (a : Actor) (st : State) (id : JVal) (updatedAgency : AgencyInput)
    (respError : Option String) (logResult : LogResult) : StResult :=
  match a.currentUser with
  | none => StResult.skip st
  | some me =>
    let call := Call.agenciesUpdate id st.targetUserId (agencyPayload updatedAgency me)
    match respError with
    | some e =>
      { calls := [call], state := st
        toasts := [Toast.alert ("Failed to update agency: " ++ e)]
        outcome := Outcome.threw e }
    | none =>
      let agencies1 := st.agencies.map
        (fun x => if x.id = id then mergeAgency x updatedAgency else x)
      let st1 := { st with agencies := agencies1 }
      finishLogged call st1 (st.agencies.find? (fun x => decide (x.id = id))).isSome me
        "UPDATE" "AGENCY" id [] logResult

/-- The operation `deleteAgency(id)` (lines 898-921). -/
def deleteAgency (a : Actor) (st : State) (id : JVal) (respError : Option String)
    (logResult : LogResult) : StResult :=
  match a.currentUser with
  | none => StResult.skip st
  | some me =>
    let call := Call.agenciesDelete id st.targetUserId
    match respError with
    | some e =>
      { calls := [call], state := st
        toasts := [Toast.alert ("Failed to delete agency: " ++ e)]
        outcome := Outcome.threw e }
    | none =>
      let st1 := { st with agencies := st.agencies.filter (fun x => decide (x.id ≠ id)) }
      finishLogged call st1 (st.agencies.find? (fun x => decide (x.id = id))).isSome me
        "DELETE" "AGENCY" id [] logResult

/-- The argument of `updatePrices`. -/
structure PriceInput where
  adult : JVal
  child : JVal
  infant : JVal
  tax : JVal
  surcharge : JVal
  deriving DecidableEq, Repr

/-- The choice `newPrices.x || prices.x`. -/
def orPrice (v : JVal) (p : JNum) : NVal :=
  if v.truthy then some v else p.map JVal.num

/-- The operation `updatePrices(newPrices)` (lines 1003-1036); `numberStr` is the
numeric value `Number` gives a string. -/
def updatePrices (numberStr : String → JNum) (a : Actor) (st : State) (newPrices : PriceInput)
    (respError : Option String) : StResult :=
  match a.currentUser with
  | none => StResult.skip st
  | some me =>
    if !st.targetUserId.truthy then StResult.skip st
    else
      let priceData : PricePayload :=
        { user_id := st.targetUserId
          adult_price := orPrice newPrices.adult st.prices.adult
          child_price := orPrice newPrices.child st.prices.child
          infant_price := orPrice newPrices.infant st.prices.infant
          tax := orPrice newPrices.tax st.prices.tax
          surcharge := orPrice newPrices.surcharge st.prices.surcharge
          updated_by := JVal.str me }
      let call := Call.settingsUpsert priceData
      match respError with
      | some e =>
        { calls := [call], state := st
          toasts := [Toast.error ("Failed to update prices: " ++ e)]
          outcome := Outcome.threw e }
      | none =>
        let prices1 : Prices :=
          { adult := jsNumber numberStr priceData.adult_price
            child := jsNumber numberStr priceData.child_price
            infant := jsNumber numberStr priceData.infant_price
            tax := jsNumber numberStr priceData.tax
            surcharge := jsNumber numberStr priceData.surcharge
            updatedAt := JVal.undefined
            updatedBy := JVal.undefined }
        { calls := [call], state := { st with prices := prices1 }
          toasts := [Toast.success "Prices updated successfully"]
          outcome := Outcome.returned }

/-- The answer of a write that ends in `.select('*').single()`: the row, or an
error. -/
inductive Single (α : Type) where
  | row (data : α)
  | error (message : String)
  deriving Repr

/-- The matrix `defaultPermissions` of `addRole` (lines 1043-1054). -/
def defaultPermissions : PermissionMatrix :=
  [("flight", [("create", JVal.bool false), ("delete", JVal.bool false),
      ("delete_own", JVal.bool false), ("view_own", JVal.bool true),
      ("view_any", JVal.bool false)]),
   ("passenger", [("create", JVal.bool false), ("delete", JVal.bool false),
      ("delete_own", JVal.bool false), ("view_own", JVal.bool true),
      ("view_any", JVal.bool false)]),
   ("generating", [("batch", JVal.bool false), ("manifest", JVal.bool false),
      ("ticket", JVal.bool false), ("download", JVal.bool false)]),
   ("searching", [("past", JVal.bool false), ("upcoming", JVal.bool false)]),
   ("settings", [("airline_create", JVal.bool false), ("airline_update", JVal.bool false),
      ("airline_delete", JVal.bool false), ("pricing_edit", JVal.bool false),
      ("agency_create", JVal.bool false), ("agency_update", JVal.bool false),
      ("agency_delete", JVal.bool false), ("user_create", JVal.bool false),
      ("user_activate", JVal.bool false), ("user_deactivate", JVal.bool false)])]

/-- The operation `addRole(roleName)` (lines 1039-1071), with the value it
resolves to. -/
def addRole (a : Actor) (st : State) (roleName : String) (resp : Single RoleDefinition) :
    StResult × Option RoleDefinition :=
  match a.currentUser with
  | none => (StResult.skip st, none)
  | some _ =>
    let call := Call.rolePermissionsInsert roleName defaultPermissions
    match resp with
    | Single.error e =>
      ({ calls := [call], state := st
         toasts := [Toast.error ("Failed to add role: " ++ e)]
         outcome := Outcome.threw e }, none)
    | Single.row data =>
      ({ calls := [call]
         state := { st with roleDefinitions := st.roleDefinitions ++ [data] }
         toasts := [Toast.success ("Role '" ++ roleName ++ "' created")]
         outcome := Outcome.returned }, some data)

/-- The operation `updateRolePermissions(roleId, newPermissions)` (lines 1073-1091). -/
def updateRolePermissions (a : Actor) (st : State) (roleId : JVal)
    (newPermissions : PermissionMatrix) (resp : Single RoleDefinition) : StResult :=
  match a.currentUser with
  | none => StResult.skip st
  | some _ =>
    let call := Call.rolePermissionsUpdate roleId newPermissions
    match resp with
    | Single.error e =>
      { calls := [call], state := st
        toasts := [Toast.error ("Failed to update permissions: " ++ e)]
        outcome := Outcome.threw e }
    | Single.row data =>
      let defs1 := st.roleDefinitions.map (fun r => if r.id = roleId then data else r)
      { calls := [call], state := { st with roleDefinitions := defs1 }
        toasts := [Toast.success "Role permissions updated"]
        outcome := Outcome.returned }

/-- An operation whose write was refused with `e`: the local state is what it was,
and if a call was issued at all the operation rejected with `e`. -/
def RejectedWith (st : State) (e : String) (r : StResult) : Prop :=
  r.state = st ∧ (r.calls ≠ [] → r.outcome = Outcome.threw e)

/-! ## The backend's `infants` table -/

/-- The row the backend stores for an inserted object (the generated key is not
modelled). -/
def storedInfant (r : InfantInsert) : InfantRow :=
  { id := JVal.null, passenger_id := r.passenger_id, user_id := r.user_id, name := r.name
    created_by := r.created_by }

/-- The effect of one accepted call on the `infants` table: the delete removes the
rows of the passenger, the insert appends its rows, any other call leaves the table. -/
def applyInfantsCall (table : List InfantRow) : Call → List InfantRow
  | Call.infantsDelete passengerId =>
    table.filter (fun r => decide (r.passenger_id ≠ passengerId))
  | Call.infantsInsert rows => table ++ rows.map storedInfant
  | _ => table

/-- The `infants` table after a sequence of accepted calls. -/
def applyInfantsCalls (table : List InfantRow) (calls : List Call) : List InfantRow :=
  calls.foldl applyInfantsCall table

/-- The infant names stored for a passenger, in table order. -/
def storedInfantNames (table : List InfantRow) (passengerId : JVal) : List String :=
  (table.filter (fun r => decide (r.passenger_id = passengerId))).map (fun r => r.name)

/-! ## Persisted-record identifiers, in the spec's words -/

/-- Follows the spec's words: a hexadecimal digit, in either case. -/
def IsHexChar (c : Char) : Prop :=
  ('0' ≤ c ∧ c ≤ '9') ∨ ('a' ≤ c ∧ c ≤ 'f') ∨ ('A' ≤ c ∧ c ≤ 'F')

/-- Follows the spec's words: a well-formed persisted-record identifier is a string
made of five groups of 8, 4, 4, 4 and 12 hexadecimal digits joined by hyphens, with
nothing before or after. -/
def IsPersistedId (id : JVal) : Prop :=
  ∃ g1 g2 g3 g4 g5 : List Char,
    g1.length = 8 ∧ g2.length = 4 ∧ g3.length = 4 ∧ g4.length = 4 ∧ g5.length = 12 ∧
    (∀ c ∈ g1 ++ g2 ++ g3 ++ g4 ++ g5, IsHexChar c) ∧
    id = JVal.str (String.mk (g1 ++ '-' :: (g2 ++ '-' :: (g3 ++ '-' :: (g4 ++ '-' :: g5)))))

/-! ## The passenger form (`PassengerForm.jsx`) -/

/-- The pricing columns of the airline a form is opened for: each is a number, or
`none` when the value is `null` or `undefined`. -/
structure AirlineConfig where
  adultPrice : Option Int
  childPrice : Option Int
  infantPrice : Option Int
  tax : Option Int
  surcharge : Option Int
  defaultBookingReference : JVal
  deriving DecidableEq, Repr

/-- What the form closes over: the prop `airlineConfig` (`none` when absent), the
global `prices`, and the numeric value `Number` gives a string. -/
structure FormEnv where
  airlineConfig : Option AirlineConfig
  prices : Prices
  numberStr : String → JNum

/-- The choice `airlineConfig?.x ?? prices.x`. -/
def pickPrice (airlineConfig : Option AirlineConfig) (column : AirlineConfig → Option Int)
    (fallback : JNum) : JNum :=
  match airlineConfig.bind column with
  | some v => some v
  | none => fallback

/-- JavaScript `x || 0` on a value that may be `NaN`. -/
def orZero (x : NVal) : NVal := if x.truthy then x else some (JVal.num 0)

/-- A number as a value. -/
def ofJNum (n : JNum) : NVal := n.map JVal.num

/-- The function `calculateTotal(type, tax, surcharge, infantCount)` (lines 116-122) over
whole amounts, where no sum rounds; `Ieee.calculateTotal` is the same function in the
binary64 arithmetic of the engine. -/
def calculateTotal (env : FormEnv) (type : JVal) (tax surcharge : NVal) (infantCount : Nat) :
    JNum :=
  let adultPrice := pickPrice env.airlineConfig (fun c => c.adultPrice) env.prices.adult
  let childPrice := pickPrice env.airlineConfig (fun c => c.childPrice) env.prices.child
  let base := if type = JVal.str "Child" then childPrice else adultPrice
  let infantRate := pickPrice env.airlineConfig (fun c => c.infantPrice) env.prices.infant
  JNum.add
    (JNum.add (JNum.add base (jsNumber env.numberStr (orZero tax)))
      (jsNumber env.numberStr (orZero surcharge)))
    (JNum.mul (some (infantCount : Int)) infantRate)

/-- The state `passenger` of the form. -/
structure PassengerFormState where
  id : JVal
  type : JVal
  gender : JVal
  name : JVal
  hasInfants : JVal
  infants : List String
  phoneNumber : JVal
  date : JVal
  bookingReference : JVal
  flightNumber : JVal
  basePrice : NVal
  infantPrice : NVal
  tax : NVal
  surcharge : NVal
  totalPrice : NVal
  agency : JVal
  dateOfIssue : JVal
  deriving DecidableEq, Repr

/-- The props and clock `resetForm` reads besides the pricing. -/
structure FormProps where
  currentFlightDate : JVal
  currentFlightNumber : JVal
  currentUserAgency : JVal
  systemAgencyName : JVal
  today : String
  deriving DecidableEq, Repr

/-- The state `resetForm` sets (lines 72-89), which is also the initial state of
`useState` (lines 22-39). -/
def resetForm (env : FormEnv) (props : FormProps) : PassengerFormState :=
  let adult := pickPrice env.airlineConfig (fun c => c.adultPrice) env.prices.adult
  let tax := pickPrice env.airlineConfig (fun c => c.tax) env.prices.tax
  let surcharge := pickPrice env.airlineConfig (fun c => c.surcharge) env.prices.surcharge
  { id := JVal.undefined
    type := JVal.str "Adult"
    gender := JVal.str "M"
    name := JVal.str ""
    hasInfants := JVal.bool false
    infants := []
    phoneNumber := JVal.str ""
    date := JVal.or props.currentFlightDate (JVal.str props.today)
    bookingReference :=
      JVal.or ((env.airlineConfig.map (fun c => c.defaultBookingReference)).getD JVal.undefined)
        (JVal.str "AIEW07")
    flightNumber := JVal.or props.currentFlightNumber (JVal.str "FLY24ADDB1")
    basePrice := ofJNum adult
    infantPrice := ofJNum (pickPrice env.airlineConfig (fun c => c.infantPrice) env.prices.infant)
    tax := ofJNum tax
    surcharge := ofJNum surcharge
    totalPrice := ofJNum (JNum.add (JNum.add adult tax) surcharge)
    agency := JVal.or (JVal.or props.currentUserAgency props.systemAgencyName) (JVal.str "Us")
    dateOfIssue := JVal.str props.today }

/-- The controls of the form that `handleChange` is attached to. -/
inductive FormField where
  | type
  | gender
  | name
  | hasInfants
  | phoneNumber
  | date
  | agency
  | bookingReference
  | flightNumber
  | dateOfIssue
  | tax
  | surcharge
  | totalPrice
  deriving DecidableEq, Repr

/-- The attribute `name` of a control. -/
def FormField.attrName : FormField → String
  | FormField.type => "type"
  | FormField.gender => "gender"
  | FormField.name => "name"
  | FormField.hasInfants => "hasInfants"
  | FormField.phoneNumber => "phoneNumber"
  | FormField.date => "date"
  | FormField.agency => "agency"
  | FormField.bookingReference => "bookingReference"
  | FormField.flightNumber => "flightNumber"
  | FormField.dateOfIssue => "dateOfIssue"
  | FormField.tax => "tax"
  | FormField.surcharge => "surcharge"
  | FormField.totalPrice => "totalPrice"

/-- The property `type` of the element of a control. -/
def FormField.inputType : FormField → String
  | FormField.type => "select-one"
  | FormField.gender => "select-one"
  | FormField.agency => "select-one"
  | FormField.hasInfants => "checkbox"
  | FormField.date => "date"
  | FormField.dateOfIssue => "date"
  | FormField.tax => "number"
  | FormField.surcharge => "number"
  | FormField.totalPrice => "number"
  | _ => "text"

/-- The computed-key update `{ ...prev, [name]: val }` for the name of a control. -/
def setField (prev : PassengerFormState) (field : FormField) (val : JVal) :
    PassengerFormState :=
  match field with
  | FormField.type => { prev with type := val }
  | FormField.gender => { prev with gender := val }
  | FormField.name => { prev with name := val }
  | FormField.hasInfants => { prev with hasInfants := val }
  | FormField.phoneNumber => { prev with phoneNumber := val }
  | FormField.date => { prev with date := val }
  | FormField.agency => { prev with agency := val }
  | FormField.bookingReference => { prev with bookingReference := val }
  | FormField.flightNumber => { prev with flightNumber := val }
  | FormField.dateOfIssue => { prev with dateOfIssue := val }
  | FormField.tax => { prev with tax := some val }
  | FormField.surcharge => { prev with surcharge := some val }
  | FormField.totalPrice => { prev with totalPrice := some val }

/-- The state update of `handleChange(e)` (lines 137-157) for an event of a control
carrying `value` and `checked`. -/
def handleChange (env : FormEnv) (prev : PassengerFormState) (field : FormField)
    (value : String) (checked : Bool) : PassengerFormState :=
  let name := field.attrName
  let val := if field.inputType = "checkbox" then JVal.bool checked else JVal.str value
  let s0 := setField prev field val
  let s1 :=
    if name = "hasInfants" then
      if val.truthy && s0.infants.length == 0 then { s0 with infants := [""] }
      else if !val.truthy then { s0 with infants := [] }
      else s0
    else s0
  let s2 :=
    if name = "tax" ∨ name = "surcharge" ∨ name = "hasInfants" ∨ name = "type" then
      let infantCount :=
        if s1.hasInfants.truthy && decide (s1.type = JVal.str "Adult") then s1.infants.length
        else 0
      { s1 with totalPrice := ofJNum (calculateTotal env s1.type s1.tax s1.surcharge infantCount) }
    else s1
  if name = "type" ∧ val = JVal.str "Child" then
    { s2 with hasInfants := JVal.bool false, infants := [] }
  else s2

/-- The state update of `addInfant()` (lines 160-169). -/
def addInfant (env : FormEnv) (passenger : PassengerFormState) : PassengerFormState :=
  if passenger.infants.length < 5 then
    let newInfants := passenger.infants ++ [""]
    { passenger with
      infants := newInfants
      totalPrice := ofJNum
        (calculateTotal env passenger.type passenger.tax passenger.surcharge newInfants.length) }
  else passenger

/-- The array `passenger.infants.filter((_, i) => i !== index)`. -/
def dropIndex (l : List String) (index : Nat) : List String :=
  (l.enum.filter (fun p => decide (p.1 ≠ index))).map (fun p => p.2)

/-- The state update of `removeInfant(index)` (lines 171-179). -/
def removeInfant (env : FormEnv) (passenger : PassengerFormState) (index : Nat) :
    PassengerFormState :=
  let newInfants := dropIndex passenger.infants index
  { passenger with
    infants := newInfants
    hasInfants := JVal.bool (decide (newInfants.length > 0))
    totalPrice := ofJNum
      (calculateTotal env passenger.type passenger.tax passenger.surcharge newInfants.length) }

/-- The state update of `handleInfantChange(index, value)` (lines 181-195) for the
index of a rendered infant input; an index past the end would leave holes in the
array, which the list cannot hold, so it gives `none`. -/
def handleInfantChange (passenger : PassengerFormState) (index : Nat) (value : String) :
    Option PassengerFormState :=
  if index < passenger.infants.length then
    some { passenger with infants := passenger.infants.set index value }
  else none

/-- An interaction with the form. -/
inductive FormEvent where
  | change (field : FormField) (value : String) (checked : Bool)
  | addInfant
  | removeInfant (index : Nat)
  | infantChange (index : Nat) (value : String)
  deriving DecidableEq, Repr

/-- Whether the form renders the control of an event in a state (lines 247-412): the
gender select and the whole infant section only for `type === 'Adult'`, the infant
inputs, their remove buttons and the add button only with `hasInfants`, the add
button only below five infants. -/
def offers (s : PassengerFormState) : FormEvent → Bool
  | FormEvent.change FormField.gender _ _ => decide (s.type = JVal.str "Adult")
  | FormEvent.change FormField.hasInfants _ _ => decide (s.type = JVal.str "Adult")
  | FormEvent.change _ _ _ => true
  | FormEvent.addInfant =>
    decide (s.type = JVal.str "Adult") && s.hasInfants.truthy && decide (s.infants.length < 5)
  | FormEvent.removeInfant index =>
    decide (s.type = JVal.str "Adult") && s.hasInfants.truthy
      && decide (index < s.infants.length)
  | FormEvent.infantChange index _ =>
    decide (s.type = JVal.str "Adult") && s.hasInfants.truthy
      && decide (index < s.infants.length)

/-- The state after an interaction, `none` when the form does not offer it. -/
def dispatch (env : FormEnv) (s : PassengerFormState) (e : FormEvent) :
    Option PassengerFormState :=
  if offers s e then
    match e with
    | FormEvent.change field value checked => some (handleChange env s field value checked)
    | FormEvent.addInfant => some (addInfant env s)
    | FormEvent.removeInfant index => some (removeInfant env s index)
    | FormEvent.infantChange index value => handleInfantChange s index value
  else none

/-- The state after a sequence of interactions from the reset state, `none` when
one of them is not offered. -/
def runForm (env : FormEnv) (s : PassengerFormState) : List FormEvent → Option PassengerFormState
  | [] => some s
  | e :: rest =>
    match dispatch env s e with
    | none => none
    | some s1 => runForm env s1 rest

/-- The invariant of the form state: a child carries no infants. -/
def ChildHasNoInfants (s : PassengerFormState) : Prop :=
  s.type = JVal.str "Child" → s.infants = []

/-! ## Sample data -/

/-- The object `{}` read as a flight row: every column `undefined`. -/
def emptyFlightRow : FlightRow :=
  { id := JVal.undefined, uuid := JVal.undefined, user_id := JVal.undefined
    airline := JVal.undefined, flight_number := JVal.undefined, date := JVal.undefined
    route := JVal.undefined, created_by := JVal.undefined }

/-- The object `{}` read as a passenger row: every column `undefined`. -/
def emptyPassengerRow : PassengerRow :=
  { id := JVal.undefined, flight_id := JVal.undefined, user_id := JVal.undefined
    name := JVal.undefined, type := JVal.undefined, gender := JVal.undefined
    phone_number := JVal.undefined, agency := JVal.undefined, flight_number := JVal.undefined
    booking_reference := JVal.undefined, ticket_price := JVal.undefined, tax := JVal.undefined
    surcharge := JVal.undefined, total_price := JVal.undefined, date_of_issue := JVal.undefined
    created_by := JVal.undefined, updated_by := JVal.undefined }

/-- A flight row with a numeric id, a uuid, a date and a creator. -/
def sampleFlightRow (id : Int) (uuid date creator : String) : FlightRow :=
  { emptyFlightRow with
    id := JVal.num id, uuid := JVal.str uuid, date := JVal.str date
    created_by := JVal.str creator }

/-- A passenger row with an id, the uuid of its flight and a creator. -/
def samplePassengerRow (id flightUuid creator : String) : PassengerRow :=
  { emptyPassengerRow with
    id := JVal.str id, flight_id := JVal.str flightUuid, created_by := JVal.str creator }

/-- An infant row of a passenger. -/
def sampleInfantRow (passengerId name : String) : InfantRow :=
  { id := JVal.undefined, passenger_id := JVal.str passengerId, user_id := JVal.undefined
    name := name, created_by := JVal.undefined }

/-- A successful backend response. -/
def Res.ok {α : Type} (a : α) : Res α := { data := some a, error := none }

/-- A time value for the sample dates: the digits of an ISO date read as a number,
which orders `YYYY-MM-DD` strings as `new Date` does. -/
def sampleToTime : JVal → Option Int
  | JVal.str s => some (Int.ofNat ((s.toList.filter Char.isDigit).foldl
      (fun acc c => acc * 10 + (c.toNat - 48)) 0))
  | _ => none

/-- A role that sees only what it created. -/
def sampleStaffDef : RoleDefinition :=
  { id := JVal.num 1, role := "Staff"
    permissions := some
      [("flight", [("view_own", JVal.bool true), ("view_any", JVal.bool false)]),
       ("passenger", [("view_own", JVal.bool true), ("view_any", JVal.bool false)])] }

/-- A passenger of the snapshot without infants. -/
def samplePassenger (id flightUuid creator : String) : Passenger :=
  joinInfants [] (samplePassengerRow id flightUuid creator)

/-- A snapshot of a staff actor scoped to `owner1`: a flight of the owner holding a
passenger of the owner, and a flight of the actor holding one passenger of each. -/
def sampleCtx : Ctx :=
  { currentUser := some "staff1"
    userRole := some "Staff"
    flights :=
      [{ row := sampleFlightRow 2 "F2" "2026-01-11" "owner1"
         flightNumber := JVal.undefined
         passengers := [samplePassenger "22222222-2222-2222-2222-222222222222" "F2" "owner1"] },
       { row := sampleFlightRow 1 "F1" "2026-01-10" "staff1"
         flightNumber := JVal.undefined
         passengers :=
           [samplePassenger "11111111-1111-1111-1111-111111111111" "F1" "owner1",
            samplePassenger "33333333-3333-3333-3333-333333333333" "F1" "staff1"] }]
    roleDefinitions := [sampleStaffDef]
    targetUserId := JVal.str "owner1" }

/-- A passenger form object carrying only an id and a name. -/
def samplePassengerInput (id name : String) : PassengerInput :=
  { id := JVal.str id, name := JVal.str name, type := JVal.str "Adult"
    gender := JVal.str "M", phoneNumber := JVal.undefined, agency := JVal.undefined
    flightNumber := JVal.undefined, bookingReference := JVal.undefined
    ticketPrice := JVal.undefined, basePrice := JVal.undefined, tax := JVal.undefined
    surcharge := JVal.undefined, totalPrice := JVal.undefined, dateOfIssue := JVal.undefined
    infants := some [] }

/-- Passenger ids are primary keys: no id occurs twice in the snapshot. -/
def PassengerIdsUnique (flights : List Flight) : Prop :=
  (flights.flatMap (fun f => f.passengers.map (fun p => p.row.id))).Nodup

instance (flights : List Flight) : Decidable (PassengerIdsUnique flights) :=
  inferInstanceAs (Decidable (List.Nodup _))

/-- A signed-in staff actor. -/
def sampleActor : Actor := { currentUser := some "staff1", userRole := some "Staff" }

/-- An airline of the snapshot. -/
def sampleAirline : Airline :=
  { id := JVal.str "A1", name := JVal.str "FlyCo", ticketTemplate := JVal.str ""
    manifestTemplate := JVal.undefined, manifestUs := JVal.str "", manifestAirport := JVal.str ""
    defaultBookingReference := JVal.str "", defaultFlightNumber := JVal.str "FC"
    adultPrice := JVal.num 130, childPrice := JVal.num 90, infantPrice := JVal.num 20
    tax := JVal.num 10, surcharge := JVal.num 10
    updatedAt := JVal.undefined, updatedBy := JVal.undefined }

/-- An agency of the snapshot. -/
def sampleAgency : Agency :=
  { id := JVal.str "G1", name := JVal.str "Partner", phone := JVal.str "1"
    managerName := JVal.str "M", managerPhone := JVal.str "2"
    updatedAt := JVal.undefined, updatedBy := JVal.undefined }

/-- The default prices of the provider (lines 14-20). -/
def defaultPrices : Prices :=
  { adult := some 130, child := some 90, infant := some 20, tax := some 10, surcharge := some 10
    updatedAt := JVal.undefined, updatedBy := JVal.undefined }

/-- The state of the staff actor of `sampleCtx`, with one airline and one agency. -/
def sampleState : State :=
  { flights := sampleCtx.flights
    airlines := [sampleAirline]
    agencies := [sampleAgency]
    prices := defaultPrices
    users := []
    roleDefinitions := [sampleStaffDef]
    targetUserId := JVal.str "owner1"
    agencyName := JVal.str "AREYS"
    agencyTagline := JVal.str "Travel Agency"
    loading := false }

/-- An airline object that carries only a name. -/
def sampleAirlineInput (name : String) : AirlineInput :=
  { id := none, name := some (JVal.str name), ticketTemplate := none, ticket_template := none
    manifestTemplate := none, manifest_template := none, manifestUs := none, manifest_us := none
    manifestAirport := none, manifest_airport := none, defaultBookingReference := none
    default_booking_reference := none, defaultFlightNumber := none
    default_flight_number := none, adultPrice := none, childPrice := none, infantPrice := none
    tax := none, surcharge := none, updatedAt := none, updatedBy := none }

/-- An agency object that carries only a name. -/
def sampleAgencyInput (name : String) : AgencyInput :=
  { id := none, name := some (JVal.str name), phone := none, managerName := none
    manager_name := none, managerPhone := none, manager_phone := none
    updatedAt := none, updatedBy := none }

/-- The form opened without an airline, on the default prices, reading only decimal
numerals. -/
def sampleFormEnv : FormEnv :=
  { airlineConfig := none
    prices := defaultPrices
    numberStr := fun s => (s.toNat?).map Int.ofNat }

/-- The props of a form opened on no flight. -/
def sampleFormProps : FormProps :=
  { currentFlightDate := JVal.undefined, currentFlightNumber := JVal.undefined
    currentUserAgency := JVal.undefined, systemAgencyName := JVal.str "AREYS"
    today := "2026-01-01" }

/-! ## The whole of `loadInitialData` (lines 32-254) -/

/-- The row of `settings`. -/
structure SettingsRow where
  adult_price : JVal
  child_price : JVal
  infant_price : JVal
  tax : JVal
  surcharge : JVal
  updated_at : JVal
  updated_by : JVal
  agency_name : JVal
  agency_tagline : JVal
  deriving DecidableEq, Repr

/-- A row of `managed_users`. -/
structure ManagedUserRow where
  id : JVal
  managed_user_id : JVal
  name : JVal
  email : JVal
  role : JVal
  active : JVal
  agency_name : JVal
  deriving DecidableEq, Repr

/-- A row `{ user_id, name, email, agency_name }` of `user_roles`; `email` is a string
or, as `none`, `null`. -/
structure AccountRoleRow where
  user_id : JVal
  name : JVal
  email : Option String
  agency_name : JVal
  deriving DecidableEq, Repr

/-- The eight answers `Promise.all` resolves to (lines 68-79). -/
structure Batch where
  flightsRes : Res (List FlightRow)
  passengersRes : Res (List PassengerRow)
  infantsRes : Res (List InfantRow)
  airlinesRes : Res (List AirlineRow)
  agenciesRes : Res (List AgencyRow)
  settingsRes : Res SettingsRow
  usersRes : Res (List ManagedUserRow)
  rolesRes : Res (List RoleDefinition)

/-- What the backend answers during one run of `loadInitialData`: the `data` of the
role lookup, the batch, and the `data` of the account-roles query, each of which may
instead throw. -/
structure LoadResponses where
  roleLookup : Except String (Option RoleRow)
  batch : Except String Batch
  accountRoles : Except String (Option (List AccountRoleRow))

/-- JavaScript `parseFloat(x)`; `parseFloatStr` is its value on a string. -/
def jsParseFloat (parseFloatStr : String → JNum) : JVal → JNum
  | JVal.num n => some n
  | JVal.str s => parseFloatStr s
  | _ => none

/-- JavaScript `x || d` on a number. -/
def orNum (x : JNum) (d : Int) : JNum :=
  match x with
  | some n => if n ≠ 0 then some n else some d
  | none => some d

/-- The local airline the loader builds from a row (lines 152-167). -/
def airlineOfRow (r : AirlineRow) : Airline :=
  { airlineOfRefetched r with updatedAt := r.updated_at, updatedBy := r.updated_by }

/-- The local agency the loader builds from a row (lines 173-181). -/
def agencyOfRow (r : AgencyRow) : Agency :=
  { agencyOfRefetched r with updatedAt := r.updated_at, updatedBy := r.updated_by }

/-- The local user the loader builds from a row (lines 205-213). -/
def userOfRow (u : ManagedUserRow) : User :=
  { id := u.id, managed_user_id := u.managed_user_id, name := u.name, email := u.email
    role := u.role, active := u.active, agencyName := u.agency_name
    isAccountUser := JVal.undefined }

/-- The prices the loader builds from the settings row (lines 190-198). -/
def pricesOfRow (parseFloatStr : String → JNum) (d : SettingsRow) : Prices :=
  { adult := orNum (jsParseFloat parseFloatStr d.adult_price) 130
    child := orNum (jsParseFloat parseFloatStr d.child_price) 90
    infant := orNum (jsParseFloat parseFloatStr d.infant_price) 20
    tax := orNum (jsParseFloat parseFloatStr d.tax) 10
    surcharge := orNum (jsParseFloat parseFloatStr d.surcharge) 10
    updatedAt := d.updated_at
    updatedBy := d.updated_by }

/-- The value a setter receives from a fetched list: the mapped rows when the fetch
succeeded, the previous value when it did not (`if (!res.error && res.data)`). -/
def loadedList {α β : Type} (res : Res (List α)) (f : α → β) (prev : List β) : List β :=
  match res.error, res.data with
  | none, some rows => rows.map f
  | _, _ => prev

/-- The role definitions after the loader (lines 82-85 and 244-246). -/
def loadedRoleDefs (rolesRes : Res (List RoleDefinition)) (prev : List RoleDefinition) :
    List RoleDefinition :=
  match rolesRes.error, rolesRes.data with
  | none, some defs => defs
  | _, _ => prev

/-- The settings row when its fetch succeeded and found one. -/
def loadedSettings (settingsRes : Res SettingsRow) : Option SettingsRow :=
  match settingsRes.error, settingsRes.data with
  | none, some d => some d
  | _, _ => none

/-- The test `m.managed_user_id === au.user_id || m.id === au.user_id` (line 226). -/
def matchesAccount (au : AccountRoleRow) (m : User) : Bool :=
  decide (m.managed_user_id = au.user_id) || decide (m.id = au.user_id)

/-- The two in-place updates of an existing user (lines 236-237). -/
def updateExisting (au : AccountRoleRow) (m : User) : User :=
  let m1 := if !m.name.truthy && au.name.truthy then { m with name := au.name } else m
  if !m1.agencyName.truthy && au.agency_name.truthy then
    { m1 with agencyName := au.agency_name }
  else m1

/-- The part of an address before the first `@`: `email.split('@')[0]`. -/
def emailLocalPart (email : String) : String :=
  String.mk (email.toList.takeWhile (fun c => c != '@'))

/-- The user pushed for an account role nobody matches (lines 228-234). -/
def newAccountUser (au : AccountRoleRow) : User :=
  { id := au.user_id
    managed_user_id := JVal.undefined
    name := JVal.or
      (JVal.or au.name ((au.email.map (fun e => JVal.str (emailLocalPart e))).getD JVal.undefined))
      (JVal.str "Unknown")
    email := (au.email.map JVal.str).getD JVal.null
    role := JVal.undefined
    active := JVal.undefined
    agencyName := au.agency_name
    isAccountUser := JVal.bool true }

/-- One round of the `forEach` (lines 225-239): the first user the test accepts is
updated in place, and when there is none the new user is pushed. -/
def mergeStep (au : AccountRoleRow) : List User → List User
  | [] => [newAccountUser au]
  | m :: rest =>
    if matchesAccount au m then updateExisting au m :: rest else m :: mergeStep au rest

/-- The functional update `setUsers(prev => ...)` (lines 223-241). -/
def mergeAccountRoles (prev : List User) (allAccountRoles : List AccountRoleRow) : List User :=
  allAccountRoles.foldl (fun merged au => mergeStep au merged) prev

/-- The function `loadInitialData()` as a map on the provider state, for the answers
the backend gives during the run. -/
def loadInitialData (toTime : JVal → Option Int) (parseFloatStr : String → JNum) (a : Actor)
    (r : LoadResponses) (st : State) : State :=
  match a.currentUser with
  | none =>
    { st with
      flights := [], airlines := [], agencies := [], prices := defaultPrices, users := []
      roleDefinitions := [], loading := false }
  | some me =>
    match r.roleLookup with
    | Except.error _ => { st with loading := false }
    | Except.ok roleData =>
      let target := loadInitialDataTargetUserId me roleData
      match r.batch with
      | Except.error _ => { st with targetUserId := target, loading := false }
      | Except.ok b =>
        let settings := loadedSettings b.settingsRes
        let users1 := loadedList b.usersRes userOfRow st.users
        let loaded : State :=
          { flights :=
              (loadInitialDataFlights toTime me a.userRole b.flightsRes b.passengersRes
                b.infantsRes b.rolesRes).getD st.flights
            airlines := loadedList b.airlinesRes airlineOfRow st.airlines
            agencies := loadedList b.agenciesRes agencyOfRow st.agencies
            prices := (settings.map (pricesOfRow parseFloatStr)).getD st.prices
            users := users1
            roleDefinitions := loadedRoleDefs b.rolesRes st.roleDefinitions
            targetUserId := target
            agencyName :=
              match settings with
              | some d => if d.agency_name.truthy then d.agency_name else st.agencyName
              | none => st.agencyName
            agencyTagline :=
              match settings with
              | some d => if d.agency_tagline.truthy then d.agency_tagline else st.agencyTagline
              | none => st.agencyTagline
            loading := false }
        match r.accountRoles with
        | Except.error _ => loaded
        | Except.ok none => loaded
        | Except.ok (some allAccountRoles) =>
          { loaded with users := mergeAccountRoles users1 allAccountRoles }

/-- A user an account role has nothing left to give to. -/
def Settled (au : AccountRoleRow) (m : User) : Prop :=
  (m.name.truthy = true ∨ au.name.truthy = false) ∧
  (m.agencyName.truthy = true ∨ au.agency_name.truthy = false)

/-! ## Activity-log entries of an operation -/

/-- The rows an operation inserted into `activity_logs`, in the order of its calls. -/
def loggedEntries (calls : List Call) : List LogEntry :=
  calls.filterMap (fun c =>
    match c with
    | Call.activityLogsInsert entry => some entry
    | _ => none)

/-- The effect of one call on the `activity_logs` table when the backend answers
the log writes with `logResult`: an insert it accepts appends its row, an insert it
answers with an error or an exception appends nothing, any other call leaves the
table. -/
def applyLogCall (logResult : LogResult) (table : List LogEntry) : Call → List LogEntry
  | Call.activityLogsInsert entry =>
    match logResult with
    | LogResult.ok => table ++ [entry]
    | LogResult.error _ => table
    | LogResult.thrown _ => table
  | _ => table

/-- The `activity_logs` table after the calls of an operation. -/
def applyLogCalls (logResult : LogResult) (table : List LogEntry) (calls : List Call) :
    List LogEntry :=
  calls.foldl (applyLogCall logResult) table

/-! ## The backend's `airlines` and `agencies` tables -/

/-- The row the backend stores for an inserted airline: the columns of the payload,
under the key `newId` it generates when the payload carries none (the timestamp is
not modelled). -/
def storedAirline (p : AirlinePayload) (newId : JVal) : AirlineRow :=
  { id := if p.id = JVal.undefined then newId else p.id
    user_id := p.user_id
    name := p.name
    ticket_template := p.ticket_template
    manifest_template := p.manifest_template
    manifest_us := p.manifest_us
    manifest_airport := p.manifest_airport
    default_booking_reference := p.default_booking_reference
    default_flight_number := p.default_flight_number
    adult_price := p.adult_price
    child_price := p.child_price
    infant_price := p.infant_price
    tax := p.tax
    surcharge := p.surcharge
    updated_at := JVal.undefined
    updated_by := p.updated_by }

/-- The answer to `from('airlines').select('*').eq('user_id', userId)`. -/
def selectAirlines (table : List AirlineRow) (userId : JVal) : List AirlineRow :=
  table.filter (fun r => decide (r.user_id = userId))

/-- The operation `addAirline` run against a backend that holds `table` and accepts
the insert: the select the operation issues is answered from the table after the
insert. The second component is that table. -/
def addAirlineOn (table : List AirlineRow) (newId : JVal) (a : Actor) (st : State)
    (airline : AirlineInput) : StResult × List AirlineRow :=
  match (addAirline a st airline none none).calls with
  | [Call.airlinesInsert p, Call.airlinesSelect userId] =>
    let table1 := table ++ [storedAirline p newId]
    (addAirline a st airline none (some (selectAirlines table1 userId)), table1)
  | _ => (addAirline a st airline none none, table)

/-- The row the backend stores for an inserted agency. -/
def storedAgency (p : AgencyPayload) (newId : JVal) : AgencyRow :=
  { id := if p.id = JVal.undefined then newId else p.id
    user_id := p.user_id
    name := p.name
    phone := p.phone
    manager_name := p.manager_name
    manager_phone := p.manager_phone
    updated_at := JVal.undefined
    updated_by := p.updated_by }

/-- The answer to `from('agencies').select('*').eq('user_id', userId)`. -/
def selectAgencies (table : List AgencyRow) (userId : JVal) : List AgencyRow :=
  table.filter (fun r => decide (r.user_id = userId))

/-- The operation `addAgency` run against a backend that holds `table` and accepts
the insert. -/
def addAgencyOn (table : List AgencyRow) (newId : JVal) (a : Actor) (st : State)
    (agency : AgencyInput) : StResult × List AgencyRow :=
  match (addAgency a st agency none none).calls with
  | [Call.agenciesInsert p, Call.agenciesSelect userId] =>
    let table1 := table ++ [storedAgency p newId]
    (addAgency a st agency none (some (selectAgencies table1 userId)), table1)
  | _ => (addAgency a st agency none none, table)

/-! ## Name resolution (`resolveUserName`, lines 1102-1109) -/

/-- The function `resolveUserName(uuid)`; `currentUser?.id` is `undefined` when
nobody is signed in. -/
def resolveUserName (a : Actor) (users : List User) (uuid : JVal) : JVal :=
  if !uuid.truthy then JVal.str "System"
  else if uuid = (a.currentUser.map JVal.str).getD JVal.undefined then JVal.str "Me"
  else
    let user := users.find? (fun u => decide (u.managed_user_id = uuid) || decide (u.id = uuid))
    JVal.or ((user.map (fun u => u.name)).getD JVal.undefined) (JVal.str "User")

/-! ## Session lifetime (`AuthContext.jsx`, lines 256-284) -/

/-- The two items of `localStorage` the listener reads and writes; `none` is a
missing item. -/
structure SessionStore where
  last_active : Option String
  session_started : Option String
  deriving DecidableEq, Repr

/-- The expression `localStorage.getItem(key) || now.toString()`. -/
def storedOr (item : Option String) (now : Nat) : String :=
  match item with
  | some s => if s = "" then toString now else s
  | none => toString now

/-- The comparison `now - since > limit`, false on `NaN`. -/
def exceeds (now : Nat) (since : Option Int) (limit : Int) : Bool :=
  match since with
  | some t => decide ((now : Int) - t > limit)
  | none => false

/-- The constant `INACTIVITY_LIMIT`: two hours in milliseconds. -/
def INACTIVITY_LIMIT : Int := 2 * 60 * 60 * 1000

/-- The constant `MAX_SESSION`: twelve hours in milliseconds. -/
def MAX_SESSION : Int := 12 * 60 * 60 * 1000

/-- What one run of the listener did: the items it leaves, whether it called
`logout()`, and whether it went on to initialise the session. -/
structure AuthStep where
  store : SessionStore
  logout : Bool
  proceeds : Bool
  deriving DecidableEq, Repr

/-- The listener handed to `supabase.auth.onAuthStateChange` (lines 256-292), up to
the session initialisation; `session` tells whether the event carries one and `now`
is `Date.now()`. -/
def onAuthStateChange (isMounted : Bool) (event : String) (session : Bool) (now : Nat)
    (store : SessionStore) : AuthStep :=
  if !isMounted then { store := store, logout := false, proceeds := false }
  else if session then
    let lastActive := parseInt (storedOr store.last_active now)
    let sessionStarted := parseInt (storedOr store.session_started now)
    if exceeds now lastActive INACTIVITY_LIMIT || exceeds now sessionStarted MAX_SESSION then
      { store := { last_active := none, session_started := none }
        logout := true, proceeds := false }
    else
      let started :=
        if event = "SIGNED_IN" ∨ store.session_started = none ∨ store.session_started = some ""
        then some (toString now)
        else store.session_started
      { store := { last_active := some (toString now), session_started := started }
        logout := false, proceeds := true }
  else
    { store := { last_active := none, session_started := none }
      logout := false, proceeds := true }

/-! ## More sample data -/

/-- A flight row of `owner1` carrying an airline, a flight number and a route. -/
def sampleNumberedRow (id : Int) (uuid date number : String) : FlightRow :=
  { sampleFlightRow id uuid date "owner1" with
    user_id := JVal.str "owner1", airline := JVal.str "FlyCo"
    flight_number := JVal.str number, route := JVal.str "AAA-BBB" }

/-- The snapshot of the owner, an `Admin`, as the loader leaves it for two fetched
flights. -/
def sampleOwnerCtx : Ctx :=
  { currentUser := some "owner1"
    userRole := some "Admin"
    flights :=
      (loadInitialDataFlights sampleToTime "owner1" (some "Admin")
        (Res.ok [sampleNumberedRow 1 "F1" "2026-01-10" "FC100",
          sampleNumberedRow 2 "F2" "2026-01-11" "FC200"])
        (Res.ok []) (Res.ok []) (Res.ok [])).getD []
    roleDefinitions := []
    targetUserId := JVal.str "owner1" }

/-- A flight form object. -/
def sampleFlightInput (date number : String) : FlightInput :=
  { airline := JVal.str "FlyCo", flightNumber := JVal.str number
    flight_number := JVal.undefined, date := JVal.str date, route := JVal.str "AAA-BBB" }

/-- The row of `airlines` owned by `userId`. -/
def sampleAirlineRow (id userId name : String) : AirlineRow :=
  storedAirline
    { airlinePayload (sampleAirlineInput name) userId with user_id := JVal.str userId }
    (JVal.str id)

/-- The row of `agencies` owned by `userId`. -/
def sampleAgencyRow (id userId name : String) : AgencyRow :=
  storedAgency
    { agencyPayload (sampleAgencyInput name) userId with user_id := JVal.str userId }
    (JVal.str id)

/-- A managed user of the snapshot. -/
def sampleUser (id managedId name : String) : User :=
  { id := JVal.str id, managed_user_id := JVal.str managedId, name := JVal.str name
    email := JVal.null, role := JVal.str "Staff", active := JVal.bool true
    agencyName := JVal.undefined, isAccountUser := JVal.undefined }

/-- A failed fetch. -/
def Res.failed {α : Type} (e : String) : Res α := { data := none, error := some e }

/-- A batch in which every fetch came back with an error. -/
def sampleFailedBatch : Batch :=
  { flightsRes := Res.failed "offline", passengersRes := Res.failed "offline"
    infantsRes := Res.failed "offline", airlinesRes := Res.failed "offline"
    agenciesRes := Res.failed "offline", settingsRes := Res.failed "offline"
    usersRes := Res.failed "offline", rolesRes := Res.failed "offline" }

/-- An account-role row carrying an id and a name. -/
def sampleAccountRole (userId name : String) : AccountRoleRow :=
  { user_id := JVal.str userId, name := JVal.str name, email := none
    agency_name := JVal.undefined }

/-! ## Binary64 arithmetic and the total price in it (`PassengerForm.jsx`, lines 116-122) -/

namespace Ieee

/-- A JavaScript number, as IEEE 754 binary64 has it: `NaN`, an infinity with its
sign, the negative zero, or a finite value given by the rational it stands for
(`fin 0` is the positive zero). -/
inductive Dbl where
  | nan
  | inf (negative : Bool)
  | negZero
  | fin (q : ℚ)
  deriving DecidableEq, Repr

/-- The largest `k` with `2 ^ k ≤ n`, for `1 ≤ n` and `fuel` at least that `k`. -/
def log2Floor : Nat → Nat → Nat
  | 0, _ => 0
  | fuel + 1, n => if n < 2 then 0 else log2Floor fuel (n / 2) + 1

/-- The largest `k` with `2 ^ k ≤ n / d`, for `1 ≤ n` and `1 ≤ d`. -/
def ilog2 (n d : Nat) : Int :=
  let k0 : Int := (log2Floor n n : Int) - (log2Floor d d : Int)
  if (if 0 ≤ k0 then 2 ^ k0.toNat * d ≤ n else d ≤ n * 2 ^ (-k0).toNat) then k0 else k0 - 1

/-- The integer nearest to `N / D`, the even one of the two when `N / D` is halfway. -/
def roundDiv (N D : Nat) : Nat :=
  if 2 * (N % D) < D then N / D
  else if D < 2 * (N % D) then N / D + 1
  else if (N / D) % 2 = 0 then N / D
  else N / D + 1

/-- Rounding of a rational to binary64, to nearest with ties to even: the result is
`m * 2 ^ e` with a 53-bit `m` and `-1074 ≤ e`, an infinity from `2 ^ 1024` on, and a
zero with the sign of the rational when it rounds to nothing. -/
def round64 (q : ℚ) : Dbl :=
  if q.num = 0 then Dbl.fin 0
  else
    let e := max (ilog2 q.num.natAbs q.den - 52) (-1074)
    let m := roundDiv (q.num.natAbs * 2 ^ (-e).toNat) (q.den * 2 ^ e.toNat)
    if 971 < e ∨ (e = 971 ∧ 2 ^ 53 ≤ m) then Dbl.inf (decide (q.num < 0))
    else if m = 0 then (if q.num < 0 then Dbl.negZero else Dbl.fin 0)
    else Dbl.fin (mkRat ((if q.num < 0 then -1 else 1) * ((m * 2 ^ e.toNat : Nat) : Int))
      (2 ^ (-e).toNat))

/-- Whether a number is one of the two zeros. -/
def Dbl.isZero : Dbl → Bool
  | Dbl.negZero => true
  | Dbl.fin q => decide (q.num = 0)
  | _ => false

/-- The sign bit of a number that is not `NaN`. -/
def Dbl.isNegative : Dbl → Bool
  | Dbl.nan => false
  | Dbl.inf negative => negative
  | Dbl.negZero => true
  | Dbl.fin q => decide (q.num < 0)

/-- JavaScript `x + y` on numbers. -/
def Dbl.add : Dbl → Dbl → Dbl
  | Dbl.nan, _ => Dbl.nan
  | _, Dbl.nan => Dbl.nan
  | Dbl.inf s, Dbl.inf t => if s = t then Dbl.inf s else Dbl.nan
  | Dbl.inf s, _ => Dbl.inf s
  | _, Dbl.inf t => Dbl.inf t
  | Dbl.negZero, Dbl.negZero => Dbl.negZero
  | Dbl.negZero, Dbl.fin q => Dbl.fin q
  | Dbl.fin p, Dbl.negZero => Dbl.fin p
  | Dbl.fin p, Dbl.fin q => round64 (mkRat (p.num * q.den + q.num * p.den) (p.den * q.den))

/-- JavaScript `x * y` on numbers. -/
def Dbl.mul (x y : Dbl) : Dbl :=
  match x, y with
  | Dbl.nan, _ => Dbl.nan
  | _, Dbl.nan => Dbl.nan
  | Dbl.inf s, y => if y.isZero then Dbl.nan else Dbl.inf (xor s y.isNegative)
  | x, Dbl.inf t => if x.isZero then Dbl.nan else Dbl.inf (xor x.isNegative t)
  | x, y =>
    if x.isZero ∨ y.isZero then (if xor x.isNegative y.isNegative then Dbl.negZero else Dbl.fin 0)
    else
      match x, y with
      | Dbl.fin p, Dbl.fin q => round64 (mkRat (p.num * q.num) (p.den * q.den))
      | _, _ => Dbl.nan

/-- The number an array length is. -/
def Dbl.ofNat (n : Nat) : Dbl := round64 (n : ℚ)

/-- A value the form holds in `tax` or `surcharge`: the number the state starts with,
the string an input leaves there, or what an edited record carries. -/
inductive Val where
  | undefined
  | null
  | bool (b : Bool)
  | num (d : Dbl)
  | str (s : String)
  deriving DecidableEq, Repr

/-- JavaScript `ToBoolean`. -/
def Val.truthy : Val → Bool
  | Val.undefined => false
  | Val.null => false
  | Val.bool b => b
  | Val.num d => !(d.isZero || decide (d = Dbl.nan))
  | Val.str s => decide (s ≠ "")

/-- JavaScript `x || 0`. -/
def orZero (x : Val) : Val := if x.truthy then x else Val.num (Dbl.fin 0)

/-- JavaScript `Number(x)`; `numberStr` is the numeric value of a string. -/
def toNumber (numberStr : String → Dbl) : Val → Dbl
  | Val.undefined => Dbl.nan
  | Val.null => Dbl.fin 0
  | Val.bool b => if b then Dbl.fin 1 else Dbl.fin 0
  | Val.num d => d
  | Val.str s => numberStr s

/-- The pricing columns of the airline the form is opened for that `calculateTotal`
reads: each is a number, or `none` when the value is `null` or `undefined`. -/
structure AirlineConfig where
  adultPrice : Option Dbl
  childPrice : Option Dbl
  infantPrice : Option Dbl
  deriving DecidableEq, Repr

/-- The global prices `calculateTotal` reads. -/
structure Prices where
  adult : Dbl
  child : Dbl
  infant : Dbl
  deriving DecidableEq, Repr

/-- What `calculateTotal` closes over: the prop `airlineConfig` (`none` when absent),
the global `prices`, and the numeric value `Number` gives a string. -/
structure Env where
  airlineConfig : Option AirlineConfig
  prices : Prices
  numberStr : String → Dbl

/-- The choice `airlineConfig?.x ?? prices.x`. -/
def pickPrice (airlineConfig : Option AirlineConfig) (column : AirlineConfig → Option Dbl)
    (fallback : Dbl) : Dbl :=
  match airlineConfig.bind column with
  | some v => v
  | none => fallback

/-- The function `calculateTotal(type, tax, surcharge, infantCount)` (lines 116-122),
with the arithmetic of the engine: every `+` and `*` rounds to binary64. -/
def calculateTotal (env : Env) (type : JVal) (tax surcharge : Val) (infantCount : Nat) : Dbl :=
  let adultPrice := pickPrice env.airlineConfig (fun c => c.adultPrice) env.prices.adult
  let childPrice := pickPrice env.airlineConfig (fun c => c.childPrice) env.prices.child
  let base := if type = JVal.str "Child" then childPrice else adultPrice
  let infantRate := pickPrice env.airlineConfig (fun c => c.infantPrice) env.prices.infant
  Dbl.add
    (Dbl.add (Dbl.add base (toNumber env.numberStr (orZero tax)))
      (toNumber env.numberStr (orZero surcharge)))
    (Dbl.mul (Dbl.ofNat infantCount) infantRate)

/-- A rational that binary64 holds with room to spare: a numerator below `2 ^ 53` over
a power of two up to `2 ^ 1074`. Every integer below `2 ^ 53` in size is one, and so is
every amount in halves, quarters or eighths of that size. -/
def Exact (q : ℚ) : Prop := ∃ j, j ≤ 1074 ∧ q.den = 2 ^ j ∧ q.num.natAbs < 2 ^ 53

/-- The double nearest to `0.1`. -/
def tenth : ℚ := mkRat 3602879701896397 36028797018963968

/-- The double nearest to `0.2`. -/
def fifth : ℚ := mkRat 3602879701896397 18014398509481984

/-- The form opened without an airline on the default prices 130, 90 and 20, with
`Number` known on a few strings. -/
def sampleEnv : Env :=
  { airlineConfig := none
    prices := { adult := Dbl.fin 130, child := Dbl.fin 90, infant := Dbl.fin 20 }
    numberStr := fun s =>
      if s = "10" then Dbl.fin 10
      else if s = "12.5" then Dbl.fin (mkRat 25 2)
      else if s = "0.1" then Dbl.fin tenth
      else if s = "0.2" then Dbl.fin fifth
      else if s = "abc" then Dbl.nan
      else Dbl.fin 0 }

end Ieee

/-! ## Permission resolver: theorems -/

/-- On keys that name no member of `Object.prototype`, the read along the prototype
chain finds what the own-property read finds. -/
theorem readFlag_of_ordinary (d : RoleDefinition) (category action : String)
    (hc : category ∉ objectPrototypeKeys) (ha : action ∉ objectPrototypeKeys) :
    readFlag d.permissions category action =
      FlagRead.value (JVal.or (d.flag category action) (JVal.bool false)) := by
  have hcp : category ≠ "__proto__" := fun h => hc (by rw [h]; decide)
  unfold readFlag RoleDefinition.flag getProp
  cases d.permissions with
  | none => rfl
  | some m =>
    simp only [Option.bind_some]
    cases hm : m.lookup category with
    | none => simp [hm, hcp, hc, JVal.or, JVal.truthy]
    | some am =>
      cases hv : am.lookup action with
      | none => simp [hm, hv, ha, JVal.or, JVal.truthy]
      | some v => simp [hm, hv]

/-- C1 (fail closed, counterexample): a `Staff` definition with the empty matrix `{}`
has no entry for the category `constructor`, yet `hasPermission('constructor', 'name')`
evaluates `{}.constructor.name`, the name of the built-in `Object`, and returns the
string `'Object'`, not `false`; and on the matrix `{flight: {}}`, whose category
`flight` has no entry for the action `toString`, `hasPermission('flight', 'toString')`
returns the inherited function, not `false`. -/
theorem hasPermission_inherited_key :
    ([] : PermissionMatrix).lookup "constructor" = none ∧
    Chain.hasPermission (some "Staff")
        [{ id := JVal.num 1, role := "Staff", permissions := some [] }]
        "constructor" "name" = FlagRead.value (JVal.str "Object") ∧
    (JVal.str "Object").truthy = true ∧
    ([] : ActionMap).lookup "toString" = none ∧
    Chain.hasPermission (some "Staff")
        [{ id := JVal.num 1, role := "Staff", permissions := some [("flight", [])] }]
        "flight" "toString" = FlagRead.member "toString" := by
  decide

/-- C1 (fail closed, amended): for an acting role other than `Admin`, `hasPermission`
returns `false` for every category and action when no definition of the role is
loaded or the definition the resolver finds has no permission matrix; when the matrix
has no entry for the category, provided the category is not the name of a member of
`Object.prototype`; and when the category has no entry for the action, provided the
action is not such a name. On keys that are not such names the result is the one of
the own-property reading `hasPermission`. -/
theorem hasPermission_fail_closed (userRole : Option String) (defs : List RoleDefinition)
    (category action : String) (hrole : userRole ≠ some "Admin") :
    ((∀ d ∈ defs, some d.role ≠ userRole) →
      Chain.hasPermission userRole defs category action = FlagRead.value (JVal.bool false)) ∧
    (∀ d, findRoleDef defs userRole = some d → d.permissions = none →
      Chain.hasPermission userRole defs category action = FlagRead.value (JVal.bool false)) ∧
    (∀ d m, findRoleDef defs userRole = some d → d.permissions = some m →
      m.lookup category = none → category ∉ objectPrototypeKeys →
      Chain.hasPermission userRole defs category action = FlagRead.value (JVal.bool false)) ∧
    (∀ d m am, findRoleDef defs userRole = some d → d.permissions = some m →
      m.lookup category = some am → am.lookup action = none →
      action ∉ objectPrototypeKeys →
      Chain.hasPermission userRole defs category action = FlagRead.value (JVal.bool false)) ∧
    (category ∉ objectPrototypeKeys → action ∉ objectPrototypeKeys →
      Chain.hasPermission userRole defs category action =
        FlagRead.value (hasPermission userRole defs category action)) := by
  refine ⟨?_, ?_, ?_, ?_, ?_⟩
  · intro hnone
    have hfind : findRoleDef defs userRole = none := by
      unfold findRoleDef
      rw [List.find?_eq_none]
      intro d hd
      simpa using hnone d hd
    unfold Chain.hasPermission
    rw [if_neg hrole, hfind]
  · intro d hd hp
    unfold Chain.hasPermission
    rw [if_neg hrole, hd]
    unfold readFlag
    simp only [hp]
  · intro d m hd hp hm hc
    have hcp : category ≠ "__proto__" := fun h => hc (by rw [h]; decide)
    unfold Chain.hasPermission
    rw [if_neg hrole, hd]
    unfold readFlag
    simp only [hp, hm, hcp, hc, if_false]
  · intro d m am hd hp hm ha hk
    unfold Chain.hasPermission
    rw [if_neg hrole, hd]
    unfold readFlag
    simp only [hp, hm, ha, hk, if_false]
  · intro hc ha
    unfold Chain.hasPermission hasPermission
    rw [if_neg hrole, if_neg hrole]
    cases hfind : findRoleDef defs userRole with
    | none => rfl
    | some d => exact readFlag_of_ordinary d category action hc ha

/-- A staff role whose matrix lacks `flight.delete` is refused that action. -/
theorem hasPermission_fail_closed_witness :
    Chain.hasPermission (some "Staff")
      [{ id := JVal.num 1, role := "Staff"
         permissions := some [("flight", [("view_own", JVal.bool true)])] }]
      "flight" "delete" = FlagRead.value (JVal.bool false) ∧
    hasPermission (some "Staff")
      [{ id := JVal.num 1, role := "Staff"
         permissions := some [("flight", [("view_own", JVal.bool true)])] }]
      "flight" "delete" = JVal.bool false :=
  ⟨(hasPermission_fail_closed (some "Staff") _ "flight" "delete" (by decide)).2.2.2.1 _ _ _
      rfl rfl rfl rfl (by decide),
    FlagRead.value.inj
      (((hasPermission_fail_closed (some "Staff") _ "flight" "delete" (by decide)).2.2.2.2
        (by decide) (by decide)).symm.trans
        ((hasPermission_fail_closed (some "Staff") _ "flight" "delete" (by decide)).2.2.2.1 _ _ _
          rfl rfl rfl rfl (by decide)))⟩

/-- C2 (privileged bypass): when the acting role is `Admin`, `hasPermission` returns
`true` for every category, every action and every list of loaded role definitions,
the empty list and a list holding an all-false `Admin` definition included. -/
theorem hasPermission_admin (defs : List RoleDefinition) (category action : String) :
    hasPermission (some "Admin") defs category action = JVal.bool true := by
  simp [hasPermission]

/-! ## Account scope: theorems -/

/-- C3 (scope resolution): the resolved `targetUserId` is the `created_by` of the
actor's role row when the row exists, its `created_by` is present (a truthy value, so
a non-empty id) and its role is not `Admin`; it is the actor's own id when the role
is `Admin`, when `created_by` is absent, and when the lookup yields no row. A
`Staff` row created by a non-empty `ownerX` resolves to `ownerX`. -/
theorem targetUserId_cases (userId : String) (roleData : Option RoleRow) :
    (∀ r, roleData = some r → r.created_by.truthy = true → r.role ≠ JVal.str "Admin" →
      loadInitialDataTargetUserId userId roleData = r.created_by) ∧
    (∀ r, roleData = some r → r.role = JVal.str "Admin" →
      loadInitialDataTargetUserId userId roleData = JVal.str userId) ∧
    (∀ r, roleData = some r → r.created_by.truthy = false →
      loadInitialDataTargetUserId userId roleData = JVal.str userId) ∧
    (roleData = none → loadInitialDataTargetUserId userId roleData = JVal.str userId) ∧
    (∀ ownerX : String, ownerX ≠ "" →
      roleData = some { role := JVal.str "Staff", created_by := JVal.str ownerX } →
      loadInitialDataTargetUserId userId roleData = JVal.str ownerX) := by
  refine ⟨?_, ?_, ?_, ?_, ?_⟩
  · intro r hr ht hn
    subst hr
    simp [loadInitialDataTargetUserId, ht, hn]
  · intro r hr ha
    subst hr
    simp [loadInitialDataTargetUserId, ha]
  · intro r hr ht
    subst hr
    simp [loadInitialDataTargetUserId, ht]
  · intro hr
    subst hr
    rfl
  · intro ownerX hne hr
    subst hr
    simp [loadInitialDataTargetUserId, JVal.truthy, hne]

/-- A staff actor created by `ownerX` is scoped to `ownerX`. -/
theorem targetUserId_cases_witness :
    loadInitialDataTargetUserId "staff1"
      (some { role := JVal.str "Staff", created_by := JVal.str "ownerX" }) = JVal.str "ownerX" :=
  (targetUserId_cases "staff1"
    (some { role := JVal.str "Staff", created_by := JVal.str "ownerX" })).2.2.2.2
    "ownerX" (by decide) rfl

/-! ## Loader: auxiliary facts -/

theorem sortFlights_perm (toTime : JVal → Option Int) (l : List Flight) :
    (sortFlights toTime l).Perm l :=
  List.perm_insertionSort (dateOrder toTime) l

theorem mem_sortFlights (toTime : JVal → Option Int) (l : List Flight) (f : Flight) :
    f ∈ sortFlights toTime l ↔ f ∈ l :=
  (sortFlights_perm toTime l).mem_iff

theorem joinFlights_map_row (rows : List FlightRow) (pd : List PassengerRow)
    (infs : List InfantRow) : (joinFlights rows pd infs).map (fun f => f.row) = rows := by
  unfold joinFlights
  rw [List.map_map]
  have h : ((fun f : Flight => f.row) ∘ joinFlight (passengersWithInfants pd infs)) = id := by
    funext r
    rfl
  rw [h, List.map_id]

theorem passengersWithInfants_map_row (pd : List PassengerRow) (infs : List InfantRow) :
    (passengersWithInfants pd infs).map (fun p => p.row) = pd := by
  unfold passengersWithInfants
  rw [List.map_map]
  have h : ((fun p : Passenger => p.row) ∘ joinInfants infs) = id := by
    funext r
    rfl
  rw [h, List.map_id]

theorem mem_joinFlights {rows : List FlightRow} {pd : List PassengerRow}
    {infs : List InfantRow} {f : Flight} (hf : f ∈ joinFlights rows pd infs) :
    ∃ r ∈ rows, f = joinFlight (passengersWithInfants pd infs) r := by
  unfold joinFlights at hf
  rcases List.mem_map.1 hf with ⟨r, hr, rfl⟩
  exact ⟨r, hr, rfl⟩

/-- The value of `filterVisible` for a role that is not `Admin` and whose definition
is found. -/
theorem filterVisible_of_def {userRole : Option String} {defs : List RoleDefinition}
    {d : RoleDefinition} (me : String) (fl : List Flight) (hrole : userRole ≠ some "Admin")
    (hd : findRoleDef defs userRole = some d) :
    filterVisible userRole defs me fl =
      (if (d.flag "flight" "view_any").truthy then fl
        else if (d.flag "flight" "view_own").truthy then
          fl.filter (fun f => decide (f.row.created_by = JVal.str me))
        else []).map (fun f =>
          { f with passengers :=
              (f.passengers.filter
                (passengerVisible (d.flag "passenger" "view_any")
                  (d.flag "passenger" "view_own") me)).map addCamelCase }) := by
  unfold filterVisible
  rw [if_neg hrole, hd]

/-- The value of the flights part of the loader when the flights fetch succeeded. -/
theorem loadInitialDataFlights_ok (toTime : JVal → Option Int) (me : String)
    (userRole : Option String) (rows : List FlightRow) (passengersRes : Res (List PassengerRow))
    (infantsRes : Res (List InfantRow)) (rolesRes : Res (List RoleDefinition)) :
    loadInitialDataFlights toTime me userRole { data := some rows, error := none }
        passengersRes infantsRes rolesRes =
      some (sortFlights toTime (filterVisible userRole (currentRoleDefs rolesRes) me
        (joinFlights rows (passengersRes.data.getD []) (infantsRes.data.getD [])))) := rfl

/-- The rows of the flights `filterVisible` keeps, for a found definition. -/
theorem filterVisible_map_row {userRole : Option String} {defs : List RoleDefinition}
    {d : RoleDefinition} (me : String) (rows : List FlightRow) (pd : List PassengerRow)
    (infs : List InfantRow) (hrole : userRole ≠ some "Admin")
    (hd : findRoleDef defs userRole = some d) :
    (filterVisible userRole defs me (joinFlights rows pd infs)).map (fun f => f.row) =
      (if (d.flag "flight" "view_any").truthy then rows
        else if (d.flag "flight" "view_own").truthy then
          rows.filter (fun r => decide (r.created_by = JVal.str me))
        else []) := by
  rw [filterVisible_of_def me _ hrole hd, List.map_map]
  have hcomp : ((fun f : Flight => f.row) ∘ (fun f : Flight =>
      { f with passengers :=
          (f.passengers.filter
            (passengerVisible (d.flag "passenger" "view_any")
              (d.flag "passenger" "view_own") me)).map addCamelCase })) =
      (fun f : Flight => f.row) := by
    funext f
    rfl
  rw [hcomp]
  by_cases hany : (d.flag "flight" "view_any").truthy = true
  · simp only [hany, if_true]
    exact joinFlights_map_row rows pd infs
  · by_cases hown : (d.flag "flight" "view_own").truthy = true
    · simp only [hany, hown, if_true]
      have hfm := List.filter_map (f := fun f : Flight => f.row)
        (p := fun r : FlightRow => decide (r.created_by = JVal.str me))
        (l := joinFlights rows pd infs)
      rw [joinFlights_map_row] at hfm
      rw [hfm]
      rfl
    · simp [hany, hown]

/-- The passenger filter, by the two passenger flags. -/
theorem filter_passengerVisible (canAny canOwn : JVal) (me : String) (l : List Passenger) :
    l.filter (passengerVisible canAny canOwn me) =
      (if canAny.truthy then l
        else if canOwn.truthy then l.filter (fun p => decide (p.row.created_by = JVal.str me))
        else []) := by
  by_cases hany : canAny.truthy = true
  · have hfun : passengerVisible canAny canOwn me = fun _ => true := by
      funext p
      simp [passengerVisible, hany]
    rw [hfun, if_pos hany]
    simp
  · by_cases hown : canOwn.truthy = true
    · have hfun : passengerVisible canAny canOwn me =
          fun p => decide (p.row.created_by = JVal.str me) := by
        funext p
        simp [passengerVisible, hany, hown]
      rw [hfun, if_neg hany, if_pos hown]
    · have hfun : passengerVisible canAny canOwn me = fun _ => false := by
        funext p
        simp [passengerVisible, hany, hown]
      rw [hfun, if_neg hany, if_neg hown]
      simp

/-- Every flight `filterVisible` keeps, for a found definition, is a joined flight
whose passenger list went through the passenger filter. -/
theorem mem_filterVisible_of_def {userRole : Option String} {defs : List RoleDefinition}
    {d : RoleDefinition} {me : String} {rows : List FlightRow} {pd : List PassengerRow}
    {infs : List InfantRow} {f : Flight} (hrole : userRole ≠ some "Admin")
    (hd : findRoleDef defs userRole = some d)
    (hf : f ∈ filterVisible userRole defs me (joinFlights rows pd infs)) :
    ∃ r ∈ rows, f.row = r ∧ f.passengers =
      (((passengersWithInfants pd infs).filter (fun p => decide (p.row.flight_id = r.uuid))).filter
        (passengerVisible (d.flag "passenger" "view_any")
          (d.flag "passenger" "view_own") me)).map addCamelCase := by
  rw [filterVisible_of_def me _ hrole hd] at hf
  rcases List.mem_map.1 hf with ⟨g, hg, rfl⟩
  have hgj : g ∈ joinFlights rows pd infs := by
    by_cases hany : (d.flag "flight" "view_any").truthy = true
    · simpa [hany] using hg
    · by_cases hown : (d.flag "flight" "view_own").truthy = true
      · simp only [hany, hown, if_true] at hg
        exact (List.mem_filter.1 hg).1
      · simp [hany, hown] at hg
  rcases mem_joinFlights hgj with ⟨r, hr, rfl⟩
  exact ⟨r, hr, rfl, rfl⟩

/-! ## Loader: theorems -/

/-- C4 (flight visibility): for a role other than `Admin` whose definition is among
the loaded ones, the flights the loader retains are, up to the order the sort gives
them, all fetched flights when `flight.view_any` is set, otherwise exactly the
fetched flights created by the acting actor when `flight.view_own` is set, otherwise
none; with `view_own` set and `view_any` unset every retained flight was created by
the acting actor. -/
theorem loadInitialData_flight_visibility (toTime : JVal → Option Int) (me : String)
    (userRole : Option String) (rows : List FlightRow) (passengersRes : Res (List PassengerRow))
    (infantsRes : Res (List InfantRow)) (rolesRes : Res (List RoleDefinition))
    (d : RoleDefinition) (hrole : userRole ≠ some "Admin")
    (hd : findRoleDef (currentRoleDefs rolesRes) userRole = some d) :
    ∃ out, loadInitialDataFlights toTime me userRole { data := some rows, error := none }
        passengersRes infantsRes rolesRes = some out ∧
      (out.map (fun f => f.row)).Perm
        (if (d.flag "flight" "view_any").truthy then rows
          else if (d.flag "flight" "view_own").truthy then
            rows.filter (fun r => decide (r.created_by = JVal.str me))
          else []) ∧
      ((d.flag "flight" "view_own").truthy = true →
        (d.flag "flight" "view_any").truthy = false →
        ∀ f ∈ out, f.row.created_by = JVal.str me) := by
  rw [loadInitialDataFlights_ok]
  have hperm : ((sortFlights toTime (filterVisible userRole (currentRoleDefs rolesRes) me
      (joinFlights rows (passengersRes.data.getD []) (infantsRes.data.getD [])))).map
        (fun f => f.row)).Perm
      (if (d.flag "flight" "view_any").truthy then rows
        else if (d.flag "flight" "view_own").truthy then
          rows.filter (fun r => decide (r.created_by = JVal.str me))
        else []) := by
    rw [← filterVisible_map_row me rows (passengersRes.data.getD []) (infantsRes.data.getD [])
      hrole hd]
    exact (sortFlights_perm toTime _).map _
  refine ⟨_, rfl, hperm, ?_⟩
  intro hown hany f hf
  have hmem : f.row ∈ rows.filter (fun r => decide (r.created_by = JVal.str me)) := by
    have h1 : f.row ∈ (sortFlights toTime (filterVisible userRole (currentRoleDefs rolesRes) me
        (joinFlights rows (passengersRes.data.getD []) (infantsRes.data.getD [])))).map
          (fun f => f.row) := List.mem_map.2 ⟨f, hf, rfl⟩
    have h2 := hperm.mem_iff.1 h1
    simpa [hany, hown] using h2
  simpa using (List.mem_filter.1 hmem).2

/-- A staff role with `view_own` only, loading one own and one foreign flight. -/
theorem loadInitialData_flight_visibility_witness :
    ∃ out, loadInitialDataFlights sampleToTime "staff1" (some "Staff")
        { data := some [sampleFlightRow 1 "F1" "2026-01-10" "staff1",
            sampleFlightRow 2 "F2" "2026-01-11" "owner1"], error := none }
        (Res.ok []) (Res.ok []) (Res.ok [sampleStaffDef]) = some out ∧
      (out.map (fun f => f.row)).Perm
        (if (sampleStaffDef.flag "flight" "view_any").truthy then
            [sampleFlightRow 1 "F1" "2026-01-10" "staff1",
              sampleFlightRow 2 "F2" "2026-01-11" "owner1"]
          else if (sampleStaffDef.flag "flight" "view_own").truthy then
            [sampleFlightRow 1 "F1" "2026-01-10" "staff1",
              sampleFlightRow 2 "F2" "2026-01-11" "owner1"].filter
                (fun r => decide (r.created_by = JVal.str "staff1"))
          else []) ∧
      ((sampleStaffDef.flag "flight" "view_own").truthy = true →
        (sampleStaffDef.flag "flight" "view_any").truthy = false →
        ∀ f ∈ out, f.row.created_by = JVal.str "staff1") :=
  loadInitialData_flight_visibility sampleToTime "staff1" (some "Staff") _ _ _
    (Res.ok [sampleStaffDef]) sampleStaffDef (by decide) (by decide)

/-- C5 (missing definition in the loader): at the failing input, a `Staff` actor
with no loaded role definition and one fetched flight created by `owner1`, the
loader retains that flight, although `hasPermission` refuses the same actor
`flight.view_any` and `flight.view_own`. -/
theorem loadInitialData_missing_definition_keeps_flights :
    (loadInitialDataFlights sampleToTime "staff1" (some "Staff")
        (Res.ok [sampleFlightRow 2 "F2" "2026-01-11" "owner1"])
        (Res.ok [samplePassengerRow "P1" "F2" "owner1"]) (Res.ok []) (Res.ok [])).map
      (fun out => out.map (fun f => (f.row.uuid, f.row.created_by, f.passengers.length))) =
      some [(JVal.str "F2", JVal.str "owner1", 1)] ∧
    hasPermission (some "Staff") (currentRoleDefs (Res.ok [])) "flight" "view_any"
      = JVal.bool false ∧
    hasPermission (some "Staff") (currentRoleDefs (Res.ok [])) "flight" "view_own"
      = JVal.bool false := by
  decide

/-- C6 (passenger visibility): for a role other than `Admin` whose definition is
among the loaded ones, the passenger list of every retained flight is, whatever the
flight-level flags are, the list of all passengers joined to that flight when
`passenger.view_any` is set, otherwise those of them created by the acting actor
when `passenger.view_own` is set, otherwise empty; the kept passengers stay in
fetched order and carry their infants and the camelCase copies. -/
theorem loadInitialData_passenger_visibility (toTime : JVal → Option Int) (me : String)
    (userRole : Option String) (rows : List FlightRow) (passengersRes : Res (List PassengerRow))
    (infantsRes : Res (List InfantRow)) (rolesRes : Res (List RoleDefinition))
    (d : RoleDefinition) (hrole : userRole ≠ some "Admin")
    (hd : findRoleDef (currentRoleDefs rolesRes) userRole = some d) :
    ∃ out, loadInitialDataFlights toTime me userRole { data := some rows, error := none }
        passengersRes infantsRes rolesRes = some out ∧
      ∀ f ∈ out, f.passengers =
        (if (d.flag "passenger" "view_any").truthy then
            (passengersWithInfants (passengersRes.data.getD []) (infantsRes.data.getD [])).filter
              (fun p => decide (p.row.flight_id = f.row.uuid))
          else if (d.flag "passenger" "view_own").truthy then
            ((passengersWithInfants (passengersRes.data.getD []) (infantsRes.data.getD [])).filter
              (fun p => decide (p.row.flight_id = f.row.uuid))).filter
                (fun p => decide (p.row.created_by = JVal.str me))
          else []).map addCamelCase := by
  rw [loadInitialDataFlights_ok]
  refine ⟨_, rfl, ?_⟩
  intro f hf
  rw [mem_sortFlights] at hf
  rcases mem_filterVisible_of_def hrole hd hf with ⟨r, _, hrow, hpass⟩
  rw [hpass, filter_passengerVisible, hrow]

/-- A staff role with passenger `view_own` only, on a flight holding one own and one
foreign passenger. -/
theorem loadInitialData_passenger_visibility_witness :
    ∃ out, loadInitialDataFlights sampleToTime "staff1" (some "Staff")
        { data := some [sampleFlightRow 1 "F1" "2026-01-10" "staff1"], error := none }
        (Res.ok [samplePassengerRow "P1" "F1" "owner1", samplePassengerRow "P2" "F1" "staff1"])
        (Res.ok [sampleInfantRow "P2" "baby"]) (Res.ok [sampleStaffDef]) = some out ∧
      ∀ f ∈ out, f.passengers =
        (if (sampleStaffDef.flag "passenger" "view_any").truthy then
            (passengersWithInfants
              ((Res.ok [samplePassengerRow "P1" "F1" "owner1",
                samplePassengerRow "P2" "F1" "staff1"]).data.getD [])
              ((Res.ok [sampleInfantRow "P2" "baby"]).data.getD [])).filter
              (fun p => decide (p.row.flight_id = f.row.uuid))
          else if (sampleStaffDef.flag "passenger" "view_own").truthy then
            ((passengersWithInfants
              ((Res.ok [samplePassengerRow "P1" "F1" "owner1",
                samplePassengerRow "P2" "F1" "staff1"]).data.getD [])
              ((Res.ok [sampleInfantRow "P2" "baby"]).data.getD [])).filter
              (fun p => decide (p.row.flight_id = f.row.uuid))).filter
                (fun p => decide (p.row.created_by = JVal.str "staff1"))
          else []).map addCamelCase :=
  loadInitialData_passenger_visibility sampleToTime "staff1" (some "Staff") _ _ _
    (Res.ok [sampleStaffDef]) sampleStaffDef (by decide) (by decide)

/-- C7 (join): the join gives back the fetched flights in order, gives each flight
exactly the passengers whose `flight_id` is the flight's `uuid`, in fetched order,
and gives each passenger the names of the infants whose `passenger_id` is the
passenger's `id`, in fetched order; an `Admin` load shows the join unfiltered, and on
flights `[{uuid: F1}]`, passengers `[{id: P1, flight_id: F1}]`, infants
`[{passenger_id: P1, name: baby}]` it yields one flight with one passenger whose
infant list is `[baby]`. -/
theorem loadInitialData_join (toTime : JVal → Option Int) (me : String)
    (rows : List FlightRow) (pd : List PassengerRow) (infs : List InfantRow)
    (rolesRes : Res (List RoleDefinition)) :
    (joinFlights rows pd infs).map (fun f => f.row) = rows ∧
    (∀ f ∈ joinFlights rows pd infs,
      f.passengers.map (fun p => p.row) =
        pd.filter (fun p => decide (p.flight_id = f.row.uuid)) ∧
      ∀ p ∈ f.passengers, p.infants =
        some ((infs.filter (fun i => decide (i.passenger_id = p.row.id))).map (fun i => i.name))) ∧
    loadInitialDataFlights toTime me (some "Admin") (Res.ok rows) (Res.ok pd) (Res.ok infs)
      rolesRes = some (sortFlights toTime (joinFlights rows pd infs)) ∧
    loadInitialDataFlights toTime me (some "Admin")
      (Res.ok [{ emptyFlightRow with uuid := JVal.str "F1" }])
      (Res.ok [{ emptyPassengerRow with id := JVal.str "P1", flight_id := JVal.str "F1" }])
      (Res.ok [sampleInfantRow "P1" "baby"]) rolesRes =
      some [{ row := { emptyFlightRow with uuid := JVal.str "F1" }
              flightNumber := JVal.undefined
              passengers :=
                [{ row := { emptyPassengerRow with id := JVal.str "P1", flight_id := JVal.str "F1" }
                   infants := some ["baby"]
                   phoneNumber := JVal.undefined
                   flightNumber := JVal.undefined
                   bookingReference := JVal.undefined }] }] := by
  refine ⟨joinFlights_map_row rows pd infs, ?_, ?_, ?_⟩
  · intro f hf
    rcases mem_joinFlights hf with ⟨r, _, rfl⟩
    constructor
    · have hfm := List.filter_map (f := fun p : Passenger => p.row)
        (p := fun p : PassengerRow => decide (p.flight_id = r.uuid))
        (l := passengersWithInfants pd infs)
      rw [passengersWithInfants_map_row] at hfm
      exact hfm.symm
    · intro p hp
      have hp1 : p ∈ passengersWithInfants pd infs := (List.mem_filter.1 hp).1
      unfold passengersWithInfants at hp1
      rcases List.mem_map.1 hp1 with ⟨q, _, rfl⟩
      rfl
  · simp [loadInitialDataFlights, Res.ok, filterVisible]
  · simp [loadInitialDataFlights, Res.ok, filterVisible, sortFlights]
    decide

/-- The join on two flights sharing out three passengers. -/
theorem loadInitialData_join_witness :
    ∀ f ∈ joinFlights [sampleFlightRow 1 "F1" "2026-01-10" "a", sampleFlightRow 2 "F2" "2026-01-11" "a"]
        [samplePassengerRow "P1" "F1" "a", samplePassengerRow "P2" "F2" "a",
          samplePassengerRow "P3" "F1" "a"]
        [sampleInfantRow "P3" "x", sampleInfantRow "P1" "y", sampleInfantRow "P3" "z"],
      f.passengers.map (fun p => p.row) =
        [samplePassengerRow "P1" "F1" "a", samplePassengerRow "P2" "F2" "a",
          samplePassengerRow "P3" "F1" "a"].filter (fun p => decide (p.flight_id = f.row.uuid)) ∧
      ∀ p ∈ f.passengers, p.infants =
        some (([sampleInfantRow "P3" "x", sampleInfantRow "P1" "y", sampleInfantRow "P3" "z"].filter
          (fun i => decide (i.passenger_id = p.row.id))).map (fun i => i.name)) :=
  (loadInitialData_join sampleToTime "a" _ _ _ (Res.ok [])).2.1

/-! ## Flight operations: auxiliary facts -/

theorem isFlightOwner_iff (flight : Option Flight) (me : String) :
    isFlightOwner flight me = true ↔ ∃ f, flight = some f ∧ f.row.created_by = JVal.str me := by
  cases flight with
  | none => simp [isFlightOwner]
  | some f => simp [isFlightOwner]

/-- The result of `updateFlight` when the ownership check refuses. -/
theorem updateFlight_denied (ctx : Ctx) (me : String) (id : JVal) (u : FlightInput)
    (resp : Res FlightRow) (lr : LogResult) (hme : ctx.currentUser = some me)
    (hperm : (hasPermission ctx.userRole ctx.roleDefinitions "flight" "delete").truthy = false)
    (hown : isFlightOwner (ctx.flights.find? (fun f => decide (f.row.id = id))) me = false) :
    updateFlight ctx id u resp lr =
      { calls := [], flights := ctx.flights
        toasts := [Toast.error "You do not have permission to edit flights you did not create"]
        outcome := Outcome.returned } := by
  unfold updateFlight
  simp [hme, hperm, hown]

theorem updateFlight_allowed_head (ctx : Ctx) (me : String) (id : JVal) (u : FlightInput)
    (resp : Res FlightRow) (lr : LogResult) (hme : ctx.currentUser = some me)
    (hok : (hasPermission ctx.userRole ctx.roleDefinitions "flight" "delete").truthy = true ∨
      isFlightOwner (ctx.flights.find? (fun f => decide (f.row.id = id))) me = true) :
    (updateFlight ctx id u resp lr).calls.head? =
      some (Call.flightsUpdate id ctx.targetUserId
        { airline := u.airline, flight_number := JVal.or u.flightNumber u.flight_number
          date := u.date, route := u.route }) := by
  have hcond : (!(hasPermission ctx.userRole ctx.roleDefinitions "flight" "delete").truthy &&
      !isFlightOwner (ctx.flights.find? (fun f => decide (f.row.id = id))) me) = false := by
    rcases hok with h | h <;> simp [h]
  unfold updateFlight
  simp only [hme, hcond]
  rcases resp with ⟨data, error⟩
  cases error with
  | some e => rfl
  | none =>
    cases data with
    | none => rfl
    | some row =>
      cases hfind : ctx.flights.find? (fun f => decide (f.row.id = id)) with
      | none => simp [hfind]
      | some f => cases lr <;> simp [hfind, logActivity]

/-- The result of `deleteFlight` when the ownership check refuses. -/
theorem deleteFlight_denied (ctx : Ctx) (me : String) (id : JVal)
    (respError : Option String) (lr : LogResult) (hme : ctx.currentUser = some me)
    (hperm : (hasPermission ctx.userRole ctx.roleDefinitions "flight" "delete").truthy = false)
    (hown : isFlightOwner (ctx.flights.find? (fun f => decide (f.row.id = id))) me = false) :
    deleteFlight ctx id respError lr =
      { calls := [], flights := ctx.flights
        toasts := [Toast.error "You do not have permission to delete flights you did not create"]
        outcome := Outcome.returned } := by
  unfold deleteFlight
  simp [hme, hperm, hown]

theorem deleteFlight_allowed_head (ctx : Ctx) (me : String) (id : JVal)
    (respError : Option String) (lr : LogResult) (hme : ctx.currentUser = some me)
    (hok : (hasPermission ctx.userRole ctx.roleDefinitions "flight" "delete").truthy = true ∨
      isFlightOwner (ctx.flights.find? (fun f => decide (f.row.id = id))) me = true) :
    (deleteFlight ctx id respError lr).calls.head? =
      some (Call.flightsDelete id ctx.targetUserId) := by
  have hcond : (!(hasPermission ctx.userRole ctx.roleDefinitions "flight" "delete").truthy &&
      !isFlightOwner (ctx.flights.find? (fun f => decide (f.row.id = id))) me) = false := by
    rcases hok with h | h <;> simp [h]
  unfold deleteFlight
  simp only [hme, hcond]
  cases respError with
  | some e => rfl
  | none =>
    cases hfind : ctx.flights.find? (fun f => decide (f.row.id = id)) with
    | none => simp [hfind]
    | some f => cases lr <;> simp [hfind, logActivity]

/-- The two ways the ownership check can come out. -/
theorem flight_check_cases (ctx : Ctx) (me : String) (id : JVal) :
    ((hasPermission ctx.userRole ctx.roleDefinitions "flight" "delete").truthy = false ∧
      isFlightOwner (ctx.flights.find? (fun f => decide (f.row.id = id))) me = false) ∨
    ((hasPermission ctx.userRole ctx.roleDefinitions "flight" "delete").truthy = true ∨
      isFlightOwner (ctx.flights.find? (fun f => decide (f.row.id = id))) me = true) := by
  cases (hasPermission ctx.userRole ctx.roleDefinitions "flight" "delete").truthy <;>
    cases isFlightOwner (ctx.flights.find? (fun f => decide (f.row.id = id))) me <;> simp

/-! ## Flight operations: theorems -/

/-- C8 (ownership fallback on flights): for a signed-in actor, `updateFlight(id, ...)`
and `deleteFlight(id)` each issue no backend call and leave the local flights
unchanged if and only if the actor lacks `flight.delete` and is not the `created_by`
of the flight with that id in the local snapshot; the creator of the flight gets the
backend write issued as the first call even without `flight.delete`. -/
theorem flight_mutation_denied_iff (ctx : Ctx) (me : String) (id : JVal) (u : FlightInput)
    (resp : Res FlightRow) (respError : Option String) (lr : LogResult)
    (hme : ctx.currentUser = some me) :
    (((updateFlight ctx id u resp lr).calls = [] ∧
        (updateFlight ctx id u resp lr).flights = ctx.flights) ↔
      ((hasPermission ctx.userRole ctx.roleDefinitions "flight" "delete").truthy = false ∧
        ¬ ∃ f, ctx.flights.find? (fun f => decide (f.row.id = id)) = some f ∧
          f.row.created_by = JVal.str me)) ∧
    (((deleteFlight ctx id respError lr).calls = [] ∧
        (deleteFlight ctx id respError lr).flights = ctx.flights) ↔
      ((hasPermission ctx.userRole ctx.roleDefinitions "flight" "delete").truthy = false ∧
        ¬ ∃ f, ctx.flights.find? (fun f => decide (f.row.id = id)) = some f ∧
          f.row.created_by = JVal.str me)) ∧
    ((∃ f, ctx.flights.find? (fun f => decide (f.row.id = id)) = some f ∧
        f.row.created_by = JVal.str me) →
      (updateFlight ctx id u resp lr).calls.head? =
        some (Call.flightsUpdate id ctx.targetUserId
          { airline := u.airline, flight_number := JVal.or u.flightNumber u.flight_number
            date := u.date, route := u.route }) ∧
      (deleteFlight ctx id respError lr).calls.head? =
        some (Call.flightsDelete id ctx.targetUserId)) := by
  have hownIff := isFlightOwner_iff (ctx.flights.find? (fun f => decide (f.row.id = id))) me
  refine ⟨?_, ?_, ?_⟩
  · constructor
    · rintro ⟨hcalls, _⟩
      rcases flight_check_cases ctx me id with ⟨hp, ho⟩ | hok
      · refine ⟨hp, fun hex => ?_⟩
        rw [hownIff.2 hex] at ho
        exact Bool.noConfusion ho
      · have hhead := updateFlight_allowed_head ctx me id u resp lr hme hok
        rw [hcalls] at hhead
        exact Option.noConfusion hhead
    · rintro ⟨hp, hno⟩
      have ho : isFlightOwner (ctx.flights.find? (fun f => decide (f.row.id = id))) me = false := by
        cases h : isFlightOwner (ctx.flights.find? (fun f => decide (f.row.id = id))) me with
        | false => rfl
        | true => exact absurd (hownIff.1 h) hno
      rw [updateFlight_denied ctx me id u resp lr hme hp ho]
      exact ⟨rfl, rfl⟩
  · constructor
    · rintro ⟨hcalls, _⟩
      rcases flight_check_cases ctx me id with ⟨hp, ho⟩ | hok
      · refine ⟨hp, fun hex => ?_⟩
        rw [hownIff.2 hex] at ho
        exact Bool.noConfusion ho
      · have hhead := deleteFlight_allowed_head ctx me id respError lr hme hok
        rw [hcalls] at hhead
        exact Option.noConfusion hhead
    · rintro ⟨hp, hno⟩
      have ho : isFlightOwner (ctx.flights.find? (fun f => decide (f.row.id = id))) me = false := by
        cases h : isFlightOwner (ctx.flights.find? (fun f => decide (f.row.id = id))) me with
        | false => rfl
        | true => exact absurd (hownIff.1 h) hno
      rw [deleteFlight_denied ctx me id respError lr hme hp ho]
      exact ⟨rfl, rfl⟩
  · intro hex
    exact ⟨updateFlight_allowed_head ctx me id u resp lr hme (Or.inr (hownIff.2 hex)),
      deleteFlight_allowed_head ctx me id respError lr hme (Or.inr (hownIff.2 hex))⟩

/-- A staff actor without `flight.delete` updating and deleting the flight it
created: both writes are issued. -/
theorem flight_mutation_denied_iff_witness :
    (updateFlight sampleCtx (JVal.num 1)
        { airline := JVal.str "FlyCo", flightNumber := JVal.str "FC100"
          flight_number := JVal.undefined, date := JVal.str "2026-01-12"
          route := JVal.str "AAA-BBB" }
        { data := none, error := some "offline" } LogResult.ok).calls.head? =
      some (Call.flightsUpdate (JVal.num 1) sampleCtx.targetUserId
        { airline := JVal.str "FlyCo"
          flight_number := JVal.or (JVal.str "FC100") JVal.undefined
          date := JVal.str "2026-01-12", route := JVal.str "AAA-BBB" }) ∧
    (deleteFlight sampleCtx (JVal.num 1) none LogResult.ok).calls.head? =
      some (Call.flightsDelete (JVal.num 1) sampleCtx.targetUserId) :=
  (flight_mutation_denied_iff sampleCtx "staff1" (JVal.num 1) _ _ none LogResult.ok rfl).2.2
    ⟨_, rfl, rfl⟩

/-! ## Passenger operations: auxiliary facts -/

theorem getFlight_mem {flights : List Flight} {flightId : JVal} {flight : Flight}
    (h : getFlight flights flightId = Except.ok (some flight)) : flight ∈ flights := by
  induction flights with
  | nil => simp [getFlight] at h
  | cons f rest ih =>
    unfold getFlight at h
    cases hm : getFlightMatch flightId f with
    | error e => simp [hm] at h
    | ok b =>
      cases b with
      | true =>
        simp [hm] at h
        simp [h]
      | false =>
        simp only [hm] at h
        exact List.mem_cons_of_mem _ (ih h)

theorem isPassengerOwner_iff (passenger : Option Passenger) (me : String) :
    isPassengerOwner passenger me = true ↔
      ∃ p, passenger = some p ∧ p.row.created_by = JVal.str me := by
  cases passenger with
  | none => simp [isPassengerOwner]
  | some p => simp [isPassengerOwner]

/-- With distinct ids, looking a passenger up by its id finds that passenger. -/
theorem find_by_id_of_nodup {l : List Passenger} {p : Passenger}
    (hnd : (l.map (fun q => q.row.id)).Nodup) (hp : p ∈ l) :
    l.find? (fun q => decide (q.row.id = p.row.id)) = some p := by
  induction l with
  | nil => cases hp
  | cons a rest ih =>
    rw [List.map_cons, List.nodup_cons] at hnd
    by_cases ha : a.row.id = p.row.id
    · rcases List.mem_cons.1 hp with rfl | hmem
      · simp
      · exact absurd (ha ▸ List.mem_map.2 ⟨p, hmem, rfl⟩) hnd.1
    · rcases List.mem_cons.1 hp with rfl | hmem
      · exact absurd rfl ha
      · rw [List.find?_cons_of_neg _ (by simpa using ha)]
        exact ih hnd.2 hmem

/-- With distinct ids, dropping the passengers that carry an id erases its holder. -/
theorem filter_ne_id_eq_erase {l : List Passenger} {p : Passenger}
    (hnd : (l.map (fun q => q.row.id)).Nodup) (hp : p ∈ l) :
    l.filter (fun q => decide (q.row.id ≠ p.row.id)) = l.erase p := by
  induction l with
  | nil => cases hp
  | cons a rest ih =>
    rw [List.map_cons, List.nodup_cons] at hnd
    by_cases hap : a = p
    · subst hap
      have hall : ∀ q ∈ rest, decide (q.row.id ≠ a.row.id) = true := by
        intro q hq
        have hne : q.row.id ≠ a.row.id := fun h => hnd.1 (h ▸ List.mem_map.2 ⟨q, hq, rfl⟩)
        simpa using hne
      rw [List.filter_cons_of_neg (by simp), List.erase_cons_head]
      exact List.filter_eq_self.2 hall
    · have hmem : p ∈ rest := by
        rcases List.mem_cons.1 hp with h | h
        · exact absurd h.symm hap
        · exact h
      have hne : a.row.id ≠ p.row.id := fun h => hnd.1 (h ▸ List.mem_map.2 ⟨p, hmem, rfl⟩)
      rw [List.filter_cons_of_pos (by simpa using hne), List.erase_cons_tail (by simpa using hap),
        ih hnd.2 hmem]

/-- In a snapshot with unique passenger ids, the ids within one flight are distinct. -/
theorem PassengerIdsUnique.within {flights : List Flight} (h : PassengerIdsUnique flights)
    {f : Flight} (hf : f ∈ flights) : (f.passengers.map (fun q => q.row.id)).Nodup :=
  (List.nodup_flatMap.1 h).1 f hf

/-- In a snapshot with unique passenger ids, two different flights share no id. -/
theorem PassengerIdsUnique.across {flights : List Flight} (h : PassengerIdsUnique flights)
    {f g : Flight} (hf : f ∈ flights) (hg : g ∈ flights) (hne : f ≠ g)
    {p q : Passenger} (hp : p ∈ f.passengers) (hq : q ∈ g.passengers) :
    p.row.id ≠ q.row.id := by
  have hpair := (List.nodup_flatMap.1 h).2
  have hsymm : Symmetric (fun a b : Flight =>
      List.Disjoint (a.passengers.map (fun p => p.row.id))
        (b.passengers.map (fun p => p.row.id))) := fun a b hab => hab.symm
  have hdis := List.Pairwise.forall hsymm hpair hf hg hne
  intro heq
  exact hdis (List.mem_map.2 ⟨p, hp, rfl⟩) (heq ▸ List.mem_map.2 ⟨q, hq, rfl⟩)

/-- The result of `removePassengerFromFlight` when the ownership check refuses. -/
theorem removePassengerFromFlight_denied (ctx : Ctx) (me : String) (flightId pid : JVal)
    (respError : Option String) (lr : LogResult) (flight : Flight)
    (hme : ctx.currentUser = some me)
    (hflight : getFlight ctx.flights flightId = Except.ok (some flight))
    (hperm : (hasPermission ctx.userRole ctx.roleDefinitions "passenger" "delete").truthy = false)
    (hown : isPassengerOwner
      (flight.passengers.find? (fun p => decide (p.row.id = pid))) me = false) :
    removePassengerFromFlight ctx flightId pid respError lr =
      { calls := [], flights := ctx.flights
        toasts := [Toast.error "You do not have permission to remove this passenger"]
        outcome := Outcome.returned } := by
  unfold removePassengerFromFlight
  simp [hme, hflight, hperm, hown]

theorem removePassengerFromFlight_allowed_head (ctx : Ctx) (me : String) (flightId pid : JVal)
    (respError : Option String) (lr : LogResult) (flight : Flight)
    (hme : ctx.currentUser = some me)
    (hflight : getFlight ctx.flights flightId = Except.ok (some flight))
    (hok : (hasPermission ctx.userRole ctx.roleDefinitions "passenger" "delete").truthy = true ∨
      isPassengerOwner (flight.passengers.find? (fun p => decide (p.row.id = pid))) me = true) :
    (removePassengerFromFlight ctx flightId pid respError lr).calls.head? =
      some (Call.passengersDelete pid ctx.targetUserId) := by
  have hcond : (!(hasPermission ctx.userRole ctx.roleDefinitions "passenger" "delete").truthy &&
      !isPassengerOwner (flight.passengers.find? (fun p => decide (p.row.id = pid))) me)
      = false := by
    rcases hok with h | h <;> simp [h]
  unfold removePassengerFromFlight
  simp only [hme, hflight, hcond]
  cases respError with
  | some e => rfl
  | none =>
    cases hfind : flight.passengers.find? (fun p => decide (p.row.id = pid)) with
    | none => simp
    | some f => cases lr <;> simp [logActivity]

theorem removePassengerFromFlight_allowed_flights (ctx : Ctx) (me : String)
    (flightId pid : JVal) (lr : LogResult) (flight : Flight)
    (hme : ctx.currentUser = some me)
    (hflight : getFlight ctx.flights flightId = Except.ok (some flight))
    (hok : (hasPermission ctx.userRole ctx.roleDefinitions "passenger" "delete").truthy = true ∨
      isPassengerOwner (flight.passengers.find? (fun p => decide (p.row.id = pid))) me = true) :
    (removePassengerFromFlight ctx flightId pid none lr).flights =
      ctx.flights.map (fun f =>
        if patchesFlight flight flightId f then
          { f with passengers := f.passengers.filter (fun p => decide (p.row.id ≠ pid)) }
        else f) := by
  have hcond : (!(hasPermission ctx.userRole ctx.roleDefinitions "passenger" "delete").truthy &&
      !isPassengerOwner (flight.passengers.find? (fun p => decide (p.row.id = pid))) me)
      = false := by
    rcases hok with h | h <;> simp [h]
  unfold removePassengerFromFlight
  simp only [hme, hflight, hcond]
  cases hfind : flight.passengers.find? (fun p => decide (p.row.id = pid)) with
  | none => simp
  | some f => cases lr <;> simp [logActivity]

/-- The two ways the passenger ownership check can come out. -/
theorem passenger_check_cases (ctx : Ctx) (me : String) (pid : JVal) (flight : Flight) :
    ((hasPermission ctx.userRole ctx.roleDefinitions "passenger" "delete").truthy = false ∧
      isPassengerOwner (flight.passengers.find? (fun p => decide (p.row.id = pid))) me = false) ∨
    ((hasPermission ctx.userRole ctx.roleDefinitions "passenger" "delete").truthy = true ∨
      isPassengerOwner (flight.passengers.find? (fun p => decide (p.row.id = pid))) me = true) := by
  cases (hasPermission ctx.userRole ctx.roleDefinitions "passenger" "delete").truthy <;>
    cases isPassengerOwner (flight.passengers.find? (fun p => decide (p.row.id = pid))) me <;>
      simp

/-- On a snapshot with unique passenger ids, patching the selected flights by
dropping the id of a passenger of `flight` erases that passenger from `flight` and
changes nothing else. -/
theorem patch_filter_eq_erase {flights : List Flight} {flight : Flight} {p : Passenger}
    (flightId : JVal) (huniq : PassengerIdsUnique flights) (hfl : flight ∈ flights)
    (hp : p ∈ flight.passengers) :
    flights.map (fun f =>
        if patchesFlight flight flightId f then
          { f with passengers := f.passengers.filter (fun q => decide (q.row.id ≠ p.row.id)) }
        else f) =
      flights.map (fun f =>
        if f = flight then { f with passengers := f.passengers.erase p } else f) := by
  apply List.map_congr_left
  intro f hf
  by_cases hff : f = flight
  · subst hff
    have hpatch : patchesFlight f flightId f = true := by simp [patchesFlight]
    simp only [hpatch, if_true]
    rw [filter_ne_id_eq_erase (huniq.within hf) hp]
  · have hkeep : f.passengers.filter (fun q => decide (q.row.id ≠ p.row.id)) = f.passengers := by
      apply List.filter_eq_self.2
      intro q hq
      have hne := huniq.across hf hfl hff hq hp
      simpa using hne
    rw [if_neg hff, hkeep]
    split <;> rfl

/-! ## Passenger operations: theorems -/

/-- C9 (update of a passenger): at the failing input, a `Staff` actor that neither
holds `passenger.delete` nor created the passenger, `addPassengerToFlight` on the
persisted passenger issues the update of `passengers` as its first call and patches
the local flights, while `removePassengerFromFlight` refuses the same actor on the
same passenger. -/
theorem addPassengerToFlight_update_unchecked :
    hasPermission sampleCtx.userRole sampleCtx.roleDefinitions "passenger" "delete"
      = JVal.bool false ∧
    (addPassengerToFlight sampleCtx (JVal.num 2)
        (samplePassengerInput "22222222-2222-2222-2222-222222222222" "Renamed") "2026-01-01"
        (Res.ok { samplePassengerRow "22222222-2222-2222-2222-222222222222" "F2" "owner1" with
          name := JVal.str "Renamed" }) none none LogResult.ok).calls.head? =
      some (Call.passengersUpdate (JVal.str "22222222-2222-2222-2222-222222222222")
        (JVal.str "owner1")
        (passengerUpdatePayload
          (samplePassengerInput "22222222-2222-2222-2222-222222222222" "Renamed") "staff1")) ∧
    (addPassengerToFlight sampleCtx (JVal.num 2)
        (samplePassengerInput "22222222-2222-2222-2222-222222222222" "Renamed") "2026-01-01"
        (Res.ok { samplePassengerRow "22222222-2222-2222-2222-222222222222" "F2" "owner1" with
          name := JVal.str "Renamed" }) none none LogResult.ok).flights ≠ sampleCtx.flights ∧
    (removePassengerFromFlight sampleCtx (JVal.num 2)
        (JVal.str "22222222-2222-2222-2222-222222222222") none LogResult.ok).calls = [] := by
  decide

/-- C10 (removal of a passenger): for a signed-in actor and a flight that `getFlight`
finds, `removePassengerFromFlight` issues no backend call and leaves the local
flights unchanged if and only if the actor lacks `passenger.delete` and is not the
`created_by` of the passenger with that id in the flight; when the removal of a
passenger of that flight is allowed and the backend accepts it, on a snapshot whose
passenger ids are unique, the delete is the first call, that passenger is erased
from that flight and every other flight and passenger is unchanged; when no passenger
of the snapshot carries the id, an allowed removal leaves the local flights as they
were. -/
theorem removePassengerFromFlight_denied_iff (ctx : Ctx) (me : String) (flightId pid : JVal)
    (respError : Option String) (lr : LogResult) (flight : Flight)
    (hme : ctx.currentUser = some me)
    (hflight : getFlight ctx.flights flightId = Except.ok (some flight)) :
    (((removePassengerFromFlight ctx flightId pid respError lr).calls = [] ∧
        (removePassengerFromFlight ctx flightId pid respError lr).flights = ctx.flights) ↔
      ((hasPermission ctx.userRole ctx.roleDefinitions "passenger" "delete").truthy = false ∧
        ¬ ∃ p, flight.passengers.find? (fun p => decide (p.row.id = pid)) = some p ∧
          p.row.created_by = JVal.str me)) ∧
    (∀ p, PassengerIdsUnique ctx.flights → p ∈ flight.passengers → p.row.id = pid →
      ((hasPermission ctx.userRole ctx.roleDefinitions "passenger" "delete").truthy = true ∨
        p.row.created_by = JVal.str me) →
      (removePassengerFromFlight ctx flightId pid none lr).calls.head? =
        some (Call.passengersDelete pid ctx.targetUserId) ∧
      (removePassengerFromFlight ctx flightId pid none lr).flights =
        ctx.flights.map (fun f =>
          if f = flight then { f with passengers := f.passengers.erase p } else f)) ∧
    ((hasPermission ctx.userRole ctx.roleDefinitions "passenger" "delete").truthy = true →
      (∀ f ∈ ctx.flights, ∀ q ∈ f.passengers, q.row.id ≠ pid) →
      (removePassengerFromFlight ctx flightId pid none lr).flights = ctx.flights) := by
  have hownIff := isPassengerOwner_iff
    (flight.passengers.find? (fun p => decide (p.row.id = pid))) me
  refine ⟨?_, ?_, ?_⟩
  · constructor
    · rintro ⟨hcalls, _⟩
      rcases passenger_check_cases ctx me pid flight with ⟨hp, ho⟩ | hok
      · refine ⟨hp, fun hex => ?_⟩
        rw [hownIff.2 hex] at ho
        exact Bool.noConfusion ho
      · have hhead := removePassengerFromFlight_allowed_head ctx me flightId pid respError lr
          flight hme hflight hok
        rw [hcalls] at hhead
        exact Option.noConfusion hhead
    · rintro ⟨hp, hno⟩
      have ho : isPassengerOwner
          (flight.passengers.find? (fun p => decide (p.row.id = pid))) me = false := by
        cases h : isPassengerOwner
            (flight.passengers.find? (fun p => decide (p.row.id = pid))) me with
        | false => rfl
        | true => exact absurd (hownIff.1 h) hno
      rw [removePassengerFromFlight_denied ctx me flightId pid respError lr flight hme hflight
        hp ho]
      exact ⟨rfl, rfl⟩
  · intro p huniq hp hid hallowed
    subst hid
    have hfl : flight ∈ ctx.flights := getFlight_mem hflight
    have hfind := find_by_id_of_nodup (huniq.within hfl) hp
    have hok : (hasPermission ctx.userRole ctx.roleDefinitions "passenger" "delete").truthy
          = true ∨
        isPassengerOwner (flight.passengers.find? (fun q => decide (q.row.id = p.row.id))) me
          = true := by
      rcases hallowed with h | h
      · exact Or.inl h
      · exact Or.inr ((isPassengerOwner_iff _ me).2 ⟨p, hfind, h⟩)
    refine ⟨removePassengerFromFlight_allowed_head ctx me flightId p.row.id none lr flight hme
      hflight hok, ?_⟩
    rw [removePassengerFromFlight_allowed_flights ctx me flightId p.row.id lr flight hme hflight
      hok]
    exact patch_filter_eq_erase flightId huniq hfl hp
  · intro hperm hnone
    rw [removePassengerFromFlight_allowed_flights ctx me flightId pid lr flight hme hflight
      (Or.inl hperm)]
    have hid : ctx.flights.map (fun f =>
        if patchesFlight flight flightId f then
          { f with passengers := f.passengers.filter (fun p => decide (p.row.id ≠ pid)) }
        else f) = ctx.flights.map id := by
      apply List.map_congr_left
      intro f hf
      have hkeep : f.passengers.filter (fun p => decide (p.row.id ≠ pid)) = f.passengers := by
        apply List.filter_eq_self.2
        intro q hq
        simpa using hnone f hf q hq
      rw [hkeep]
      split <;> rfl
    rw [hid, List.map_id]

/-- A staff actor without `passenger.delete` removing the passenger it created from
its flight: the other passenger and the other flight stay. -/
theorem removePassengerFromFlight_denied_iff_witness :
    (removePassengerFromFlight sampleCtx (JVal.num 1)
        (JVal.str "33333333-3333-3333-3333-333333333333") none LogResult.ok).calls.head? =
      some (Call.passengersDelete (JVal.str "33333333-3333-3333-3333-333333333333")
        sampleCtx.targetUserId) ∧
    (removePassengerFromFlight sampleCtx (JVal.num 1)
        (JVal.str "33333333-3333-3333-3333-333333333333") none LogResult.ok).flights =
      sampleCtx.flights.map (fun f =>
        if f = { row := sampleFlightRow 1 "F1" "2026-01-10" "staff1"
                 flightNumber := JVal.undefined
                 passengers :=
                   [samplePassenger "11111111-1111-1111-1111-111111111111" "F1" "owner1",
                    samplePassenger "33333333-3333-3333-3333-333333333333" "F1" "staff1"] }
        then
          { f with
            passengers := f.passengers.erase
              (samplePassenger "33333333-3333-3333-3333-333333333333" "F1" "staff1") }
        else f) :=
  (removePassengerFromFlight_denied_iff sampleCtx "staff1" (JVal.num 1)
    (JVal.str "33333333-3333-3333-3333-333333333333") none LogResult.ok _ rfl rfl).2.1
    (samplePassenger "33333333-3333-3333-3333-333333333333" "F1" "staff1")
    (by decide) (by decide) rfl (Or.inr rfl)

/-! ## Account-wide operations: theorems -/

/-- C11 (no check in the account-wide operations, counterexample): a `Staff` actor
whose definition holds none of the `settings` permissions gets the backend write
issued by each of `addAirline`, `updateAirline`, `deleteAirline`, `addAgency`,
`updateAgency` and `deleteAgency`, and the deletes change the local lists. -/
theorem settings_operations_not_denied :
    hasPermission sampleActor.userRole sampleState.roleDefinitions "settings" "airline_create"
      = JVal.bool false ∧
    hasPermission sampleActor.userRole sampleState.roleDefinitions "settings" "airline_update"
      = JVal.bool false ∧
    hasPermission sampleActor.userRole sampleState.roleDefinitions "settings" "airline_delete"
      = JVal.bool false ∧
    hasPermission sampleActor.userRole sampleState.roleDefinitions "settings" "agency_create"
      = JVal.bool false ∧
    hasPermission sampleActor.userRole sampleState.roleDefinitions "settings" "agency_update"
      = JVal.bool false ∧
    hasPermission sampleActor.userRole sampleState.roleDefinitions "settings" "agency_delete"
      = JVal.bool false ∧
    (addAirline sampleActor sampleState (sampleAirlineInput "NewAir") none none).calls ≠ [] ∧
    (updateAirline sampleActor sampleState (JVal.str "A1") (sampleAirlineInput "Renamed")
      none LogResult.ok).calls ≠ [] ∧
    (deleteAirline sampleActor sampleState (JVal.str "A1") none LogResult.ok).calls ≠ [] ∧
    (deleteAirline sampleActor sampleState (JVal.str "A1") none LogResult.ok).state.airlines
      ≠ sampleState.airlines ∧
    (addAgency sampleActor sampleState (sampleAgencyInput "NewAgency") none none).calls ≠ [] ∧
    (updateAgency sampleActor sampleState (JVal.str "G1") (sampleAgencyInput "Renamed")
      none LogResult.ok).calls ≠ [] ∧
    (deleteAgency sampleActor sampleState (JVal.str "G1") none LogResult.ok).calls ≠ [] ∧
    (deleteAgency sampleActor sampleState (JVal.str "G1") none LogResult.ok).state.agencies
      ≠ sampleState.agencies := by
  decide

/-- The helper `logActivity` issues its insert and returns, whatever the backend
answers. -/
theorem logActivity_eq (me actionType entityType : String) (entityId : JVal)
    (logResult : LogResult) :
    logActivity me actionType entityType entityId logResult =
      ([Call.activityLogsInsert
          { user_id := me, action_type := actionType, entity_type := entityType
            entity_id := entityId, created_by := me }], Outcome.returned) := by
  cases logResult <;> rfl

theorem finishLogged_head (call : Call) (st1 : State) (found : Bool) (me : String)
    (actionType entityType : String) (id : JVal) (done : List Toast) (logResult : LogResult) :
    (finishLogged call st1 found me actionType entityType id done logResult).calls.head?
      = some call := by
  unfold finishLogged
  cases found <;> simp [logActivity_eq]

/-- C11 (amended): the six account-wide operations make no permission check. For a
signed-in actor of any role, with any loaded role definitions, `updateAirline`,
`deleteAirline`, `updateAgency` and `deleteAgency` issue their backend write as the
first call, and so do `addAirline` and `addAgency` once the account scope is
resolved. -/
theorem settings_operations_unchecked (a : Actor) (st : State) (me : String) (id : JVal)
    (airline : AirlineInput) (agency : AgencyInput) (respError : Option String)
    (refetchedAirlines : Option (List AirlineRow)) (refetchedAgencies : Option (List AgencyRow))
    (lr : LogResult) (hme : a.currentUser = some me) :
    (updateAirline a st id airline respError lr).calls.head? =
      some (Call.airlinesUpdate id st.targetUserId (airlinePayload airline me)) ∧
    (deleteAirline a st id respError lr).calls.head? =
      some (Call.airlinesDelete id st.targetUserId) ∧
    (updateAgency a st id agency respError lr).calls.head? =
      some (Call.agenciesUpdate id st.targetUserId (agencyPayload agency me)) ∧
    (deleteAgency a st id respError lr).calls.head? =
      some (Call.agenciesDelete id st.targetUserId) ∧
    (st.targetUserId.truthy = true →
      (∃ payload, (addAirline a st airline respError refetchedAirlines).calls.head? =
        some (Call.airlinesInsert payload)) ∧
      (∃ payload, (addAgency a st agency respError refetchedAgencies).calls.head? =
        some (Call.agenciesInsert payload))) := by
  refine ⟨?_, ?_, ?_, ?_, ?_⟩
  · unfold updateAirline
    simp only [hme]
    cases respError with
    | some e => rfl
    | none => exact finishLogged_head _ _ _ _ _ _ _ _ _
  · unfold deleteAirline
    simp only [hme]
    cases respError with
    | some e => rfl
    | none => exact finishLogged_head _ _ _ _ _ _ _ _ _
  · unfold updateAgency
    simp only [hme]
    cases respError with
    | some e => rfl
    | none => exact finishLogged_head _ _ _ _ _ _ _ _ _
  · unfold deleteAgency
    simp only [hme]
    cases respError with
    | some e => rfl
    | none => exact finishLogged_head _ _ _ _ _ _ _ _ _
  · intro hscope
    constructor
    · unfold addAirline
      simp only [hme, hscope]
      cases respError with
      | some e => exact ⟨_, rfl⟩
      | none => cases refetchedAirlines <;> exact ⟨_, rfl⟩
    · unfold addAgency
      simp only [hme, hscope]
      cases respError with
      | some e => exact ⟨_, rfl⟩
      | none => cases refetchedAgencies <;> exact ⟨_, rfl⟩

/-- The staff actor without `settings` permissions deleting an airline. -/
theorem settings_operations_unchecked_witness :
    (deleteAirline sampleActor sampleState (JVal.str "A1") none LogResult.ok).calls.head? =
      some (Call.airlinesDelete (JVal.str "A1") sampleState.targetUserId) :=
  (settings_operations_unchecked sampleActor sampleState "staff1" (JVal.str "A1")
    (sampleAirlineInput "x") (sampleAgencyInput "y") none none none LogResult.ok rfl).2.1

/-! ## Activity log: theorems -/

/-- C20 (best-effort logging): `logActivity` returns normally for every answer of the
backend insert, an error value and a thrown exception included, and `updateFlight`,
`deleteFlight`, `addPassengerToFlight`, `removePassengerFromFlight`, `updateAirline`,
`deleteAirline`, `updateAgency` and `deleteAgency` give the same calls, the same local
state, the same notices and the same outcome for any two answers to the log write. -/
theorem log_failure_changes_nothing (lr lr2 : LogResult) :
    (∀ (me actionType entityType : String) (entityId : JVal),
      (logActivity me actionType entityType entityId lr).2 = Outcome.returned) ∧
    (∀ (ctx : Ctx) (id : JVal) (u : FlightInput) (resp : Res FlightRow),
      updateFlight ctx id u resp lr = updateFlight ctx id u resp lr2) ∧
    (∀ (ctx : Ctx) (id : JVal) (respError : Option String),
      deleteFlight ctx id respError lr = deleteFlight ctx id respError lr2) ∧
    (∀ (ctx : Ctx) (flightId : JVal) (passenger : PassengerInput) (today : String)
        (resp : Res PassengerRow) (delErr insErr : Option String),
      addPassengerToFlight ctx flightId passenger today resp delErr insErr lr =
        addPassengerToFlight ctx flightId passenger today resp delErr insErr lr2) ∧
    (∀ (ctx : Ctx) (flightId pid : JVal) (respError : Option String),
      removePassengerFromFlight ctx flightId pid respError lr =
        removePassengerFromFlight ctx flightId pid respError lr2) ∧
    (∀ (a : Actor) (st : State) (id : JVal) (u : AirlineInput) (respError : Option String),
      updateAirline a st id u respError lr = updateAirline a st id u respError lr2) ∧
    (∀ (a : Actor) (st : State) (id : JVal) (respError : Option String),
      deleteAirline a st id respError lr = deleteAirline a st id respError lr2) ∧
    (∀ (a : Actor) (st : State) (id : JVal) (u : AgencyInput) (respError : Option String),
      updateAgency a st id u respError lr = updateAgency a st id u respError lr2) ∧
    (∀ (a : Actor) (st : State) (id : JVal) (respError : Option String),
      deleteAgency a st id respError lr = deleteAgency a st id respError lr2) := by
  refine ⟨?_, ?_, ?_, ?_, ?_, ?_, ?_, ?_, ?_⟩
  · intro me actionType entityType entityId
    rw [logActivity_eq]
  · intro ctx id u resp
    simp only [updateFlight, logActivity_eq]
  · intro ctx id respError
    simp only [deleteFlight, logActivity_eq]
  · intro ctx flightId passenger today resp delErr insErr
    simp only [addPassengerToFlight, logActivity_eq]
  · intro ctx flightId pid respError
    simp only [removePassengerFromFlight, logActivity_eq]
  · intro a st id u respError
    simp only [updateAirline, finishLogged, logActivity_eq]
  · intro a st id respError
    simp only [deleteAirline, finishLogged, logActivity_eq]
  · intro a st id u respError
    simp only [updateAgency, finishLogged, logActivity_eq]
  · intro a st id respError
    simp only [deleteAgency, finishLogged, logActivity_eq]

/-! ## Remote write failure: auxiliary facts -/

theorem updateFlight_write_error (ctx : Ctx) (id : JVal) (u : FlightInput)
    (data : Option FlightRow) (e : String) (lr : LogResult) :
    (updateFlight ctx id u { data := data, error := some e } lr).flights = ctx.flights ∧
    ((updateFlight ctx id u { data := data, error := some e } lr).calls ≠ [] →
      (updateFlight ctx id u { data := data, error := some e } lr).outcome = Outcome.threw e) := by
  unfold updateFlight
  cases ctx.currentUser with
  | none => simp
  | some me =>
    simp only
    split <;> simp

theorem deleteFlight_write_error (ctx : Ctx) (id : JVal) (e : String) (lr : LogResult) :
    (deleteFlight ctx id (some e) lr).flights = ctx.flights ∧
    ((deleteFlight ctx id (some e) lr).calls ≠ [] →
      (deleteFlight ctx id (some e) lr).outcome = Outcome.threw e) := by
  unfold deleteFlight
  cases ctx.currentUser with
  | none => simp
  | some me =>
    simp only
    split <;> simp

theorem removePassengerFromFlight_write_error (ctx : Ctx) (flightId pid : JVal) (e : String)
    (lr : LogResult) :
    (removePassengerFromFlight ctx flightId pid (some e) lr).flights = ctx.flights ∧
    ((removePassengerFromFlight ctx flightId pid (some e) lr).calls ≠ [] →
      (removePassengerFromFlight ctx flightId pid (some e) lr).outcome = Outcome.threw e) := by
  unfold removePassengerFromFlight
  cases ctx.currentUser with
  | none => simp
  | some me =>
    simp only
    cases getFlight ctx.flights flightId with
    | error err => simp
    | ok found =>
      cases found with
      | none => simp
      | some flight =>
        simp only
        split <;> simp

theorem manageInfants_delete_error (pid uid : JVal) (names : Option (List String))
    (me e : String) (insErr : Option String) :
    manageInfants pid uid names me (some e) insErr =
      ([Call.infantsDelete pid], Outcome.threw e) := rfl

/-- With the delete accepted and the insert refused, `manageInfants` either throws
after issuing the insert or never issues it. -/
theorem manageInfants_insert_error (pid uid : JVal) (names : Option (List String))
    (me e : String) :
    (∃ rows, manageInfants pid uid names me none (some e) =
        ([Call.infantsDelete pid, Call.infantsInsert rows], Outcome.threw e)) ∨
    manageInfants pid uid names me none (some e) =
      ([Call.infantsDelete pid], Outcome.returned) := by
  unfold manageInfants
  cases names with
  | none => exact Or.inr rfl
  | some l =>
    simp only
    split
    · split
      · exact Or.inl ⟨_, rfl⟩
      · exact Or.inr rfl
    · exact Or.inr rfl

theorem addPassengerToFlight_write_error (ctx : Ctx) (flightId : JVal)
    (passenger : PassengerInput) (today : String) (data : Option PassengerRow) (e : String)
    (delErr insErr : Option String) (lr : LogResult) :
    (addPassengerToFlight ctx flightId passenger today { data := data, error := some e }
      delErr insErr lr).flights = ctx.flights ∧
    ((addPassengerToFlight ctx flightId passenger today { data := data, error := some e }
        delErr insErr lr).calls ≠ [] →
      (addPassengerToFlight ctx flightId passenger today { data := data, error := some e }
        delErr insErr lr).outcome = Outcome.threw e) := by
  unfold addPassengerToFlight
  cases ctx.currentUser with
  | none => simp
  | some me =>
    simp only
    cases getFlight ctx.flights flightId with
    | error err => simp
    | ok found =>
      cases found with
      | none => simp
      | some flight =>
        simp only
        split <;> simp

theorem addPassengerToFlight_infants_delete_error (ctx : Ctx) (flightId : JVal)
    (passenger : PassengerInput) (today : String) (data : Option PassengerRow) (e : String)
    (insErr : Option String) (lr : LogResult) :
    (addPassengerToFlight ctx flightId passenger today { data := data, error := none }
      (some e) insErr lr).flights = ctx.flights ∧
    ((∃ pid, Call.infantsDelete pid ∈
        (addPassengerToFlight ctx flightId passenger today { data := data, error := none }
          (some e) insErr lr).calls) →
      (addPassengerToFlight ctx flightId passenger today { data := data, error := none }
        (some e) insErr lr).outcome = Outcome.threw e) := by
  unfold addPassengerToFlight
  cases ctx.currentUser with
  | none => simp
  | some me =>
    simp only
    cases getFlight ctx.flights flightId with
    | error err => simp
    | ok found =>
      cases found with
      | none => simp
      | some flight =>
        cases data with
        | none => simp only; split <;> simp
        | some row =>
          simp only [manageInfants_delete_error]
          split <;> simp

theorem addPassengerToFlight_infants_insert_error (ctx : Ctx) (flightId : JVal)
    (passenger : PassengerInput) (today : String) (data : Option PassengerRow) (e : String)
    (lr : LogResult) :
    (∃ rows, Call.infantsInsert rows ∈
        (addPassengerToFlight ctx flightId passenger today { data := data, error := none }
          none (some e) lr).calls) →
      (addPassengerToFlight ctx flightId passenger today { data := data, error := none }
        none (some e) lr).outcome = Outcome.threw e ∧
      (addPassengerToFlight ctx flightId passenger today { data := data, error := none }
        none (some e) lr).flights = ctx.flights := by
  unfold addPassengerToFlight
  cases ctx.currentUser with
  | none => simp
  | some me =>
    simp only
    cases getFlight ctx.flights flightId with
    | error err => simp
    | ok found =>
      cases found with
      | none => simp
      | some flight =>
        cases data with
        | none => simp only; split <;> simp
        | some row =>
          rcases manageInfants_insert_error row.id ctx.targetUserId passenger.infants me e with
            ⟨rows, h⟩ | h
          · simp only [h]
            split <;> simp
          · simp only [h, logActivity_eq]
            split
            · split <;> simp
            · simp

theorem rejectedWith_liftFlights {a : Actor} {st : State} {e : String} {r : OpResult}
    (h : r.flights = (st.ctx a).flights ∧ (r.calls ≠ [] → r.outcome = Outcome.threw e)) :
    RejectedWith st e (liftFlights st r) := by
  refine ⟨?_, h.2⟩
  have hf : r.flights = st.flights := h.1
  simp [liftFlights, hf]

/-! ## Remote write failure: theorem -/

/-- C12 (remote write failure): when the backend answers a write of an operation to
an entity table with an error `e`, the operation rejects with `e` and the local state
(flights, airlines, agencies, prices, role definitions and the rest) is what it was
before the call. This holds for the write of `createFlight`, `updateFlight`,
`deleteFlight`, `removePassengerFromFlight`, the six airline and agency operations,
`updatePrices`, `addRole` and `updateRolePermissions`, and for the three writes of
`addPassengerToFlight`: the passenger write, the delete of the infants and the
insert of the infants. -/
theorem write_error_leaves_snapshot (toTime : JVal → Option Int) (numberStr : String → JNum)
    (a : Actor) (st : State) (e : String) (lr : LogResult) :
    (∀ flight data, RejectedWith st e
      (createFlight toTime a st flight { data := data, error := some e }).1) ∧
    (∀ id u data, RejectedWith st e
      (liftFlights st (updateFlight (st.ctx a) id u { data := data, error := some e } lr))) ∧
    (∀ id, RejectedWith st e (liftFlights st (deleteFlight (st.ctx a) id (some e) lr))) ∧
    (∀ flightId passenger today data delErr insErr, RejectedWith st e
      (liftFlights st (addPassengerToFlight (st.ctx a) flightId passenger today
        { data := data, error := some e } delErr insErr lr))) ∧
    (∀ flightId passenger today data insErr,
      (liftFlights st (addPassengerToFlight (st.ctx a) flightId passenger today
        { data := data, error := none } (some e) insErr lr)).state = st ∧
      ((∃ pid, Call.infantsDelete pid ∈
          (addPassengerToFlight (st.ctx a) flightId passenger today
            { data := data, error := none } (some e) insErr lr).calls) →
        (addPassengerToFlight (st.ctx a) flightId passenger today
          { data := data, error := none } (some e) insErr lr).outcome = Outcome.threw e)) ∧
    (∀ flightId passenger today data,
      (∃ rows, Call.infantsInsert rows ∈
          (addPassengerToFlight (st.ctx a) flightId passenger today
            { data := data, error := none } none (some e) lr).calls) →
        (addPassengerToFlight (st.ctx a) flightId passenger today
          { data := data, error := none } none (some e) lr).outcome = Outcome.threw e ∧
        (liftFlights st (addPassengerToFlight (st.ctx a) flightId passenger today
          { data := data, error := none } none (some e) lr)).state = st) ∧
    (∀ flightId pid, RejectedWith st e
      (liftFlights st (removePassengerFromFlight (st.ctx a) flightId pid (some e) lr))) ∧
    (∀ airline refetched, RejectedWith st e (addAirline a st airline (some e) refetched)) ∧
    (∀ id airline, RejectedWith st e (updateAirline a st id airline (some e) lr)) ∧
    (∀ id, RejectedWith st e (deleteAirline a st id (some e) lr)) ∧
    (∀ agency refetched, RejectedWith st e (addAgency a st agency (some e) refetched)) ∧
    (∀ id agency, RejectedWith st e (updateAgency a st id agency (some e) lr)) ∧
    (∀ id, RejectedWith st e (deleteAgency a st id (some e) lr)) ∧
    (∀ newPrices, RejectedWith st e (updatePrices numberStr a st newPrices (some e))) ∧
    (∀ roleName, RejectedWith st e (addRole a st roleName (Single.error e)).1) ∧
    (∀ roleId newPermissions, RejectedWith st e
      (updateRolePermissions a st roleId newPermissions (Single.error e))) := by
  refine ⟨?_, ?_, ?_, ?_, ?_, ?_, ?_, ?_, ?_, ?_, ?_, ?_, ?_, ?_, ?_, ?_⟩
  · intro flight data
    unfold createFlight RejectedWith
    cases a.currentUser with
    | none => simp [StResult.skip]
    | some me => simp only; split <;> simp [StResult.skip]
  · intro id u data
    exact rejectedWith_liftFlights (updateFlight_write_error _ id u data e lr)
  · intro id
    exact rejectedWith_liftFlights (deleteFlight_write_error _ id e lr)
  · intro flightId passenger today data delErr insErr
    exact rejectedWith_liftFlights
      (addPassengerToFlight_write_error _ flightId passenger today data e delErr insErr lr)
  · intro flightId passenger today data insErr
    have h := addPassengerToFlight_infants_delete_error (st.ctx a) flightId passenger today
      data e insErr lr
    refine ⟨?_, h.2⟩
    have hf : (addPassengerToFlight (st.ctx a) flightId passenger today
        { data := data, error := none } (some e) insErr lr).flights = st.flights := h.1
    simp [liftFlights, hf]
  · intro flightId passenger today data hex
    have h := addPassengerToFlight_infants_insert_error (st.ctx a) flightId passenger today
      data e lr hex
    refine ⟨h.1, ?_⟩
    have hf : (addPassengerToFlight (st.ctx a) flightId passenger today
        { data := data, error := none } none (some e) lr).flights = st.flights := h.2
    simp [liftFlights, hf]
  · intro flightId pid
    exact rejectedWith_liftFlights (removePassengerFromFlight_write_error _ flightId pid e lr)
  · intro airline refetched
    unfold addAirline RejectedWith
    cases a.currentUser with
    | none => simp [StResult.skip]
    | some me => simp only; split <;> simp [StResult.skip]
  · intro id airline
    unfold updateAirline RejectedWith
    cases a.currentUser <;> simp [StResult.skip]
  · intro id
    unfold deleteAirline RejectedWith
    cases a.currentUser <;> simp [StResult.skip]
  · intro agency refetched
    unfold addAgency RejectedWith
    cases a.currentUser with
    | none => simp [StResult.skip]
    | some me => simp only; split <;> simp [StResult.skip]
  · intro id agency
    unfold updateAgency RejectedWith
    cases a.currentUser <;> simp [StResult.skip]
  · intro id
    unfold deleteAgency RejectedWith
    cases a.currentUser <;> simp [StResult.skip]
  · intro newPrices
    unfold updatePrices RejectedWith
    cases a.currentUser with
    | none => simp [StResult.skip]
    | some me => simp only; split <;> simp [StResult.skip]
  · intro roleName
    unfold addRole RejectedWith
    cases a.currentUser <;> simp [StResult.skip]
  · intro roleId newPermissions
    unfold updateRolePermissions RejectedWith
    cases a.currentUser <;> simp [StResult.skip]

/-- A refused infants insert after an accepted passenger update: the operation
rejects and the local state stays. -/
theorem write_error_leaves_snapshot_witness :
    (addPassengerToFlight (sampleState.ctx sampleActor) (JVal.num 2)
        { samplePassengerInput "22222222-2222-2222-2222-222222222222" "Renamed" with
          infants := some ["Baby"] } "2026-01-01"
        { data := some (samplePassengerRow "22222222-2222-2222-2222-222222222222" "F2" "owner1")
          error := none } none (some "refused") LogResult.ok).outcome = Outcome.threw "refused" ∧
    (liftFlights sampleState (addPassengerToFlight (sampleState.ctx sampleActor) (JVal.num 2)
        { samplePassengerInput "22222222-2222-2222-2222-222222222222" "Renamed" with
          infants := some ["Baby"] } "2026-01-01"
        { data := some (samplePassengerRow "22222222-2222-2222-2222-222222222222" "F2" "owner1")
          error := none } none (some "refused") LogResult.ok)).state = sampleState :=
  (write_error_leaves_snapshot sampleToTime (fun _ => none) sampleActor sampleState "refused"
    LogResult.ok).2.2.2.2.2.1 (JVal.num 2) _ "2026-01-01" _
    ⟨infantsToInsert (JVal.str "22222222-2222-2222-2222-222222222222") (JVal.str "owner1")
      ["Baby"] "staff1", by decide⟩

/-! ## Infant replacement: auxiliary facts -/

theorem string_length_pos_iff (s : String) : s.length > 0 ↔ s ≠ "" := by
  constructor
  · intro h hs
    subst hs
    exact absurd h (by decide)
  · intro h
    rcases s with ⟨l⟩
    cases l with
    | nil => exact absurd rfl h
    | cons c cs => simp [String.length]

/-- The rows `manageInfants` inserts carry the trimmed names that are not empty. -/
theorem infantsToInsert_names (pid uid : JVal) (names : List String) (me : String) :
    (infantsToInsert pid uid names me).map (fun r => r.name) =
      (names.map jsTrim).filter (fun n => decide (n ≠ "")) := by
  unfold infantsToInsert
  rw [List.map_map, List.filter_map]
  have hp : (fun name : String => name != "" && decide ((jsTrim name).length > 0)) =
      ((fun n : String => decide (n ≠ "")) ∘ jsTrim) := by
    funext name
    by_cases hn : name = ""
    · subst hn
      decide
    · by_cases ht : jsTrim name = ""
      · simp [hn, ht]
      · have hpos := (string_length_pos_iff (jsTrim name)).2 ht
        simp [hn, ht, hpos]
  rw [hp]
  rfl

theorem infantsToInsert_passenger (pid uid : JVal) (names : List String) (me : String) :
    ∀ r ∈ infantsToInsert pid uid names me, r.passenger_id = pid := by
  intro r hr
  unfold infantsToInsert at hr
  rcases List.mem_map.1 hr with ⟨n, _, rfl⟩
  rfl

/-- After an accepted delete and an accepted insert of rows of one passenger, the
names stored for the passenger are the names of the rows. -/
theorem stored_after_replace (table : List InfantRow) (pid : JVal) (rows : List InfantInsert)
    (hrows : ∀ r ∈ rows, r.passenger_id = pid) :
    storedInfantNames
      (applyInfantsCall (applyInfantsCall table (Call.infantsDelete pid))
        (Call.infantsInsert rows)) pid = rows.map (fun r => r.name) := by
  unfold storedInfantNames applyInfantsCall
  simp only [List.filter_append, List.filter_filter]
  have h1 : table.filter (fun r => decide (r.passenger_id = pid) &&
      decide (r.passenger_id ≠ pid)) = [] := by
    apply List.filter_eq_nil_iff.2
    intro r _
    by_cases h : r.passenger_id = pid <;> simp [h]
  have h2 : (rows.map storedInfant).filter (fun r => decide (r.passenger_id = pid)) =
      rows.map storedInfant := by
    apply List.filter_eq_self.2
    intro r hr
    rcases List.mem_map.1 hr with ⟨x, hx, rfl⟩
    simpa [storedInfant] using hrows x hx
  rw [h1, h2, List.nil_append, List.map_map]
  rfl

theorem stored_after_delete (table : List InfantRow) (pid : JVal) :
    storedInfantNames (applyInfantsCall table (Call.infantsDelete pid)) pid = [] := by
  unfold storedInfantNames applyInfantsCall
  simp only [List.filter_filter]
  have h1 : table.filter (fun r => decide (r.passenger_id = pid) &&
      decide (r.passenger_id ≠ pid)) = [] := by
    apply List.filter_eq_nil_iff.2
    intro r _
    by_cases h : r.passenger_id = pid <;> simp [h]
  rw [h1]
  rfl

/-- What `manageInfants` stores when the backend accepts both of its calls. -/
theorem manageInfants_stored (table : List InfantRow) (pid uid : JVal) (names : List String)
    (me : String) :
    (manageInfants pid uid (some names) me none none).2 = Outcome.returned ∧
    storedInfantNames
        (applyInfantsCalls table (manageInfants pid uid (some names) me none none).1) pid =
      (names.map jsTrim).filter (fun n => decide (n ≠ "")) := by
  unfold manageInfants
  simp only
  split
  · split
    · refine ⟨rfl, ?_⟩
      simp only [applyInfantsCalls, List.foldl]
      rw [stored_after_replace table pid _ (infantsToInsert_passenger pid uid names me),
        infantsToInsert_names]
    · rename_i hrows
      refine ⟨rfl, ?_⟩
      simp only [applyInfantsCalls, List.foldl]
      rw [stored_after_delete, ← infantsToInsert_names pid uid names me]
      have hnil : infantsToInsert pid uid names me = [] := by
        cases h : infantsToInsert pid uid names me with
        | nil => rfl
        | cons x xs => simp [h] at hrows
      rw [hnil]
      rfl
  · rename_i hlen
    refine ⟨rfl, ?_⟩
    simp only [applyInfantsCalls, List.foldl]
    rw [stored_after_delete]
    have hnil : names = [] := by
      cases names with
      | nil => rfl
      | cons x xs => simp at hlen
    rw [hnil]
    rfl

/-! ## Infant replacement: theorem -/

/-- C13 (infants are replaced, not merged): when `addPassengerToFlight` finds the
flight and the backend accepts the passenger write (returning the row `data`) and
both infant calls, the operation returns and the infant names stored for `data.id`
are the trimmed names of the submitted list that are not empty, in order, whatever
the table held before; updating a passenger that had infants `A` and `B` with the
list `[A]` leaves one infant record. -/
theorem addPassengerToFlight_replaces_infants (ctx : Ctx) (me : String) (flightId : JVal)
    (passenger : PassengerInput) (today : String) (data : PassengerRow) (lr : LogResult)
    (flight : Flight) (names : List String) (table : List InfantRow)
    (hme : ctx.currentUser = some me)
    (hflight : getFlight ctx.flights flightId = Except.ok (some flight))
    (hnames : passenger.infants = some names) :
    (addPassengerToFlight ctx flightId passenger today { data := some data, error := none }
      none none lr).outcome = Outcome.returned ∧
    storedInfantNames
        (applyInfantsCalls table
          (addPassengerToFlight ctx flightId passenger today { data := some data, error := none }
            none none lr).calls) data.id =
      (names.map jsTrim).filter (fun n => decide (n ≠ "")) ∧
    storedInfantNames
        (applyInfantsCalls
          [sampleInfantRow "22222222-2222-2222-2222-222222222222" "A",
            sampleInfantRow "22222222-2222-2222-2222-222222222222" "B"]
          (addPassengerToFlight sampleCtx (JVal.num 2)
            { samplePassengerInput "22222222-2222-2222-2222-222222222222" "Keeper" with
              infants := some ["A"] } "2026-01-01"
            (Res.ok (samplePassengerRow "22222222-2222-2222-2222-222222222222" "F2" "owner1"))
            none none LogResult.ok).calls)
        (JVal.str "22222222-2222-2222-2222-222222222222") = ["A"] := by
  obtain ⟨hout, hst⟩ := manageInfants_stored table data.id ctx.targetUserId names me
  refine ⟨?_, ?_, by decide⟩
  · unfold addPassengerToFlight
    simp only [hme, hflight, hnames, hout, logActivity_eq]
    split
    · split <;> rfl
    · rfl
  · unfold addPassengerToFlight
    simp only [hme, hflight, hnames, hout, logActivity_eq]
    split
    · split
      · simpa [applyInfantsCalls, applyInfantsCall] using hst
      · simpa [applyInfantsCalls, applyInfantsCall] using hst
    · simpa [applyInfantsCalls, applyInfantsCall] using hst

/-- An update of a persisted passenger with the list `[" Ann ", "", "Bob"]`. -/
theorem addPassengerToFlight_replaces_infants_witness :
    storedInfantNames
        (applyInfantsCalls [sampleInfantRow "22222222-2222-2222-2222-222222222222" "Old"]
          (addPassengerToFlight sampleCtx (JVal.num 2)
            { samplePassengerInput "22222222-2222-2222-2222-222222222222" "Keeper" with
              infants := some [" Ann ", "", "Bob"] } "2026-01-01"
            { data := some
                (samplePassengerRow "22222222-2222-2222-2222-222222222222" "F2" "owner1")
              error := none }
            none none LogResult.ok).calls)
        (samplePassengerRow "22222222-2222-2222-2222-222222222222" "F2" "owner1").id =
      ([" Ann ", "", "Bob"].map jsTrim).filter (fun n => decide (n ≠ "")) :=
  (addPassengerToFlight_replaces_infants sampleCtx "staff1" (JVal.num 2) _ "2026-01-01" _
    LogResult.ok _ _ _ rfl rfl rfl).2.1

/-! ## Identifier routing: auxiliary facts -/

theorem char_le_iff (a b : Char) : a ≤ b ↔ a.toNat ≤ b.toNat := by
  rw [Char.le_def]
  exact Iff.rfl

theorem isHexDigit_iff (c : Char) : isHexDigit c = true ↔ IsHexChar c := by
  unfold isHexDigit IsHexChar
  simp only [char_le_iff, Bool.or_eq_true, Bool.and_eq_true, decide_eq_true_eq]
  have h0 : ('0' : Char).toNat = 48 := rfl
  have h9 : ('9' : Char).toNat = 57 := rfl
  have ha : ('a' : Char).toNat = 97 := rfl
  have hf : ('f' : Char).toNat = 102 := rfl
  have hA : ('A' : Char).toNat = 65 := rfl
  have hF : ('F' : Char).toNat = 70 := rfl
  rw [h0, h9, ha, hf, hA, hF]
  tauto

theorem digitChar_ne_hyphen (k : Nat) (hk : k < 10) : (Nat.digitChar k) ≠ '-' := by
  interval_cases k <;> decide

theorem toDigitsCore_no_hyphen (fuel n : Nat) (acc : List Char) (hacc : '-' ∉ acc) :
    '-' ∉ Nat.toDigitsCore 10 fuel n acc := by
  induction fuel generalizing n acc with
  | zero => simpa [Nat.toDigitsCore] using hacc
  | succ f ih =>
    unfold Nat.toDigitsCore
    have hd : '-' ∉ Nat.digitChar (n % 10) :: acc := by
      simp only [List.mem_cons, not_or]
      exact ⟨(digitChar_ne_hyphen _ (Nat.mod_lt _ (by decide))).symm, hacc⟩
    simp only
    split
    · exact hd
    · exact ih _ _ hd

theorem natDigits_no_hyphen (n : Nat) : '-' ∉ (toString n).toList := by
  show '-' ∉ (Nat.repr n).toList
  unfold Nat.repr Nat.toDigits
  simpa using toDigitsCore_no_hyphen (n + 1) n [] (by simp)

/-- The regular-expression test, as the five groups of hexadecimal digits it accepts. -/
theorem uuidRegexTest_iff (cs : List Char) :
    uuidRegexTest cs = true ↔
      ∃ g1 g2 g3 g4 g5 : List Char,
        g1.length = 8 ∧ g2.length = 4 ∧ g3.length = 4 ∧ g4.length = 4 ∧ g5.length = 12 ∧
        (∀ c ∈ g1 ++ g2 ++ g3 ++ g4 ++ g5, IsHexChar c) ∧
        cs = g1 ++ '-' :: (g2 ++ '-' :: (g3 ++ '-' :: (g4 ++ '-' :: g5))) := by
  constructor
  · intro h
    rcases cs with _ | ⟨c0, cs⟩
    · simp [uuidRegexTest] at h
    rcases cs with _ | ⟨c1, cs⟩
    · simp [uuidRegexTest] at h
    rcases cs with _ | ⟨c2, cs⟩
    · simp [uuidRegexTest] at h
    rcases cs with _ | ⟨c3, cs⟩
    · simp [uuidRegexTest] at h
    rcases cs with _ | ⟨c4, cs⟩
    · simp [uuidRegexTest] at h
    rcases cs with _ | ⟨c5, cs⟩
    · simp [uuidRegexTest] at h
    rcases cs with _ | ⟨c6, cs⟩
    · simp [uuidRegexTest] at h
    rcases cs with _ | ⟨c7, cs⟩
    · simp [uuidRegexTest] at h
    rcases cs with _ | ⟨c8, cs⟩
    · simp [uuidRegexTest] at h
    rcases cs with _ | ⟨c9, cs⟩
    · simp [uuidRegexTest] at h
    rcases cs with _ | ⟨c10, cs⟩
    · simp [uuidRegexTest] at h
    rcases cs with _ | ⟨c11, cs⟩
    · simp [uuidRegexTest] at h
    rcases cs with _ | ⟨c12, cs⟩
    · simp [uuidRegexTest] at h
    rcases cs with _ | ⟨c13, cs⟩
    · simp [uuidRegexTest] at h
    rcases cs with _ | ⟨c14, cs⟩
    · simp [uuidRegexTest] at h
    rcases cs with _ | ⟨c15, cs⟩
    · simp [uuidRegexTest] at h
    rcases cs with _ | ⟨c16, cs⟩
    · simp [uuidRegexTest] at h
    rcases cs with _ | ⟨c17, cs⟩
    · simp [uuidRegexTest] at h
    rcases cs with _ | ⟨c18, cs⟩
    · simp [uuidRegexTest] at h
    rcases cs with _ | ⟨c19, cs⟩
    · simp [uuidRegexTest] at h
    rcases cs with _ | ⟨c20, cs⟩
    · simp [uuidRegexTest] at h
    rcases cs with _ | ⟨c21, cs⟩
    · simp [uuidRegexTest] at h
    rcases cs with _ | ⟨c22, cs⟩
    · simp [uuidRegexTest] at h
    rcases cs with _ | ⟨c23, cs⟩
    · simp [uuidRegexTest] at h
    rcases cs with _ | ⟨c24, cs⟩
    · simp [uuidRegexTest] at h
    rcases cs with _ | ⟨c25, cs⟩
    · simp [uuidRegexTest] at h
    rcases cs with _ | ⟨c26, cs⟩
    · simp [uuidRegexTest] at h
    rcases cs with _ | ⟨c27, cs⟩
    · simp [uuidRegexTest] at h
    rcases cs with _ | ⟨c28, cs⟩
    · simp [uuidRegexTest] at h
    rcases cs with _ | ⟨c29, cs⟩
    · simp [uuidRegexTest] at h
    rcases cs with _ | ⟨c30, cs⟩
    · simp [uuidRegexTest] at h
    rcases cs with _ | ⟨c31, cs⟩
    · simp [uuidRegexTest] at h
    rcases cs with _ | ⟨c32, cs⟩
    · simp [uuidRegexTest] at h
    rcases cs with _ | ⟨c33, cs⟩
    · simp [uuidRegexTest] at h
    rcases cs with _ | ⟨c34, cs⟩
    · simp [uuidRegexTest] at h
    rcases cs with _ | ⟨c35, cs⟩
    · simp [uuidRegexTest] at h
    rcases cs with _ | ⟨x, cs⟩
    swap
    · simp [uuidRegexTest] at h
    simp [uuidRegexTest, List.enum, List.enumFrom] at h
    simp only [isHexDigit_iff] at h
    obtain ⟨h0, h1, h2, h3, h4, h5, h6, h7, e8, h9, h10, h11, h12, e13, h14, h15, h16, h17, e18, h19, h20, h21, h22, e23, h24, h25, h26, h27, h28, h29, h30, h31, h32, h33, h34, h35⟩ := h
    subst e8 e13 e18 e23
    refine ⟨[c0, c1, c2, c3, c4, c5, c6, c7], [c9, c10, c11, c12], [c14, c15, c16, c17], [c19, c20, c21, c22], [c24, c25, c26, c27, c28, c29, c30, c31, c32, c33, c34, c35], rfl, rfl, rfl, rfl, rfl, ?_, rfl⟩
    intro c hc
    simp only [List.cons_append, List.nil_append, List.mem_cons, List.mem_singleton,
      List.not_mem_nil, or_false] at hc
    rcases hc with rfl | rfl | rfl | rfl | rfl | rfl | rfl | rfl | rfl | rfl | rfl | rfl | rfl | rfl | rfl | rfl | rfl | rfl | rfl | rfl | rfl | rfl | rfl | rfl | rfl | rfl | rfl | rfl | rfl | rfl | rfl | rfl
    · exact h0
    · exact h1
    · exact h2
    · exact h3
    · exact h4
    · exact h5
    · exact h6
    · exact h7
    · exact h9
    · exact h10
    · exact h11
    · exact h12
    · exact h14
    · exact h15
    · exact h16
    · exact h17
    · exact h19
    · exact h20
    · exact h21
    · exact h22
    · exact h24
    · exact h25
    · exact h26
    · exact h27
    · exact h28
    · exact h29
    · exact h30
    · exact h31
    · exact h32
    · exact h33
    · exact h34
    · exact h35
  · rintro ⟨g1, g2, g3, g4, g5, hlg1, hlg2, hlg3, hlg4, hlg5, hhex, rfl⟩
    rcases g1 with _ | ⟨g1_0, g1⟩
    · simp at hlg1
    rcases g1 with _ | ⟨g1_1, g1⟩
    · simp at hlg1
    rcases g1 with _ | ⟨g1_2, g1⟩
    · simp at hlg1
    rcases g1 with _ | ⟨g1_3, g1⟩
    · simp at hlg1
    rcases g1 with _ | ⟨g1_4, g1⟩
    · simp at hlg1
    rcases g1 with _ | ⟨g1_5, g1⟩
    · simp at hlg1
    rcases g1 with _ | ⟨g1_6, g1⟩
    · simp at hlg1
    rcases g1 with _ | ⟨g1_7, g1⟩
    · simp at hlg1
    rcases g1 with _ | ⟨x, g1⟩
    swap
    · simp at hlg1
    rcases g2 with _ | ⟨g2_0, g2⟩
    · simp at hlg2
    rcases g2 with _ | ⟨g2_1, g2⟩
    · simp at hlg2
    rcases g2 with _ | ⟨g2_2, g2⟩
    · simp at hlg2
    rcases g2 with _ | ⟨g2_3, g2⟩
    · simp at hlg2
    rcases g2 with _ | ⟨x, g2⟩
    swap
    · simp at hlg2
    rcases g3 with _ | ⟨g3_0, g3⟩
    · simp at hlg3
    rcases g3 with _ | ⟨g3_1, g3⟩
    · simp at hlg3
    rcases g3 with _ | ⟨g3_2, g3⟩
    · simp at hlg3
    rcases g3 with _ | ⟨g3_3, g3⟩
    · simp at hlg3
    rcases g3 with _ | ⟨x, g3⟩
    swap
    · simp at hlg3
    rcases g4 with _ | ⟨g4_0, g4⟩
    · simp at hlg4
    rcases g4 with _ | ⟨g4_1, g4⟩
    · simp at hlg4
    rcases g4 with _ | ⟨g4_2, g4⟩
    · simp at hlg4
    rcases g4 with _ | ⟨g4_3, g4⟩
    · simp at hlg4
    rcases g4 with _ | ⟨x, g4⟩
    swap
    · simp at hlg4
    rcases g5 with _ | ⟨g5_0, g5⟩
    · simp at hlg5
    rcases g5 with _ | ⟨g5_1, g5⟩
    · simp at hlg5
    rcases g5 with _ | ⟨g5_2, g5⟩
    · simp at hlg5
    rcases g5 with _ | ⟨g5_3, g5⟩
    · simp at hlg5
    rcases g5 with _ | ⟨g5_4, g5⟩
    · simp at hlg5
    rcases g5 with _ | ⟨g5_5, g5⟩
    · simp at hlg5
    rcases g5 with _ | ⟨g5_6, g5⟩
    · simp at hlg5
    rcases g5 with _ | ⟨g5_7, g5⟩
    · simp at hlg5
    rcases g5 with _ | ⟨g5_8, g5⟩
    · simp at hlg5
    rcases g5 with _ | ⟨g5_9, g5⟩
    · simp at hlg5
    rcases g5 with _ | ⟨g5_10, g5⟩
    · simp at hlg5
    rcases g5 with _ | ⟨g5_11, g5⟩
    · simp at hlg5
    rcases g5 with _ | ⟨x, g5⟩
    swap
    · simp at hlg5
    simp only [List.cons_append, List.nil_append, List.mem_cons, List.mem_singleton,
      List.not_mem_nil, or_false, forall_eq_or_imp, forall_eq] at hhex
    simp only [← isHexDigit_iff] at hhex
    simp [uuidRegexTest, List.enum, List.enumFrom]
    tauto

theorem not_isHexChar_hyphen : ¬ IsHexChar '-' := by
  unfold IsHexChar
  simp only [char_le_iff]
  decide

/-- A list the regular expression accepts does not start with a hyphen. -/
theorem uuidRegexTest_head_ne_hyphen (cs : List Char) :
    uuidRegexTest ('-' :: cs) = false := by
  cases h : uuidRegexTest ('-' :: cs) with
  | false => rfl
  | true =>
    rcases (uuidRegexTest_iff _).1 h with ⟨g1, g2, g3, g4, g5, h1, _, _, _, _, hhex, heq⟩
    rcases g1 with _ | ⟨a, g1⟩
    · simp at h1
    · simp only [List.cons_append, List.cons.injEq] at heq
      have ha : IsHexChar a := hhex a (by simp)
      rw [← heq.1] at ha
      exact absurd ha not_isHexChar_hyphen

/-- A list the regular expression accepts holds a hyphen. -/
theorem uuidRegexTest_has_hyphen (cs : List Char) (h : uuidRegexTest cs = true) :
    '-' ∈ cs := by
  rcases (uuidRegexTest_iff _).1 h with ⟨g1, g2, g3, g4, g5, _, _, _, _, _, _, rfl⟩
  simp

theorem guard_eq (id : JVal) :
    (id.truthy && isValidUUID id) = (id.truthy && uuidRegexTest id.toJsString.toList) := by
  unfold isValidUUID
  cases id.truthy <;> simp

/-- The guard `passenger.id && isValidUUID(passenger.id)` holds exactly for the
well-formed persisted-record identifiers. -/
theorem isValidUUID_iff (id : JVal) :
    (id.truthy && isValidUUID id) = true ↔ IsPersistedId id := by
  rw [guard_eq, Bool.and_eq_true]
  cases id with
  | undefined =>
    constructor
    · intro h; exact absurd h.1 (by decide)
    · rintro ⟨_, _, _, _, _, _, _, _, _, _, _, h⟩; cases h
  | null =>
    constructor
    · intro h; exact absurd h.1 (by decide)
    · rintro ⟨_, _, _, _, _, _, _, _, _, _, _, h⟩; cases h
  | bool b =>
    constructor
    · intro h
      cases b
      · exact absurd h.1 (by decide)
      · exact absurd h.2 (by decide)
    · rintro ⟨_, _, _, _, _, _, _, _, _, _, _, h⟩; cases h
  | num n =>
    constructor
    · intro h
      exfalso
      cases n with
      | ofNat k =>
        have h2 : uuidRegexTest (toString k).toList = true := h.2
        exact natDigits_no_hyphen k (uuidRegexTest_has_hyphen _ h2)
      | negSucc k =>
        have h2 : uuidRegexTest ("-" ++ toString (k + 1)).toList = true := h.2
        have h3 : ("-" ++ toString (k + 1)).toList = '-' :: (toString (k + 1)).toList := by
          simp [String.toList]
        rw [h3, uuidRegexTest_head_ne_hyphen] at h2
        exact Bool.noConfusion h2
    · rintro ⟨_, _, _, _, _, _, _, _, _, _, _, h⟩; cases h
  | str s =>
    constructor
    · intro h
      have h2 : uuidRegexTest s.toList = true := h.2
      rcases (uuidRegexTest_iff _).1 h2 with ⟨g1, g2, g3, g4, g5, h1, h2, h3, h4, h5, hhex, heq⟩
      refine ⟨g1, g2, g3, g4, g5, h1, h2, h3, h4, h5, hhex, ?_⟩
      rw [← heq]
      rfl
    · rintro ⟨g1, g2, g3, g4, g5, h1, h2, h3, h4, h5, hhex, heq⟩
      cases heq
      have hre : uuidRegexTest
          (g1 ++ '-' :: (g2 ++ '-' :: (g3 ++ '-' :: (g4 ++ '-' :: g5)))) = true :=
        (uuidRegexTest_iff _).2 ⟨g1, g2, g3, g4, g5, h1, h2, h3, h4, h5, hhex, rfl⟩
      refine ⟨?_, hre⟩
      rcases g1 with _ | ⟨a, g1⟩
      · simp at h1
      · simp [JVal.truthy, String.ext_iff]

theorem manageInfants_outcome_cases (pid uid : JVal) (names : Option (List String))
    (me : String) (delErr insErr : Option String) :
    (manageInfants pid uid names me delErr insErr).2 = Outcome.returned ∨
    ∃ e, (manageInfants pid uid names me delErr insErr).2 = Outcome.threw e := by
  cases h : (manageInfants pid uid names me delErr insErr).2 with
  | returned => exact Or.inl rfl
  | threw e => exact Or.inr ⟨e, rfl⟩

theorem addPassengerToFlight_head (ctx : Ctx) (me : String) (flightId : JVal)
    (passenger : PassengerInput) (today : String) (resp : Res PassengerRow)
    (delErr insErr : Option String) (lr : LogResult) (flight : Flight)
    (hme : ctx.currentUser = some me)
    (hflight : getFlight ctx.flights flightId = Except.ok (some flight)) :
    (addPassengerToFlight ctx flightId passenger today resp delErr insErr lr).calls.head? =
      some (if (passenger.id.truthy && isValidUUID passenger.id) = true then
        Call.passengersUpdate passenger.id ctx.targetUserId (passengerUpdatePayload passenger me)
      else
        Call.passengersInsert
          (passengerInsertPayload flight ctx.targetUserId passenger me today)) := by
  unfold addPassengerToFlight
  simp only [hme, hflight, logActivity_eq]
  rcases resp with ⟨data, error⟩
  by_cases hg : (passenger.id.truthy && isValidUUID passenger.id) = true
  · simp only [hg, if_true]
    cases error with
    | some e => rfl
    | none =>
      cases data with
      | none => rfl
      | some row =>
        simp only
        rcases manageInfants_outcome_cases row.id ctx.targetUserId passenger.infants me
          delErr insErr with h | ⟨e, h⟩
        · simp only [h]
          split <;> rfl
        · simp only [h]
          rfl
  · simp only [hg]
    cases error with
    | some e => rfl
    | none =>
      cases data with
      | none => rfl
      | some row =>
        simp only
        rcases manageInfants_outcome_cases row.id ctx.targetUserId passenger.infants me
          delErr insErr with h | ⟨e, h⟩
        · simp only [h]
          rfl
        · simp only [h]
          rfl

/-! ## Identifier routing: theorem -/

/-- C14 (update or insert): when `addPassengerToFlight` finds the flight, its first
backend call is the update of `passengers` if the passenger's id is a well-formed
persisted-record identifier (8-4-4-4-12 hexadecimal digits in either case, nothing
before or after) and the insert into `passengers` otherwise; an absent id and every
number, the `Date.now()` placeholder of the passenger form among them, route to the
insert. -/
theorem addPassengerToFlight_routes_by_id (ctx : Ctx) (me : String) (flightId : JVal)
    (passenger : PassengerInput) (today : String) (resp : Res PassengerRow)
    (delErr insErr : Option String) (lr : LogResult) (flight : Flight)
    (hme : ctx.currentUser = some me)
    (hflight : getFlight ctx.flights flightId = Except.ok (some flight)) :
    ((addPassengerToFlight ctx flightId passenger today resp delErr insErr lr).calls.head? =
        some (Call.passengersUpdate passenger.id ctx.targetUserId
          (passengerUpdatePayload passenger me)) ↔ IsPersistedId passenger.id) ∧
    ((addPassengerToFlight ctx flightId passenger today resp delErr insErr lr).calls.head? =
        some (Call.passengersInsert
          (passengerInsertPayload flight ctx.targetUserId passenger me today)) ↔
      ¬ IsPersistedId passenger.id) ∧
    ((passenger.id = JVal.undefined ∨ passenger.id = JVal.null ∨
        ∃ n : Int, passenger.id = JVal.num n) →
      (addPassengerToFlight ctx flightId passenger today resp delErr insErr lr).calls.head? =
        some (Call.passengersInsert
          (passengerInsertPayload flight ctx.targetUserId passenger me today))) := by
  have hhead := addPassengerToFlight_head ctx me flightId passenger today resp delErr insErr lr
    flight hme hflight
  have hiff := isValidUUID_iff passenger.id
  have hins : ¬ IsPersistedId passenger.id →
      (addPassengerToFlight ctx flightId passenger today resp delErr insErr lr).calls.head? =
        some (Call.passengersInsert
          (passengerInsertPayload flight ctx.targetUserId passenger me today)) := by
    intro hn
    rw [hhead, if_neg (fun h => hn (hiff.1 h))]
  have hupd : IsPersistedId passenger.id →
      (addPassengerToFlight ctx flightId passenger today resp delErr insErr lr).calls.head? =
        some (Call.passengersUpdate passenger.id ctx.targetUserId
          (passengerUpdatePayload passenger me)) := by
    intro hp
    rw [hhead, if_pos (hiff.2 hp)]
  refine ⟨⟨?_, hupd⟩, ⟨?_, hins⟩, ?_⟩
  · intro h
    by_contra hn
    rw [hins hn] at h
    cases h
  · intro h hp
    rw [hupd hp] at h
    cases h
  · intro hcase
    apply hins
    rintro ⟨_, _, _, _, _, _, _, _, _, _, _, h⟩
    rcases hcase with h1 | h1 | ⟨n, h1⟩ <;> rw [h1] at h <;> cases h

/-- The form's `Date.now()` placeholder routes to the insert. -/
theorem addPassengerToFlight_routes_by_id_witness :
    (addPassengerToFlight sampleCtx (JVal.num 2)
        { samplePassengerInput "" "New" with id := JVal.num 1762290000000 } "2026-01-01"
        { data := none, error := some "offline" } none none LogResult.ok).calls.head? =
      some (Call.passengersInsert
        (passengerInsertPayload
          { row := sampleFlightRow 2 "F2" "2026-01-11" "owner1"
            flightNumber := JVal.undefined
            passengers := [samplePassenger "22222222-2222-2222-2222-222222222222" "F2" "owner1"] }
          sampleCtx.targetUserId
          { samplePassengerInput "" "New" with id := JVal.num 1762290000000 }
          "staff1" "2026-01-01")) :=
  (addPassengerToFlight_routes_by_id sampleCtx "staff1" (JVal.num 2) _ "2026-01-01" _ none none
    LogResult.ok _ rfl rfl).2.2 (Or.inr (Or.inr ⟨1762290000000, rfl⟩))

/-! ## Passenger form: auxiliary facts -/

theorem jsNumber_orZero_num (numberStr : String → JNum) (t : Int) :
    jsNumber numberStr (orZero (some (JVal.num t))) = some t := by
  by_cases ht : t = 0
  · subst ht
    rfl
  · simp [orZero, NVal.truthy, JVal.truthy, ht, jsNumber]

theorem pickPrice_eq (airlineConfig : Option AirlineConfig)
    (column : AirlineConfig → Option Int) (p : Int) :
    pickPrice airlineConfig column (some p) = some ((airlineConfig.bind column).getD p) := by
  unfold pickPrice
  cases airlineConfig.bind column <;> rfl

/-! ## Binary64 arithmetic: auxiliary facts -/

theorem log2Floor_le (fuel : Nat) : ∀ n k, n < 2 ^ (k + 1) → Ieee.log2Floor fuel n ≤ k := by
  induction fuel with
  | zero => intro n k _; simp [Ieee.log2Floor]
  | succ fuel ih =>
    intro n k h
    unfold Ieee.log2Floor
    split
    · exact Nat.zero_le _
    · rename_i h2
      cases k with
      | zero => simp at h; omega
      | succ k =>
        have : n / 2 < 2 ^ (k + 1) := by
          rw [Nat.div_lt_iff_lt_mul (by decide)]
          rw [pow_succ] at h
          exact h
        have := ih (n / 2) k this
        omega

theorem log2Floor_two_pow (j : Nat) : ∀ fuel, j ≤ fuel → Ieee.log2Floor fuel (2 ^ j) = j := by
  induction j with
  | zero =>
    intro fuel _
    cases fuel <;> simp [Ieee.log2Floor]
  | succ j ih =>
    intro fuel h
    cases fuel with
    | zero => omega
    | succ fuel =>
      unfold Ieee.log2Floor
      have h2 : ¬ 2 ^ (j + 1) < 2 := by
        have : 1 ≤ 2 ^ j := Nat.one_le_two_pow
        rw [pow_succ]
        omega
      rw [if_neg h2]
      have hdiv : 2 ^ (j + 1) / 2 = 2 ^ j := by
        rw [pow_succ]
        exact Nat.mul_div_cancel _ (by decide)
      rw [hdiv, ih fuel (by omega)]

theorem ilog2_le (n d : Nat) :
    Ieee.ilog2 n d ≤ (Ieee.log2Floor n n : Int) - (Ieee.log2Floor d d : Int) := by
  unfold Ieee.ilog2
  simp only
  split <;> omega

theorem roundDiv_of_dvd (N D : Nat) (hD : 0 < D) (h : D ∣ N) : Ieee.roundDiv N D = N / D := by
  unfold Ieee.roundDiv
  have : N % D = 0 := Nat.mod_eq_zero_of_dvd h
  rw [this]
  simp [hD]

/-- Rounding leaves a value binary64 holds as it is. -/
theorem round64_exact (q : ℚ) (h : Ieee.Exact q) : Ieee.round64 q = Ieee.Dbl.fin q := by
  obtain ⟨j, hj, hden, hnum⟩ := h
  unfold Ieee.round64
  by_cases h0 : q.num = 0
  · rw [if_pos h0]
    have : q = 0 := Rat.zero_of_num_zero h0
    rw [this]
  · rw [if_neg h0]
    have hn1 : 1 ≤ q.num.natAbs := Int.natAbs_pos.2 h0
    have hlog_n : Ieee.log2Floor q.num.natAbs q.num.natAbs ≤ 52 :=
      log2Floor_le _ _ 52 hnum
    have hlog_d : Ieee.log2Floor q.den q.den = j := by
      rw [hden]
      exact log2Floor_two_pow j _ (Nat.le_of_lt (Nat.lt_two_pow j))
    have hil := ilog2_le q.num.natAbs q.den
    rw [hlog_d] at hil
    have he : max (Ieee.ilog2 q.num.natAbs q.den - 52) (-1074) ≤ -(j : Int) := by
      apply max_le <;> omega
    generalize max (Ieee.ilog2 q.num.natAbs q.den - 52) (-1074) = e at he
    obtain ⟨t, ht⟩ : ∃ t : Nat, e = -((j + t : Nat) : Int) := by
      refine ⟨(-e - j).toNat, ?_⟩
      omega
    subst ht
    have het : (-(((j + t : Nat) : Int))).toNat = 0 := by omega
    have hnt : (- -(((j + t : Nat) : Int))).toNat = j + t := by omega
    simp only [het, hnt, pow_zero, mul_one]
    have hdvd : q.den ∣ q.num.natAbs * 2 ^ (j + t) := by
      rw [hden, pow_add]
      exact ⟨q.num.natAbs * 2 ^ t, by ring⟩
    have hq : q.num.natAbs * 2 ^ (j + t) / q.den = q.num.natAbs * 2 ^ t := by
      rw [hden, pow_add]
      rw [show q.num.natAbs * (2 ^ j * 2 ^ t) = 2 ^ j * (q.num.natAbs * 2 ^ t) by ring]
      exact Nat.mul_div_cancel_left _ (Nat.pos_pow_of_pos j (by decide))
    rw [roundDiv_of_dvd _ _ q.den_pos hdvd, hq]
    have hm0 : q.num.natAbs * 2 ^ t ≠ 0 := by
      have : 0 < 2 ^ t := Nat.pos_pow_of_pos t (by decide)
      exact Nat.mul_ne_zero (by omega) (by omega)
    have hno : ¬ ((971 : Int) < -((j + t : Nat) : Int) ∨
        (-((j + t : Nat) : Int) = 971 ∧ 2 ^ 53 ≤ q.num.natAbs * 2 ^ t)) := by omega
    rw [if_neg hno, if_neg hm0]
    congr 1
    have hsgn : (if q.num < 0 then (-1 : Int) else 1) * ((q.num.natAbs * 2 ^ t : Nat) : Int)
        = q.num * ((2 ^ t : Nat) : Int) := by
      rw [Nat.cast_mul]
      split
      · rename_i hneg
        rw [Int.ofNat_natAbs_of_nonpos (le_of_lt hneg)]
        ring
      · rename_i hpos
        rw [Int.natAbs_of_nonneg (not_lt.1 hpos)]
        ring
    have hd : 2 ^ (j + t) = q.den * 2 ^ t := by rw [hden, pow_add]
    rw [hsgn, hd, Rat.mkRat_mul_right (Nat.pos_iff_ne_zero.1 (Nat.pos_pow_of_pos t (by decide))),
      Rat.mkRat_self]

/-- An integer below `2 ^ 53` in size is a value binary64 holds. -/
theorem exact_int (z : Int) (h : z.natAbs < 2 ^ 53) : Ieee.Exact (z : ℚ) :=
  ⟨0, by decide, by simp, by simpa using h⟩

/-- The sum of two finite numbers is their exact sum when binary64 holds it. -/
theorem add_fin_exact (p q : ℚ) (h : Ieee.Exact (p + q)) :
    Ieee.Dbl.add (Ieee.Dbl.fin p) (Ieee.Dbl.fin q) = Ieee.Dbl.fin (p + q) := by
  have : Ieee.Dbl.add (Ieee.Dbl.fin p) (Ieee.Dbl.fin q)
      = Ieee.round64 (mkRat (p.num * q.den + q.num * p.den) (p.den * q.den)) := rfl
  rw [this, ← Rat.add_def', round64_exact _ h]

/-- Adding the product of two finite numbers adds their exact product when binary64
holds the product and the sum. -/
theorem add_mul_fin_exact (a p q : ℚ) (hm : Ieee.Exact (p * q)) (hs : Ieee.Exact (a + p * q)) :
    Ieee.Dbl.add (Ieee.Dbl.fin a) (Ieee.Dbl.mul (Ieee.Dbl.fin p) (Ieee.Dbl.fin q))
      = Ieee.Dbl.fin (a + p * q) := by
  by_cases hz : p.num = 0 ∨ q.num = 0
  · have hpq : p * q = 0 := by
      rcases hz with h | h
      · rw [Rat.zero_of_num_zero h, zero_mul]
      · rw [Rat.zero_of_num_zero h, mul_zero]
    have hmul : Ieee.Dbl.mul (Ieee.Dbl.fin p) (Ieee.Dbl.fin q) = Ieee.Dbl.negZero ∨
        Ieee.Dbl.mul (Ieee.Dbl.fin p) (Ieee.Dbl.fin q) = Ieee.Dbl.fin 0 := by
      unfold Ieee.Dbl.mul
      simp only [Ieee.Dbl.isZero, decide_eq_true_eq, hz, if_true]
      split
      · exact Or.inl rfl
      · exact Or.inr rfl
    rw [hpq, add_zero] at hs ⊢
    rcases hmul with h | h
    · rw [h]
      rfl
    · rw [h]
      have := add_fin_exact a 0 (by rwa [add_zero])
      rwa [add_zero] at this
  · have hmul : Ieee.Dbl.mul (Ieee.Dbl.fin p) (Ieee.Dbl.fin q) = Ieee.Dbl.fin (p * q) := by
      unfold Ieee.Dbl.mul
      simp only [Ieee.Dbl.isZero, decide_eq_true_eq, hz, if_false]
      rw [← Rat.mul_eq_mkRat, round64_exact _ hm]
    rw [hmul]
    exact add_fin_exact _ _ hs

theorem pickPrice_getD (airlineConfig : Option Ieee.AirlineConfig)
    (column : Ieee.AirlineConfig → Option Ieee.Dbl) (p : Ieee.Dbl) :
    Ieee.pickPrice airlineConfig column p = (airlineConfig.bind column).getD p := by
  unfold Ieee.pickPrice
  cases airlineConfig.bind column <;> rfl

theorem toNumber_orZero_fin (numberStr : String → Ieee.Dbl) (t : ℚ) :
    Ieee.toNumber numberStr (Ieee.orZero (Ieee.Val.num (Ieee.Dbl.fin t))) = Ieee.Dbl.fin t := by
  by_cases ht : t.num = 0
  · have : t = 0 := Rat.zero_of_num_zero ht
    subst this
    rfl
  · simp [Ieee.orZero, Ieee.Val.truthy, Ieee.Dbl.isZero, ht, Ieee.toNumber]

/-- With finite prices, tax and surcharge, the total is the exact sum when binary64
holds every partial result. -/
theorem calculateTotal_exact (env : Ieee.Env) (type : JVal) (n : Nat) (b t s r : ℚ)
    (hb : (if type = JVal.str "Child" then
            (env.airlineConfig.bind (fun c => c.childPrice)).getD env.prices.child
          else (env.airlineConfig.bind (fun c => c.adultPrice)).getD env.prices.adult)
        = Ieee.Dbl.fin b)
    (hr : (env.airlineConfig.bind (fun c => c.infantPrice)).getD env.prices.infant
        = Ieee.Dbl.fin r)
    (hn : n < 2 ^ 53) (h1 : Ieee.Exact (b + t)) (h2 : Ieee.Exact (b + t + s))
    (h3 : Ieee.Exact ((n : ℚ) * r)) (h4 : Ieee.Exact (b + t + s + (n : ℚ) * r)) :
    Ieee.calculateTotal env type (Ieee.Val.num (Ieee.Dbl.fin t)) (Ieee.Val.num (Ieee.Dbl.fin s)) n
      = Ieee.Dbl.fin (b + t + s + (n : ℚ) * r) := by
  have hnat : Ieee.Dbl.ofNat n = Ieee.Dbl.fin (n : ℚ) := by
    unfold Ieee.Dbl.ofNat
    exact round64_exact _ (by simpa using exact_int (n : Int) (by simpa using hn))
  unfold Ieee.calculateTotal
  simp only [pickPrice_getD, toNumber_orZero_fin, hnat, hr]
  have hbase : (if type = JVal.str "Child" then
        (env.airlineConfig.bind (fun c => c.childPrice)).getD env.prices.child
      else (env.airlineConfig.bind (fun c => c.adultPrice)).getD env.prices.adult)
      = Ieee.Dbl.fin b := hb
  rw [hbase, add_fin_exact _ _ h1, add_fin_exact _ _ h2, add_mul_fin_exact _ _ _ h3 h4]

/-! ## Passenger form: theorems -/

/-- C15 (price derivation): `calculateTotal(type, tax, surcharge, infantCount)` is
`base + Number(tax || 0) + Number(surcharge || 0) + infantCount * infantRate` in the
arithmetic of the engine, summed from the left with every `+` and `*` rounding to
binary64, where `base` is the child price for `type === 'Child'` and the adult price
otherwise, and each of the adult price, the child price and the infant rate is the
airline's value when the airline supplies one (a supplied `0` included) and the
Settings price otherwise. `Number(x || 0)` is `x` for a number other than `NaN` and
`-0`, the numeric value of a string (`0` for the empty one), `1` for `true`, and `0`
for `undefined`, `null`, `false`, `NaN` and `-0`. With finite prices, tax and
surcharge the total is the exact sum whenever binary64 holds each partial result, as
it does for whole amounts below `2 ^ 53`: for an adult at base 130, tax 10, surcharge
10 and 2 infants at rate 20 it is 190, with an airline that supplies adult price 0 and
infant rate 0 it is 20, and with tax `'12.5'` and no infant it is 152.5. Where a
partial result is not held, it is rounded: with tax `'0.1'` and surcharge `'0.2'` the
total is 4584523683174809 / 2 ^ 45, which is the sum the engine gives and not the
double nearest to 130.3. -/
theorem calculateTotal_binary64 (env : Ieee.Env) (type : JVal) (tax surcharge : Ieee.Val)
    (n : Nat) :
    Ieee.calculateTotal env type tax surcharge n =
      Ieee.Dbl.add
        (Ieee.Dbl.add
          (Ieee.Dbl.add
            (if type = JVal.str "Child" then
              (env.airlineConfig.bind (fun c => c.childPrice)).getD env.prices.child
            else (env.airlineConfig.bind (fun c => c.adultPrice)).getD env.prices.adult)
            (Ieee.toNumber env.numberStr (Ieee.orZero tax)))
          (Ieee.toNumber env.numberStr (Ieee.orZero surcharge)))
        (Ieee.Dbl.mul (Ieee.Dbl.ofNat n)
          ((env.airlineConfig.bind (fun c => c.infantPrice)).getD env.prices.infant)) ∧
    (∀ d : Ieee.Dbl, d ≠ Ieee.Dbl.nan → d ≠ Ieee.Dbl.negZero →
      Ieee.toNumber env.numberStr (Ieee.orZero (Ieee.Val.num d)) = d) ∧
    (∀ s : String, Ieee.toNumber env.numberStr (Ieee.orZero (Ieee.Val.str s))
      = if s = "" then Ieee.Dbl.fin 0 else env.numberStr s) ∧
    Ieee.toNumber env.numberStr (Ieee.orZero (Ieee.Val.bool true)) = Ieee.Dbl.fin 1 ∧
    (∀ v ∈ [Ieee.Val.undefined, Ieee.Val.null, Ieee.Val.bool false, Ieee.Val.num Ieee.Dbl.nan,
        Ieee.Val.num Ieee.Dbl.negZero],
      Ieee.toNumber env.numberStr (Ieee.orZero v) = Ieee.Dbl.fin 0) ∧
    (∀ b t s r : ℚ,
      (if type = JVal.str "Child" then
          (env.airlineConfig.bind (fun c => c.childPrice)).getD env.prices.child
        else (env.airlineConfig.bind (fun c => c.adultPrice)).getD env.prices.adult)
        = Ieee.Dbl.fin b →
      (env.airlineConfig.bind (fun c => c.infantPrice)).getD env.prices.infant = Ieee.Dbl.fin r →
      tax = Ieee.Val.num (Ieee.Dbl.fin t) → surcharge = Ieee.Val.num (Ieee.Dbl.fin s) →
      n < 2 ^ 53 → Ieee.Exact (b + t) → Ieee.Exact (b + t + s) → Ieee.Exact ((n : ℚ) * r) →
      Ieee.Exact (b + t + s + (n : ℚ) * r) →
      Ieee.calculateTotal env type tax surcharge n = Ieee.Dbl.fin (b + t + s + (n : ℚ) * r)) ∧
    (∀ b t s r : Int,
      (if type = JVal.str "Child" then
          (env.airlineConfig.bind (fun c => c.childPrice)).getD env.prices.child
        else (env.airlineConfig.bind (fun c => c.adultPrice)).getD env.prices.adult)
        = Ieee.Dbl.fin (b : ℚ) →
      (env.airlineConfig.bind (fun c => c.infantPrice)).getD env.prices.infant
        = Ieee.Dbl.fin (r : ℚ) →
      tax = Ieee.Val.num (Ieee.Dbl.fin (t : ℚ)) → surcharge = Ieee.Val.num (Ieee.Dbl.fin (s : ℚ)) →
      n < 2 ^ 53 → (b + t).natAbs < 2 ^ 53 → (b + t + s).natAbs < 2 ^ 53 →
      ((n : Int) * r).natAbs < 2 ^ 53 → (b + t + s + (n : Int) * r).natAbs < 2 ^ 53 →
      Ieee.calculateTotal env type tax surcharge n
        = Ieee.Dbl.fin ((b + t + s + (n : Int) * r : Int) : ℚ)) ∧
    Ieee.calculateTotal Ieee.sampleEnv (JVal.str "Adult") (Ieee.Val.num (Ieee.Dbl.fin 10))
      (Ieee.Val.num (Ieee.Dbl.fin 10)) 2 = Ieee.Dbl.fin 190 ∧
    Ieee.calculateTotal
      { Ieee.sampleEnv with
        airlineConfig := some
          { adultPrice := some (Ieee.Dbl.fin 0), childPrice := none
            infantPrice := some (Ieee.Dbl.fin 0) } }
      (JVal.str "Adult") (Ieee.Val.num (Ieee.Dbl.fin 10)) (Ieee.Val.num (Ieee.Dbl.fin 10)) 2
      = Ieee.Dbl.fin 20 ∧
    Ieee.calculateTotal Ieee.sampleEnv (JVal.str "Adult") (Ieee.Val.str "12.5")
      (Ieee.Val.num (Ieee.Dbl.fin 10)) 0 = Ieee.Dbl.fin (mkRat 305 2) ∧
    Ieee.calculateTotal Ieee.sampleEnv (JVal.str "Adult") (Ieee.Val.str "0.1")
      (Ieee.Val.str "0.2") 0 = Ieee.Dbl.fin (mkRat 4584523683174809 35184372088832) ∧
    Ieee.round64 (mkRat 1303 10) = Ieee.Dbl.fin (mkRat 2292261841587405 17592186044416) := by
  refine ⟨?_, ?_, ?_, rfl, ?_, ?_, ?_, by decide, by decide, by decide, by decide, by decide⟩
  · unfold Ieee.calculateTotal
    simp only [pickPrice_getD]
  · intro d hd hz
    cases d with
    | nan => exact absurd rfl hd
    | negZero => exact absurd rfl hz
    | inf negative => rfl
    | fin q => exact toNumber_orZero_fin _ q
  · intro s
    by_cases hs : s = ""
    · subst hs
      rfl
    · simp [Ieee.orZero, Ieee.Val.truthy, hs, Ieee.toNumber]
  · intro v hv
    simp only [List.mem_cons, List.mem_singleton, List.mem_nil_iff, or_false] at hv
    rcases hv with h | h | h | h | h <;> subst h <;> rfl
  · intro b t s r hb hr ht hs hn h1 h2 h3 h4
    subst ht hs
    exact calculateTotal_exact env type n b t s r hb hr hn h1 h2 h3 h4
  · intro b t s r hb hr ht hs hn h1 h2 h3 h4
    subst ht hs
    have e1 : Ieee.Exact ((b : ℚ) + (t : ℚ)) := by
      simpa using exact_int (b + t) h1
    have e2 : Ieee.Exact ((b : ℚ) + (t : ℚ) + (s : ℚ)) := by
      simpa using exact_int (b + t + s) h2
    have e3 : Ieee.Exact ((n : ℚ) * (r : ℚ)) := by
      simpa using exact_int ((n : Int) * r) h3
    have e4 : Ieee.Exact ((b : ℚ) + (t : ℚ) + (s : ℚ) + (n : ℚ) * (r : ℚ)) := by
      simpa using exact_int (b + t + s + (n : Int) * r) h4
    rw [calculateTotal_exact env type n b t s r hb hr hn e1 e2 e3 e4]
    push_cast
    rfl

/-- A child on an airline that supplies a child price of 0 and no infant rate, at tax
7 and surcharge 3 with one infant at the Settings rate 20: the total is 30. -/
theorem calculateTotal_binary64_witness :
    Ieee.calculateTotal
      { Ieee.sampleEnv with
        airlineConfig := some
          { adultPrice := some (Ieee.Dbl.fin 100), childPrice := some (Ieee.Dbl.fin 0)
            infantPrice := none } }
      (JVal.str "Child") (Ieee.Val.num (Ieee.Dbl.fin ((7 : Int) : ℚ)))
      (Ieee.Val.num (Ieee.Dbl.fin ((3 : Int) : ℚ))) 1
      = Ieee.Dbl.fin (((0 + 7 + 3 + ((1 : Nat) : Int) * 20 : Int)) : ℚ) :=
  (calculateTotal_binary64 _ (JVal.str "Child") _ _ 1).2.2.2.2.2.2.1 0 7 3 20
    (by decide) (by decide) rfl rfl (by decide) (by decide) (by decide) (by decide) (by decide)

/-- Over whole amounts, where no sum rounds: with numeric Settings prices and numeric tax and
surcharge, `calculateTotal(type, tax, surcharge, infantCount)` is
`base + tax + surcharge + infantCount * infantRate`, where `base` is the child price
for `type === 'Child'` and the adult price otherwise, and each of the adult price,
the child price and the infant rate is the airline's value when the airline supplies
one (a supplied `0` included) and the Settings price otherwise; for an adult at base
130, tax 10, surcharge 10 and 2 infants at rate 20 the total is 190. -/
theorem calculateTotal_formula (env : FormEnv) (type : JVal) (t s : Int) (n : Nat)
    (pa pc pi : Int) (ha : env.prices.adult = some pa) (hc : env.prices.child = some pc)
    (hi : env.prices.infant = some pi) :
    calculateTotal env type (some (JVal.num t)) (some (JVal.num s)) n =
      some ((if type = JVal.str "Child" then
              (env.airlineConfig.bind (fun c => c.childPrice)).getD pc
            else (env.airlineConfig.bind (fun c => c.adultPrice)).getD pa)
        + t + s + (n : Int) * (env.airlineConfig.bind (fun c => c.infantPrice)).getD pi) ∧
    calculateTotal sampleFormEnv (JVal.str "Adult") (some (JVal.num 10)) (some (JVal.num 10)) 2
      = some 190 ∧
    calculateTotal
        { sampleFormEnv with
          airlineConfig := some
            { adultPrice := some 0, childPrice := none, infantPrice := some 0, tax := none
              surcharge := none, defaultBookingReference := JVal.undefined } }
        (JVal.str "Adult") (some (JVal.num 10)) (some (JVal.num 10)) 2 = some 20 := by
  refine ⟨?_, by decide, by decide⟩
  unfold calculateTotal
  simp only [ha, hc, hi, pickPrice_eq, jsNumber_orZero_num]
  by_cases hty : type = JVal.str "Child"
  · simp [hty, JNum.add, JNum.mul]
  · simp [hty, JNum.add, JNum.mul]

/-- A child on an airline that supplies a child price of 0 and no infant rate. -/
theorem calculateTotal_formula_witness :
    calculateTotal
        { sampleFormEnv with
          airlineConfig := some
            { adultPrice := some 100, childPrice := some 0, infantPrice := none, tax := none
              surcharge := none, defaultBookingReference := JVal.undefined } }
        (JVal.str "Child") (some (JVal.num 7)) (some (JVal.num 3)) 0 =
      some ((if JVal.str "Child" = JVal.str "Child" then
              ((some ({ adultPrice := some 100, childPrice := some 0, infantPrice := none
                        tax := none, surcharge := none
                        defaultBookingReference := JVal.undefined } : AirlineConfig)).bind
                (fun c => c.childPrice)).getD 90
            else
              ((some ({ adultPrice := some 100, childPrice := some 0, infantPrice := none
                        tax := none, surcharge := none
                        defaultBookingReference := JVal.undefined } : AirlineConfig)).bind
                (fun c => c.adultPrice)).getD 130)
        + 7 + 3 + ((0 : Nat) : Int) *
          ((some ({ adultPrice := some 100, childPrice := some 0, infantPrice := none
                    tax := none, surcharge := none
                    defaultBookingReference := JVal.undefined } : AirlineConfig)).bind
            (fun c => c.infantPrice)).getD 20) :=
  (calculateTotal_formula _ (JVal.str "Child") 7 3 0 130 90 20 rfl rfl rfl).1

/-- C16 (switching to child): from every form state, the change of the passenger
type to `Child` through `handleChange` gives `type = Child`, `hasInfants = false`, an
empty infant list and a `totalPrice` computed by `calculateTotal` with infant count
0, which is the child base price plus tax plus surcharge whenever the infant rate is
a number. -/
theorem handleChange_type_child (env : FormEnv) (prev : PassengerFormState) (checked : Bool) :
    (handleChange env prev FormField.type "Child" checked).type = JVal.str "Child" ∧
    (handleChange env prev FormField.type "Child" checked).hasInfants = JVal.bool false ∧
    (handleChange env prev FormField.type "Child" checked).infants = [] ∧
    (handleChange env prev FormField.type "Child" checked).totalPrice =
      ofJNum (calculateTotal env (JVal.str "Child") prev.tax prev.surcharge 0) ∧
    (∀ rate : Int,
      pickPrice env.airlineConfig (fun c => c.infantPrice) env.prices.infant = some rate →
      calculateTotal env (JVal.str "Child") prev.tax prev.surcharge 0 =
        JNum.add
          (JNum.add (pickPrice env.airlineConfig (fun c => c.childPrice) env.prices.child)
            (jsNumber env.numberStr (orZero prev.tax)))
          (jsNumber env.numberStr (orZero prev.surcharge))) := by
  refine ⟨?_, ?_, ?_, ?_, ?_⟩
  · simp [handleChange, setField, FormField.attrName, FormField.inputType]
  · simp [handleChange, setField, FormField.attrName, FormField.inputType]
  · simp [handleChange, setField, FormField.attrName, FormField.inputType]
  · simp [handleChange, setField, FormField.attrName, FormField.inputType]
  · intro rate hrate
    unfold calculateTotal
    simp only [hrate, if_true]
    cases hsum : JNum.add
        (JNum.add (pickPrice env.airlineConfig (fun c => c.childPrice) env.prices.child)
          (jsNumber env.numberStr (orZero prev.tax)))
        (jsNumber env.numberStr (orZero prev.surcharge)) with
    | none => rfl
    | some v => simp [JNum.add, JNum.mul]

/-- An adult with two infants switched to child on the default prices. -/
theorem handleChange_type_child_witness :
    calculateTotal sampleFormEnv (JVal.str "Child")
        ({ resetForm sampleFormEnv sampleFormProps with
           hasInfants := JVal.bool true, infants := ["A", "B"] } : PassengerFormState).tax
        ({ resetForm sampleFormEnv sampleFormProps with
           hasInfants := JVal.bool true, infants := ["A", "B"] } : PassengerFormState).surcharge 0 =
      JNum.add
        (JNum.add
          (pickPrice sampleFormEnv.airlineConfig (fun c => c.childPrice)
            sampleFormEnv.prices.child)
          (jsNumber sampleFormEnv.numberStr
            (orZero ({ resetForm sampleFormEnv sampleFormProps with
              hasInfants := JVal.bool true, infants := ["A", "B"] } : PassengerFormState).tax)))
        (jsNumber sampleFormEnv.numberStr
          (orZero ({ resetForm sampleFormEnv sampleFormProps with
            hasInfants := JVal.bool true, infants := ["A", "B"] } : PassengerFormState).surcharge)) :=
  (handleChange_type_child sampleFormEnv
    { resetForm sampleFormEnv sampleFormProps with
      hasInfants := JVal.bool true, infants := ["A", "B"] } false).2.2.2.2 20 rfl

/-! ## Passenger form invariant: auxiliary facts -/

/-- A change of a control other than the type select keeps the type. -/
theorem handleChange_type_of_ne (env : FormEnv) (prev : PassengerFormState) (field : FormField)
    (value : String) (checked : Bool) (hf : field ≠ FormField.type) :
    (handleChange env prev field value checked).type = prev.type := by
  cases field <;>
    first
    | exact absurd rfl hf
    | (simp only [handleChange, setField, FormField.attrName, FormField.inputType]
       simp
       try (split <;> try split) <;> rfl)

/-- A change of a control other than the type select and the infants checkbox keeps
the infant list. -/
theorem handleChange_infants_of_ne (env : FormEnv) (prev : PassengerFormState)
    (field : FormField) (value : String) (checked : Bool) (hf : field ≠ FormField.type)
    (hh : field ≠ FormField.hasInfants) :
    (handleChange env prev field value checked).infants = prev.infants := by
  cases field <;>
    first
    | exact absurd rfl hf
    | exact absurd rfl hh
    | simp [handleChange, setField, FormField.attrName, FormField.inputType]

theorem handleChange_type_select (env : FormEnv) (prev : PassengerFormState)
    (value : String) (checked : Bool) :
    (handleChange env prev FormField.type value checked).type = JVal.str value ∧
    (value = "Child" → (handleChange env prev FormField.type value checked).infants = []) := by
  constructor
  · simp only [handleChange, setField, FormField.attrName, FormField.inputType]
    simp
    split <;> rfl
  · intro hv
    subst hv
    simp [handleChange, setField, FormField.attrName, FormField.inputType]

theorem adult_ne_child : JVal.str "Adult" ≠ JVal.str "Child" := by decide

/-- One offered interaction keeps the invariant. -/
theorem dispatch_preserves (env : FormEnv) (s s1 : PassengerFormState) (e : FormEvent)
    (hinv : ChildHasNoInfants s) (hstep : dispatch env s e = some s1) :
    ChildHasNoInfants s1 := by
  unfold dispatch at hstep
  by_cases hoff : offers s e = true
  · simp only [hoff, if_true] at hstep
    cases e with
    | change field value checked =>
      simp only [Option.some.injEq] at hstep
      subst hstep
      by_cases hf : field = FormField.type
      · subst hf
        intro hty
        have h := handleChange_type_select env s value checked
        rw [h.1] at hty
        have hv : value = "Child" := by
          injection hty
        exact h.2 hv
      · by_cases hh : field = FormField.hasInfants
        · subst hh
          have hadult : s.type = JVal.str "Adult" := by
            simpa [offers] using hoff
          intro hty
          rw [handleChange_type_of_ne env s _ value checked hf, hadult] at hty
          exact absurd hty adult_ne_child
        · intro hty
          rw [handleChange_type_of_ne env s _ value checked hf] at hty
          rw [handleChange_infants_of_ne env s _ value checked hf hh]
          exact hinv hty
    | addInfant =>
      simp only [Option.some.injEq] at hstep
      subst hstep
      have hadult : s.type = JVal.str "Adult" := by
        simp only [offers, Bool.and_eq_true, decide_eq_true_eq] at hoff
        exact hoff.1.1
      intro hty
      have hsame : (addInfant env s).type = s.type := by
        unfold addInfant
        split <;> rfl
      rw [hsame, hadult] at hty
      exact absurd hty adult_ne_child
    | removeInfant index =>
      simp only [Option.some.injEq] at hstep
      subst hstep
      have hadult : s.type = JVal.str "Adult" := by
        simp only [offers, Bool.and_eq_true, decide_eq_true_eq] at hoff
        exact hoff.1.1
      intro hty
      have hsame : (removeInfant env s index).type = s.type := rfl
      rw [hsame, hadult] at hty
      exact absurd hty adult_ne_child
    | infantChange index value =>
      have hadult : s.type = JVal.str "Adult" := by
        simp only [offers, Bool.and_eq_true, decide_eq_true_eq] at hoff
        exact hoff.1.1
      have hstep2 : handleInfantChange s index value = some s1 := hstep
      unfold handleInfantChange at hstep2
      split at hstep2
      · simp only [Option.some.injEq] at hstep2
        subst hstep2
        intro hty
        have hty2 : s.type = JVal.str "Child" := hty
        rw [hadult] at hty2
        exact absurd hty2 adult_ne_child
      · cases hstep2
  · simp [hoff] at hstep

/-! ## Passenger form invariant: theorems -/

/-- C17 (child has no infants, counterexample): switching the reset form to `Child`
gives a state with type `Child` and no infants. On that state `addInfant()` and
`handleChange` for the `hasInfants` checkbox being ticked each leave type `Child` with
the infant list `['']`, so neither handler preserves the invariant; the form does not
offer either control in that state. -/
theorem child_state_handlers_add_infant :
    (handleChange sampleFormEnv (resetForm sampleFormEnv sampleFormProps) FormField.type
        "Child" false).type = JVal.str "Child" ∧
    (handleChange sampleFormEnv (resetForm sampleFormEnv sampleFormProps) FormField.type
        "Child" false).infants = [] ∧
    (addInfant sampleFormEnv
        (handleChange sampleFormEnv (resetForm sampleFormEnv sampleFormProps) FormField.type
          "Child" false)).type = JVal.str "Child" ∧
    (addInfant sampleFormEnv
        (handleChange sampleFormEnv (resetForm sampleFormEnv sampleFormProps) FormField.type
          "Child" false)).infants = [""] ∧
    ¬ ChildHasNoInfants
      (addInfant sampleFormEnv
        (handleChange sampleFormEnv (resetForm sampleFormEnv sampleFormProps) FormField.type
          "Child" false)) ∧
    (handleChange sampleFormEnv
        (handleChange sampleFormEnv (resetForm sampleFormEnv sampleFormProps) FormField.type
          "Child" false) FormField.hasInfants "" true).type = JVal.str "Child" ∧
    (handleChange sampleFormEnv
        (handleChange sampleFormEnv (resetForm sampleFormEnv sampleFormProps) FormField.type
          "Child" false) FormField.hasInfants "" true).infants = [""] ∧
    ¬ ChildHasNoInfants
      (handleChange sampleFormEnv
        (handleChange sampleFormEnv (resetForm sampleFormEnv sampleFormProps) FormField.type
          "Child" false) FormField.hasInfants "" true) ∧
    offers
      (handleChange sampleFormEnv (resetForm sampleFormEnv sampleFormProps) FormField.type
        "Child" false) FormEvent.addInfant = false ∧
    offers
      (handleChange sampleFormEnv (resetForm sampleFormEnv sampleFormProps) FormField.type
        "Child" false) (FormEvent.change FormField.hasInfants "" true) = false := by
  refine ⟨by decide, by decide, by decide, by decide, ?_, by decide, by decide, ?_, by decide,
    by decide⟩
  · intro h
    exact absurd (h (by decide)) (by decide)
  · intro h
    exact absurd (h (by decide)) (by decide)

/-- C17 (child has no infants, amended): the invariant `type = Child` implies an empty
infant list holds in the reset state. From any state that satisfies it, it is kept by
`handleChange` on every control other than the `hasInfants` checkbox, by
`removeInfant` and by `handleInfantChange` on the index of a rendered input; it is
kept by `addInfant` and by `handleChange` on the `hasInfants` checkbox when the type
is not `Child`. The form offers the infant controls only for type `Adult`, so every
interaction the form offers keeps it, and it holds along every sequence of offered
interactions from the reset state and from any other starting state that satisfies
it, such as the passenger loaded for editing. -/
theorem childHasNoInfants_invariant (env : FormEnv) (props : FormProps) :
    ChildHasNoInfants (resetForm env props) ∧
    (∀ s field value checked, field ≠ FormField.hasInfants → ChildHasNoInfants s →
      ChildHasNoInfants (handleChange env s field value checked)) ∧
    (∀ s index, ChildHasNoInfants s → ChildHasNoInfants (removeInfant env s index)) ∧
    (∀ s index value s1, ChildHasNoInfants s → handleInfantChange s index value = some s1 →
      ChildHasNoInfants s1) ∧
    (∀ s, s.type ≠ JVal.str "Child" → ChildHasNoInfants (addInfant env s)) ∧
    (∀ s value checked, s.type ≠ JVal.str "Child" →
      ChildHasNoInfants (handleChange env s FormField.hasInfants value checked)) ∧
    (∀ s e, offers s e = true →
      (e = FormEvent.addInfant ∨ (∃ value checked, e = FormEvent.change FormField.hasInfants
        value checked)) → s.type = JVal.str "Adult") ∧
    (∀ s s1 e, ChildHasNoInfants s → dispatch env s e = some s1 → ChildHasNoInfants s1) ∧
    (∀ s0 events s1, ChildHasNoInfants s0 → runForm env s0 events = some s1 →
      ChildHasNoInfants s1) ∧
    (∀ events s1, runForm env (resetForm env props) events = some s1 →
      ChildHasNoInfants s1) := by
  have hreset : ChildHasNoInfants (resetForm env props) := fun _ => rfl
  have hstep : ∀ s s1 e, ChildHasNoInfants s → dispatch env s e = some s1 →
      ChildHasNoInfants s1 := fun s s1 e h1 h2 => dispatch_preserves env s s1 e h1 h2
  have hrun : ∀ events s s1, ChildHasNoInfants s → runForm env s events = some s1 →
      ChildHasNoInfants s1 := by
    intro events
    induction events with
    | nil =>
      intro s s1 hs h
      simp only [runForm, Option.some.injEq] at h
      exact h ▸ hs
    | cons e rest ih =>
      intro s s1 hs h
      unfold runForm at h
      cases hd : dispatch env s e with
      | none => simp [hd] at h
      | some s2 =>
        simp only [hd] at h
        exact ih s2 s1 (hstep s s2 e hs hd) h
  refine ⟨hreset, ?_, ?_, ?_, ?_, ?_, ?_, hstep, ?_, ?_⟩
  · intro s field value checked hh hinv
    by_cases hf : field = FormField.type
    · subst hf
      intro hty
      have h := handleChange_type_select env s value checked
      rw [h.1] at hty
      have hv : value = "Child" := by
        injection hty
      exact h.2 hv
    · intro hty
      rw [handleChange_type_of_ne env s _ value checked hf] at hty
      rw [handleChange_infants_of_ne env s _ value checked hf hh]
      exact hinv hty
  · intro s index hinv hty
    have hty2 : s.type = JVal.str "Child" := hty
    have hemp : s.infants = [] := hinv hty2
    show dropIndex s.infants index = []
    rw [hemp]
    rfl
  · intro s index value s1 hinv hstep2
    unfold handleInfantChange at hstep2
    split at hstep2
    · rename_i hlt
      simp only [Option.some.injEq] at hstep2
      subst hstep2
      intro hty
      have hty2 : s.type = JVal.str "Child" := hty
      have hemp : s.infants = [] := hinv hty2
      rw [hemp] at hlt
      exact absurd hlt (by simp)
    · cases hstep2
  · intro s hne hty
    have hsame : (addInfant env s).type = s.type := by
      unfold addInfant
      split <;> rfl
    rw [hsame] at hty
    exact absurd hty hne
  · intro s value checked hne hty
    rw [handleChange_type_of_ne env s _ value checked (by decide)] at hty
    exact absurd hty hne
  · intro s e hoff hcase
    rcases hcase with rfl | ⟨value, checked, rfl⟩
    · simp only [offers, Bool.and_eq_true, decide_eq_true_eq] at hoff
      exact hoff.1.1
    · simpa [offers] using hoff
  · intro s0 events s1 hs0 h
    exact hrun events s0 s1 hs0 h
  · intro events s1 h
    exact hrun events _ s1 hreset h

/-- An adult gets two infants, loses one, is switched to child: the list is empty;
the same holds from an edited adult that already carries an infant. -/
theorem childHasNoInfants_invariant_witness :
    runForm sampleFormEnv (resetForm sampleFormEnv sampleFormProps)
        [FormEvent.change FormField.hasInfants "" true, FormEvent.addInfant,
          FormEvent.infantChange 1 "Baby", FormEvent.removeInfant 0,
          FormEvent.change FormField.type "Child" false] ≠ none ∧
    (∀ s1, runForm sampleFormEnv (resetForm sampleFormEnv sampleFormProps)
        [FormEvent.change FormField.hasInfants "" true, FormEvent.addInfant,
          FormEvent.infantChange 1 "Baby", FormEvent.removeInfant 0,
          FormEvent.change FormField.type "Child" false] = some s1 →
      ChildHasNoInfants s1) ∧
    (∀ s1, runForm sampleFormEnv
        { resetForm sampleFormEnv sampleFormProps with
          hasInfants := JVal.bool true, infants := ["Ann"] }
        [FormEvent.addInfant, FormEvent.change FormField.type "Child" false] = some s1 →
      ChildHasNoInfants s1) :=
  ⟨by decide,
    fun s1 h => (childHasNoInfants_invariant sampleFormEnv sampleFormProps).2.2.2.2.2.2.2.2.2 _ s1 h,
    fun s1 h =>
      (childHasNoInfants_invariant sampleFormEnv sampleFormProps).2.2.2.2.2.2.2.2.1 _ _ s1
        (fun hty => absurd hty (by decide)) h⟩

/-! ## Sort: auxiliary facts -/

theorem dateOrder_total (toTime : JVal → Option Int) (a b : Flight) :
    dateOrder toTime a b ∨ dateOrder toTime b a := by
  unfold dateOrder dateCompare
  cases ha : toTime a.row.date <;> cases hb : toTime b.row.date <;> simp
  omega

/-- The comparator is not positive exactly when the first date is not before the
second. -/
theorem dateOrder_iff (toTime : JVal → Option Int) (a b : Flight) :
    dateOrder toTime a b ↔
      ¬ ∃ ta tb, toTime a.row.date = some ta ∧ toTime b.row.date = some tb ∧ ta < tb := by
  unfold dateOrder dateCompare
  cases ha : toTime a.row.date <;> cases hb : toTime b.row.date <;> simp

theorem head_orderedInsert (toTime : JVal → Option Int) (a : Flight) (l : List Flight) :
    ∀ y ∈ (List.orderedInsert (dateOrder toTime) a l).head?, y = a ∨ y ∈ l.head? := by
  intro y hy
  cases l with
  | nil =>
    left
    simpa using hy.symm
  | cons b rest =>
    rw [List.orderedInsert] at hy
    split at hy
    · left
      simpa using hy.symm
    · right
      simpa using hy

theorem orderedInsert_chain (toTime : JVal → Option Int) (a : Flight) (l : List Flight)
    (h : l.Chain' (dateOrder toTime)) :
    (List.orderedInsert (dateOrder toTime) a l).Chain' (dateOrder toTime) := by
  induction l with
  | nil => simp [List.orderedInsert]
  | cons b rest ih =>
    rw [List.orderedInsert]
    split
    · rename_i hab
      exact List.Chain'.cons' h (by
        intro y hy
        have : y = b := by simpa using hy.symm
        rw [this]
        exact hab)
    · rename_i hab
      have hrest := (List.chain'_cons'.1 h)
      refine List.Chain'.cons' (ih hrest.2) ?_
      intro y hy
      rcases head_orderedInsert toTime a rest y hy with rfl | hmem
      · rcases dateOrder_total toTime y b with h1 | h1
        · exact absurd h1 hab
        · exact h1
      · exact hrest.1 y hmem

theorem sortFlights_chain (toTime : JVal → Option Int) (l : List Flight) :
    (sortFlights toTime l).Chain' (dateOrder toTime) := by
  unfold sortFlights
  induction l with
  | nil => simp
  | cons a rest ih =>
    rw [List.insertionSort]
    exact orderedInsert_chain toTime a _ ih

/-- On flights whose dates are all valid, the adjacent order is a global order. -/
theorem chain_valid_pairwise (toTime : JVal → Option Int) (l : List Flight)
    (hchain : l.Chain' (dateOrder toTime))
    (hvalid : ∀ f ∈ l, (toTime f.row.date).isSome = true) :
    l.Pairwise (fun a b => ∃ ta tb, toTime a.row.date = some ta ∧
      toTime b.row.date = some tb ∧ tb ≤ ta) := by
  have hkey : l.Chain' (fun a b : Flight =>
      (toTime b.row.date).getD 0 ≤ (toTime a.row.date).getD 0) := by
    refine (List.Chain'.iff_mem.1 hchain).imp ?_
    rintro a b ⟨ha, hb, hab⟩
    obtain ⟨ta, hta⟩ := Option.isSome_iff_exists.1 (hvalid a ha)
    obtain ⟨tb, htb⟩ := Option.isSome_iff_exists.1 (hvalid b hb)
    unfold dateOrder dateCompare at hab
    simp only [hta, htb] at hab
    simp only [hta, htb, Option.getD_some]
    omega
  haveI : IsTrans Flight (fun a b : Flight =>
      (toTime b.row.date).getD 0 ≤ (toTime a.row.date).getD 0) :=
    ⟨fun a b c hab hbc => le_trans hbc hab⟩
  have hpw := List.chain'_iff_pairwise.1 hkey
  refine hpw.imp_of_mem ?_
  intro a b ha hb hab
  obtain ⟨ta, hta⟩ := Option.isSome_iff_exists.1 (hvalid a ha)
  obtain ⟨tb, htb⟩ := Option.isSome_iff_exists.1 (hvalid b hb)
  refine ⟨ta, tb, hta, htb, ?_⟩
  simpa [hta, htb] using hab

/-- Inserting a flight into a list leaves, for every time, the flights of that time in
the order in which they stood with the new flight in front: the sort is stable. -/
theorem filter_time_orderedInsert (toTime : JVal → Option Int) (t : Int) (a : Flight)
    (l : List Flight) :
    (List.orderedInsert (dateOrder toTime) a l).filter
        (fun f => decide (toTime f.row.date = some t)) =
      (a :: l).filter (fun f => decide (toTime f.row.date = some t)) := by
  induction l with
  | nil => rfl
  | cons b rest ih =>
    rw [List.orderedInsert]
    split
    · rfl
    · rename_i hab
      have hlt : ∃ ta tb, toTime a.row.date = some ta ∧ toTime b.row.date = some tb ∧ ta < tb := by
        by_contra hno
        exact hab ((dateOrder_iff toTime a b).2 hno)
      obtain ⟨ta, tb, hta, htb, hlt⟩ := hlt
      rw [List.filter_cons, ih]
      by_cases hat : ta = t
      · have hbt : tb ≠ t := by omega
        simp [hta, htb, hat, hbt, List.filter_cons]
      · simp [hta, htb, hat, List.filter_cons]

theorem filter_time_sortFlights (toTime : JVal → Option Int) (t : Int) (l : List Flight) :
    (sortFlights toTime l).filter (fun f => decide (toTime f.row.date = some t)) =
      l.filter (fun f => decide (toTime f.row.date = some t)) := by
  unfold sortFlights
  induction l with
  | nil => rfl
  | cons a rest ih =>
    rw [List.insertionSort, filter_time_orderedInsert, List.filter_cons, List.filter_cons, ih]

/-- Two lists of flights with valid dates that are both in date order and hold, for
every time, the same flights of that time in the same order, are equal. -/
theorem ordered_stable_unique (toTime : JVal → Option Int) :
    ∀ (o1 o2 : List Flight),
      (∀ f ∈ o1, (toTime f.row.date).isSome = true) →
      (∀ f ∈ o2, (toTime f.row.date).isSome = true) →
      o1.Pairwise (fun a b => ∃ ta tb, toTime a.row.date = some ta ∧
        toTime b.row.date = some tb ∧ tb ≤ ta) →
      o2.Pairwise (fun a b => ∃ ta tb, toTime a.row.date = some ta ∧
        toTime b.row.date = some tb ∧ tb ≤ ta) →
      (∀ t, o1.filter (fun f => decide (toTime f.row.date = some t)) =
        o2.filter (fun f => decide (toTime f.row.date = some t))) →
      o1 = o2 := by
  intro o1
  induction o1 with
  | nil =>
    intro o2 _ hv2 _ _ hf
    cases o2 with
    | nil => rfl
    | cons y r2 =>
      obtain ⟨u, hu⟩ := Option.isSome_iff_exists.1 (hv2 y (List.mem_cons_self _ _))
      have := hf u
      simp [hu] at this
  | cons x r1 ih =>
    intro o2 hv1 hv2 hp1 hp2 hf
    obtain ⟨t, ht⟩ := Option.isSome_iff_exists.1 (hv1 x (List.mem_cons_self _ _))
    have hft := hf t
    rw [List.filter_cons_of_pos (by simp [ht])] at hft
    cases o2 with
    | nil => simp at hft
    | cons y r2 =>
      obtain ⟨u, hu⟩ := Option.isSome_iff_exists.1 (hv2 y (List.mem_cons_self _ _))
      have hx2 : x ∈ y :: r2 := by
        have : x ∈ (y :: r2).filter (fun f => decide (toTime f.row.date = some t)) := by
          rw [← hft]
          exact List.mem_cons_self _ _
        exact (List.mem_filter.1 this).1
      have hy1 : y ∈ x :: r1 := by
        have hmem : y ∈ (y :: r2).filter (fun f => decide (toTime f.row.date = some u)) :=
          List.mem_filter.2 ⟨List.mem_cons_self _ _, by simp [hu]⟩
        rw [← hf u] at hmem
        exact (List.mem_filter.1 hmem).1
      have htu : t = u := by
        rcases List.mem_cons.1 hx2 with hxy | hxr
        · rw [hxy, hu] at ht
          exact (Option.some.inj ht).symm
        · rcases List.mem_cons.1 hy1 with hyx | hyr
          · rw [hyx, ht] at hu
            exact Option.some.inj hu
          · obtain ⟨ta, tb, h1, h2, hle1⟩ := (List.pairwise_cons.1 hp2).1 x hxr
            obtain ⟨tc, td, h3, h4, hle2⟩ := (List.pairwise_cons.1 hp1).1 y hyr
            rw [hu] at h1
            rw [ht] at h2 h3
            rw [hu] at h4
            cases h1
            cases h2
            cases h3
            cases h4
            omega
      subst htu
      rw [List.filter_cons_of_pos (by simp [hu])] at hft
      have hxy : x = y := (List.cons.inj hft).1
      subst hxy
      have htail := ih r2 (fun f hf1 => hv1 f (List.mem_cons_of_mem _ hf1))
        (fun f hf2 => hv2 f (List.mem_cons_of_mem _ hf2))
        (List.pairwise_cons.1 hp1).2 (List.pairwise_cons.1 hp2).2 (by
          intro s
          have hfs := hf s
          by_cases hs : toTime x.row.date = some s
          · rw [List.filter_cons_of_pos (by simp [hs]),
              List.filter_cons_of_pos (by simp [hs])] at hfs
            exact (List.cons.inj hfs).2
          · rw [List.filter_cons_of_neg (by simp [hs]),
              List.filter_cons_of_neg (by simp [hs])] at hfs
            exact hfs)
      rw [htail]

/-! ## Sort: theorem -/

/-- C19 (date order): when the flights fetch succeeds, the list the loader sets is
a permutation of the flights that survived the visibility filter, nothing added or
dropped. When every surviving date is valid the list is in date order: for every
adjacent pair, and for every pair, the earlier entry's date is not before the later
entry's date; flights with the same date keep the order in which they survived; and
the list is the only one with these properties, so it does not depend on the
algorithm of `Array.prototype.sort`. With an invalid date among them the comparator is
inconsistent and the order of the result is left to the engine. -/
theorem loadInitialData_sorted (toTime : JVal → Option Int) (me : String)
    (userRole : Option String) (rows : List FlightRow) (passengersRes : Res (List PassengerRow))
    (infantsRes : Res (List InfantRow)) (rolesRes : Res (List RoleDefinition)) :
    ∃ out, loadInitialDataFlights toTime me userRole { data := some rows, error := none }
        passengersRes infantsRes rolesRes = some out ∧
      out.Perm (filterVisible userRole (currentRoleDefs rolesRes) me
        (joinFlights rows (passengersRes.data.getD []) (infantsRes.data.getD []))) ∧
      ((∀ f ∈ out, (toTime f.row.date).isSome = true) →
        out.Chain' (fun a b => ∃ ta tb, toTime a.row.date = some ta ∧
          toTime b.row.date = some tb ∧ tb ≤ ta) ∧
        out.Pairwise (fun a b => ∃ ta tb, toTime a.row.date = some ta ∧
          toTime b.row.date = some tb ∧ tb ≤ ta) ∧
        (∀ t, out.filter (fun f => decide (toTime f.row.date = some t)) =
          (filterVisible userRole (currentRoleDefs rolesRes) me
            (joinFlights rows (passengersRes.data.getD []) (infantsRes.data.getD []))).filter
            (fun f => decide (toTime f.row.date = some t))) ∧
        (∀ other : List Flight,
          other.Perm (filterVisible userRole (currentRoleDefs rolesRes) me
            (joinFlights rows (passengersRes.data.getD []) (infantsRes.data.getD []))) →
          other.Pairwise (fun a b => ∃ ta tb, toTime a.row.date = some ta ∧
            toTime b.row.date = some tb ∧ tb ≤ ta) →
          (∀ t, other.filter (fun f => decide (toTime f.row.date = some t)) =
            (filterVisible userRole (currentRoleDefs rolesRes) me
              (joinFlights rows (passengersRes.data.getD []) (infantsRes.data.getD []))).filter
              (fun f => decide (toTime f.row.date = some t))) →
          other = out)) := by
  rw [loadInitialDataFlights_ok]
  refine ⟨_, rfl, sortFlights_perm toTime _, ?_⟩
  intro hvalid
  have hpw := chain_valid_pairwise toTime _ (sortFlights_chain toTime _) hvalid
  refine ⟨?_, hpw, fun t => filter_time_sortFlights toTime t _, ?_⟩
  · exact List.Pairwise.chain' hpw
  · intro other hperm hord hstable
    refine ordered_stable_unique toTime other _ ?_ hvalid hord hpw ?_
    · intro f hf
      exact hvalid f ((sortFlights_perm toTime _).symm.subset (hperm.subset hf))
    · intro t
      rw [hstable t, filter_time_sortFlights]

/-- Three fetched flights of an `Admin`, out of date order. -/
theorem loadInitialData_sorted_witness :
    (loadInitialDataFlights sampleToTime "owner1" (some "Admin")
        (Res.ok [sampleFlightRow 1 "F1" "2026-01-10" "owner1",
          sampleFlightRow 2 "F2" "2026-03-05" "owner1",
          sampleFlightRow 3 "F3" "2026-02-01" "owner1"])
        (Res.ok []) (Res.ok []) (Res.ok [])).map
      (fun out => out.map (fun f => f.row.date)) =
      some [JVal.str "2026-03-05", JVal.str "2026-02-01", JVal.str "2026-01-10"] ∧
    ∃ out, loadInitialDataFlights sampleToTime "owner1" (some "Admin")
        { data := some [sampleFlightRow 1 "F1" "2026-01-10" "owner1",
            sampleFlightRow 2 "F2" "2026-03-05" "owner1",
            sampleFlightRow 3 "F3" "2026-02-01" "owner1"], error := none }
        (Res.ok []) (Res.ok []) (Res.ok []) = some out ∧
      out.Perm (filterVisible (some "Admin") (currentRoleDefs (Res.ok [])) "owner1"
        (joinFlights [sampleFlightRow 1 "F1" "2026-01-10" "owner1",
            sampleFlightRow 2 "F2" "2026-03-05" "owner1",
            sampleFlightRow 3 "F3" "2026-02-01" "owner1"]
          ((Res.ok ([] : List PassengerRow)).data.getD [])
          ((Res.ok ([] : List InfantRow)).data.getD []))) :=
  ⟨by decide,
    (loadInitialData_sorted sampleToTime "owner1" (some "Admin") _ (Res.ok []) (Res.ok [])
      (Res.ok [])).imp (fun _ h => ⟨h.1, h.2.1⟩)⟩

/-! ## Reload: auxiliary facts -/

theorem updateExisting_name (au : AccountRoleRow) (m : User) :
    (updateExisting au m).name =
      if !m.name.truthy && au.name.truthy then au.name else m.name := by
  unfold updateExisting
  by_cases h1 : (!m.name.truthy && au.name.truthy) = true <;>
    by_cases h2 : (!m.agencyName.truthy && au.agency_name.truthy) = true <;>
      simp [h1, h2]

theorem updateExisting_agencyName (au : AccountRoleRow) (m : User) :
    (updateExisting au m).agencyName =
      if !m.agencyName.truthy && au.agency_name.truthy then au.agency_name
      else m.agencyName := by
  unfold updateExisting
  by_cases h1 : (!m.name.truthy && au.name.truthy) = true <;>
    by_cases h2 : (!m.agencyName.truthy && au.agency_name.truthy) = true <;>
      simp [h1, h2]

/-- Apart from the name and the agency name, the update keeps a user. -/
theorem updateExisting_eq (au : AccountRoleRow) (m : User) :
    updateExisting au m =
      { m with name := (updateExisting au m).name
               agencyName := (updateExisting au m).agencyName } := by
  unfold updateExisting
  by_cases h1 : (!m.name.truthy && au.name.truthy) = true <;>
    by_cases h2 : (!m.agencyName.truthy && au.agency_name.truthy) = true <;>
      simp [h1, h2]

theorem updateExisting_of_settled {au : AccountRoleRow} {m : User} (h : Settled au m) :
    updateExisting au m = m := by
  have hn : (!m.name.truthy && au.name.truthy) = false := by
    rcases h.1 with h1 | h1 <;> simp [h1]
  have ha : (!m.agencyName.truthy && au.agency_name.truthy) = false := by
    rcases h.2 with h1 | h1 <;> simp [h1]
  unfold updateExisting
  simp [hn, ha]

theorem settled_of_updateExisting {au : AccountRoleRow} {m : User}
    (h : updateExisting au m = m) : Settled au m := by
  constructor
  · by_cases hc : (!m.name.truthy && au.name.truthy) = true
    · have hname := updateExisting_name au m
      rw [h, if_pos hc] at hname
      simp only [Bool.and_eq_true, Bool.not_eq_true'] at hc
      rw [hname] at hc
      exact absurd hc.2 (by simp [hc.1])
    · cases hm : m.name.truthy
      · right
        simpa [hm] using hc
      · left
        rfl
  · by_cases hc : (!m.agencyName.truthy && au.agency_name.truthy) = true
    · have hname := updateExisting_agencyName au m
      rw [h, if_pos hc] at hname
      simp only [Bool.and_eq_true, Bool.not_eq_true'] at hc
      rw [hname] at hc
      exact absurd hc.2 (by simp [hc.1])
    · cases hm : m.agencyName.truthy
      · right
        simpa [hm] using hc
      · left
        rfl

/-- After its update a user is settled for the account role. -/
theorem settled_updateExisting (au : AccountRoleRow) (m : User) :
    Settled au (updateExisting au m) := by
  unfold Settled
  rw [updateExisting_name, updateExisting_agencyName]
  constructor
  · cases h1 : m.name.truthy <;> cases h2 : au.name.truthy <;> simp [h1, h2]
  · cases h1 : m.agencyName.truthy <;> cases h2 : au.agency_name.truthy <;> simp [h1, h2]

/-- The update for another account role keeps a user settled. -/
theorem settled_mono {au : AccountRoleRow} {m : User} (au2 : AccountRoleRow)
    (h : Settled au m) : Settled au (updateExisting au2 m) := by
  unfold Settled
  rw [updateExisting_name, updateExisting_agencyName]
  constructor
  · rcases h.1 with h1 | h1
    · left
      simp [h1]
    · right
      exact h1
  · rcases h.2 with h1 | h1
    · left
      simp [h1]
    · right
      exact h1

theorem matchesAccount_updateExisting (au au2 : AccountRoleRow) (m : User) :
    matchesAccount au (updateExisting au2 m) = matchesAccount au m := by
  rw [updateExisting_eq au2 m]
  rfl

theorem matchesAccount_new (au : AccountRoleRow) :
    matchesAccount au (newAccountUser au) = true := by
  simp [matchesAccount, newAccountUser]

theorem JVal.or_truthy_right (a b : JVal) (hb : b.truthy = true) :
    (JVal.or a b).truthy = true := by
  unfold JVal.or
  split
  · assumption
  · exact hb

theorem settled_new (au : AccountRoleRow) : Settled au (newAccountUser au) := by
  constructor
  · left
    exact JVal.or_truthy_right _ _ rfl
  · show (au.agency_name.truthy = true ∨ au.agency_name.truthy = false)
    cases au.agency_name.truthy <;> simp

/-- A list of users one round of the merge leaves as it is. -/
theorem mergeStep_idem (au : AccountRoleRow) (l : List User) :
    mergeStep au (mergeStep au l) = mergeStep au l := by
  induction l with
  | nil =>
    simp only [mergeStep, matchesAccount_new, if_true]
    rw [updateExisting_of_settled (settled_new au)]
  | cons m rest ih =>
    by_cases hm : matchesAccount au m = true
    · simp only [mergeStep, hm, if_true, matchesAccount_updateExisting]
      rw [updateExisting_of_settled (settled_updateExisting au m)]
    · simp only [mergeStep, hm]
      simp only [Bool.false_eq_true, if_false]
      rw [ih]

/-- A round for another account role keeps the fixed point of a round. -/
theorem mergeStep_fixed_preserved (au au2 : AccountRoleRow) (l : List User)
    (h : mergeStep au l = l) : mergeStep au (mergeStep au2 l) = mergeStep au2 l := by
  induction l with
  | nil => simp [mergeStep] at h
  | cons m rest ih =>
    by_cases hm : matchesAccount au m = true
    · have hfix : updateExisting au m = m := by
        simp only [mergeStep, hm, if_true, List.cons.injEq, and_true] at h
        exact h
      by_cases hm2 : matchesAccount au2 m = true
      · simp only [mergeStep, hm2, if_true, matchesAccount_updateExisting, hm]
        rw [updateExisting_of_settled (settled_mono au2 (settled_of_updateExisting hfix))]
      · simp only [mergeStep, hm2, hm, if_true]
        simp only [Bool.false_eq_true, if_false, hm, if_true]
        rw [hfix]
    · have hrest : mergeStep au rest = rest := by
        simp only [mergeStep, hm] at h
        simp only [Bool.false_eq_true, if_false, List.cons.injEq, true_and] at h
        exact h
      by_cases hm2 : matchesAccount au2 m = true
      · simp only [mergeStep, hm2, if_true, matchesAccount_updateExisting, hm]
        simp only [Bool.false_eq_true, if_false]
        rw [hrest]
      · simp only [mergeStep, hm2, hm]
        simp only [Bool.false_eq_true, if_false, hm]
        rw [ih hrest]

theorem mergeAccountRoles_fixed_preserved (au : AccountRoleRow) (aus : List AccountRoleRow)
    (l : List User) (h : mergeStep au l = l) :
    mergeStep au (mergeAccountRoles l aus) = mergeAccountRoles l aus := by
  induction aus generalizing l with
  | nil => exact h
  | cons au2 rest ih =>
    simp only [mergeAccountRoles, List.foldl_cons]
    exact ih _ (mergeStep_fixed_preserved au au2 l h)

/-- After the merge, a round for any of the merged account roles changes nothing. -/
theorem mergeAccountRoles_fixed (aus : List AccountRoleRow) (l : List User) :
    ∀ au ∈ aus, mergeStep au (mergeAccountRoles l aus) = mergeAccountRoles l aus := by
  induction aus generalizing l with
  | nil => intro au hau; cases hau
  | cons au2 rest ih =>
    intro au hau
    simp only [mergeAccountRoles, List.foldl_cons]
    rcases List.mem_cons.1 hau with rfl | hmem
    · exact mergeAccountRoles_fixed_preserved au rest _ (mergeStep_idem au l)
    · exact ih _ au hmem

theorem mergeAccountRoles_of_fixed (aus : List AccountRoleRow) (l : List User)
    (h : ∀ au ∈ aus, mergeStep au l = l) : mergeAccountRoles l aus = l := by
  induction aus with
  | nil => rfl
  | cons au rest ih =>
    simp only [mergeAccountRoles, List.foldl_cons]
    rw [h au (List.mem_cons_self _ _)]
    exact ih (fun x hx => h x (List.mem_cons_of_mem _ hx))

/-- Merging the same account roles a second time changes nothing. -/
theorem mergeAccountRoles_idem (aus : List AccountRoleRow) (l : List User) :
    mergeAccountRoles (mergeAccountRoles l aus) aus = mergeAccountRoles l aus :=
  mergeAccountRoles_of_fixed aus _ (mergeAccountRoles_fixed aus l)

theorem loadedList_idem {α β : Type} (res : Res (List α)) (f : α → β) (prev : List β) :
    loadedList res f (loadedList res f prev) = loadedList res f prev := by
  unfold loadedList
  cases res.error <;> cases res.data <;> rfl

/-- The users after a load, loaded and merged again. -/
theorem loaded_users_idem (usersRes : Res (List ManagedUserRow)) (aus : List AccountRoleRow)
    (prev : List User) :
    mergeAccountRoles (loadedList usersRes userOfRow
        (mergeAccountRoles (loadedList usersRes userOfRow prev) aus)) aus =
      mergeAccountRoles (loadedList usersRes userOfRow prev) aus := by
  unfold loadedList
  cases he : usersRes.error <;> cases hd : usersRes.data <;>
    simp only [mergeAccountRoles_idem]

theorem loadedRoleDefs_idem (rolesRes : Res (List RoleDefinition))
    (prev : List RoleDefinition) :
    loadedRoleDefs rolesRes (loadedRoleDefs rolesRes prev) = loadedRoleDefs rolesRes prev := by
  unfold loadedRoleDefs
  cases rolesRes.error <;> cases rolesRes.data <;> rfl

theorem option_getD_idem {α : Type} (o : Option α) (prev : α) :
    o.getD (o.getD prev) = o.getD prev := by
  cases o <;> rfl

/-! ## Reload: theorem -/

/-- C18 (idempotent reload): for the same actor and role and the same answers of the
backend, running `loadInitialData` a second time on the state the first run left
gives that same state: the same flights in the same order with the same passengers
and infants, the same airlines, agencies, prices, users and role definitions, the
same scope, branding and loading flag. This holds whichever fetches failed. -/
theorem loadInitialData_idempotent (toTime : JVal → Option Int)
    (parseFloatStr : String → JNum) (a : Actor) (r : LoadResponses) (st : State) :
    loadInitialData toTime parseFloatStr a r (loadInitialData toTime parseFloatStr a r st) =
      loadInitialData toTime parseFloatStr a r st := by
  unfold loadInitialData
  cases a.currentUser with
  | none => rfl
  | some me =>
    simp only
    cases r.roleLookup with
    | error e => rfl
    | ok roleData =>
      simp only
      cases r.batch with
      | error e => rfl
      | ok b =>
        simp only
        cases hset : loadedSettings b.settingsRes with
        | none =>
          cases r.accountRoles with
          | error e =>
            simp only [State.mk.injEq, option_getD_idem, loadedList_idem, loadedRoleDefs_idem,
              Option.map_none', Option.getD_none, and_self]
          | ok ar =>
            cases ar with
            | none =>
              simp only [State.mk.injEq, option_getD_idem, loadedList_idem,
                loadedRoleDefs_idem, Option.map_none', Option.getD_none, and_self]
            | some aus =>
              simp only [State.mk.injEq, option_getD_idem, loadedList_idem,
                loadedRoleDefs_idem, loaded_users_idem, Option.map_none', Option.getD_none,
                and_self]
        | some d =>
          cases r.accountRoles with
          | error e =>
            simp only [State.mk.injEq, option_getD_idem, loadedList_idem, loadedRoleDefs_idem,
              Option.map_some', Option.getD_some, true_and, and_true]
            constructor <;> split <;> simp_all
          | ok ar =>
            cases ar with
            | none =>
              simp only [State.mk.injEq, option_getD_idem, loadedList_idem,
                loadedRoleDefs_idem, Option.map_some', Option.getD_some, true_and, and_true]
              constructor <;> split <;> simp_all
            | some aus =>
              simp only [State.mk.injEq, option_getD_idem, loadedList_idem,
                loadedRoleDefs_idem, loaded_users_idem, Option.map_some', Option.getD_some,
                true_and, and_true]
              constructor <;> split <;> simp_all

/-! ## Activity-log coverage: auxiliary facts -/

theorem loggedEntries_manageInfants (pid uid : JVal) (names : Option (List String))
    (me : String) (de ie : Option String) :
    loggedEntries (manageInfants pid uid names me de ie).1 = [] := by
  unfold manageInfants
  cases de with
  | some e => rfl
  | none =>
    cases names with
    | none => rfl
    | some l =>
      simp only
      split
      · split
        · cases ie <;> rfl
        · rfl
      · rfl

theorem manageInfants_accepted (pid uid : JVal) (names : Option (List String)) (me : String) :
    (manageInfants pid uid names me none none).2 = Outcome.returned := by
  unfold manageInfants
  cases names with
  | none => rfl
  | some l =>
    simp only
    split
    · split <;> rfl
    · rfl

theorem loggedEntries_append (xs ys : List Call) :
    loggedEntries (xs ++ ys) = loggedEntries xs ++ loggedEntries ys := by
  unfold loggedEntries
  exact List.filterMap_append _ _ _

theorem createFlight_logs_nothing (toTime : JVal → Option Int) (a : Actor) (st : State)
    (flight : FlightInput) (resp : Res FlightRow) :
    loggedEntries (createFlight toTime a st flight resp).1.calls = [] := by
  unfold createFlight
  cases a.currentUser with
  | none => rfl
  | some me =>
    simp only
    split
    · rfl
    · rcases resp with ⟨data, error⟩
      cases error with
      | some e => rfl
      | none => cases data <;> rfl

theorem addAirline_logs_nothing (a : Actor) (st : State) (airline : AirlineInput)
    (respError : Option String) (refetched : Option (List AirlineRow)) :
    loggedEntries (addAirline a st airline respError refetched).calls = [] := by
  unfold addAirline
  cases a.currentUser with
  | none => rfl
  | some me =>
    simp only
    split
    · rfl
    · cases respError with
      | some e => rfl
      | none => cases refetched <;> rfl

theorem addAgency_logs_nothing (a : Actor) (st : State) (agency : AgencyInput)
    (respError : Option String) (refetched : Option (List AgencyRow)) :
    loggedEntries (addAgency a st agency respError refetched).calls = [] := by
  unfold addAgency
  cases a.currentUser with
  | none => rfl
  | some me =>
    simp only
    split
    · rfl
    · cases respError with
      | some e => rfl
      | none => cases refetched <;> rfl

theorem addPassengerToFlight_insert_logs_nothing (ctx : Ctx) (flightId : JVal)
    (passenger : PassengerInput) (today : String) (resp : Res PassengerRow)
    (de ie : Option String) (lr : LogResult)
    (hid : (passenger.id.truthy && isValidUUID passenger.id) = false) :
    loggedEntries (addPassengerToFlight ctx flightId passenger today resp de ie lr).calls = [] := by
  unfold addPassengerToFlight
  cases ctx.currentUser with
  | none => rfl
  | some me =>
    simp only
    cases getFlight ctx.flights flightId with
    | error e => rfl
    | ok found =>
      cases found with
      | none => rfl
      | some flight =>
        simp only [hid]
        rcases resp with ⟨data, error⟩
        cases error with
        | some e => rfl
        | none =>
          cases data with
          | none => rfl
          | some row =>
            have hm := loggedEntries_manageInfants row.id ctx.targetUserId passenger.infants me de ie
            simp only [Bool.false_eq_true, if_false]
            split <;>
              simpa [loggedEntries] using hm

theorem updateFlight_logged (ctx : Ctx) (me : String) (id : JVal) (u : FlightInput)
    (data : FlightRow) (lr : LogResult) (hme : ctx.currentUser = some me)
    (hok : (hasPermission ctx.userRole ctx.roleDefinitions "flight" "delete").truthy = true ∨
      isFlightOwner (ctx.flights.find? (fun f => decide (f.row.id = id))) me = true) :
    loggedEntries (updateFlight ctx id u (Res.ok data) lr).calls =
      if (ctx.flights.find? (fun f => decide (f.row.id = id))).isSome then
        [{ user_id := me, action_type := "UPDATE", entity_type := "FLIGHT", entity_id := id
           created_by := me }]
      else [] := by
  have hcond : (!(hasPermission ctx.userRole ctx.roleDefinitions "flight" "delete").truthy &&
      !isFlightOwner (ctx.flights.find? (fun f => decide (f.row.id = id))) me) = false := by
    rcases hok with h | h <;> simp [h]
  unfold updateFlight
  simp only [hme, hcond, Res.ok, logActivity_eq]
  cases hfind : ctx.flights.find? (fun f => decide (f.row.id = id)) with
  | none => rfl
  | some f => rfl

theorem deleteFlight_logged (ctx : Ctx) (me : String) (id : JVal) (lr : LogResult)
    (hme : ctx.currentUser = some me)
    (hok : (hasPermission ctx.userRole ctx.roleDefinitions "flight" "delete").truthy = true ∨
      isFlightOwner (ctx.flights.find? (fun f => decide (f.row.id = id))) me = true) :
    loggedEntries (deleteFlight ctx id none lr).calls =
      if (ctx.flights.find? (fun f => decide (f.row.id = id))).isSome then
        [{ user_id := me, action_type := "DELETE", entity_type := "FLIGHT", entity_id := id
           created_by := me }]
      else [] := by
  have hcond : (!(hasPermission ctx.userRole ctx.roleDefinitions "flight" "delete").truthy &&
      !isFlightOwner (ctx.flights.find? (fun f => decide (f.row.id = id))) me) = false := by
    rcases hok with h | h <;> simp [h]
  unfold deleteFlight
  simp only [hme, hcond, logActivity_eq]
  cases hfind : ctx.flights.find? (fun f => decide (f.row.id = id)) with
  | none => rfl
  | some f => rfl

theorem addPassengerToFlight_update_logged (ctx : Ctx) (me : String) (flightId : JVal)
    (passenger : PassengerInput) (today : String) (data : PassengerRow) (lr : LogResult)
    (flight : Flight) (hme : ctx.currentUser = some me)
    (hflight : getFlight ctx.flights flightId = Except.ok (some flight))
    (hid : (passenger.id.truthy && isValidUUID passenger.id) = true) :
    loggedEntries
        (addPassengerToFlight ctx flightId passenger today (Res.ok data) none none lr).calls =
      if (flight.passengers.find? (fun p => decide (p.row.id = passenger.id))).isSome then
        [{ user_id := me, action_type := "UPDATE", entity_type := "PASSENGER"
           entity_id := data.id, created_by := me }]
      else [] := by
  have hm := loggedEntries_manageInfants data.id ctx.targetUserId passenger.infants me none none
  have hacc := manageInfants_accepted data.id ctx.targetUserId passenger.infants me
  unfold addPassengerToFlight
  simp only [hme, hflight, hid, Res.ok, logActivity_eq, hacc, if_true]
  cases hfind : flight.passengers.find? (fun p => decide (p.row.id = passenger.id)) with
  | none => simpa [loggedEntries] using hm
  | some p =>
    simp only [Option.isSome_some, if_true]
    have happ : ∀ (c : Call) (xs ys : List Call),
        loggedEntries (c :: (xs ++ ys)) = loggedEntries [c] ++ loggedEntries xs ++ loggedEntries ys := by
      intro c xs ys
      unfold loggedEntries
      rw [← List.filterMap_append, ← List.filterMap_append]
      rfl
    rw [happ, hm]
    rfl

theorem removePassengerFromFlight_logged (ctx : Ctx) (me : String) (flightId passengerId : JVal)
    (lr : LogResult) (flight : Flight) (hme : ctx.currentUser = some me)
    (hflight : getFlight ctx.flights flightId = Except.ok (some flight))
    (hok : (hasPermission ctx.userRole ctx.roleDefinitions "passenger" "delete").truthy = true ∨
      isPassengerOwner (flight.passengers.find? (fun p => decide (p.row.id = passengerId))) me
        = true) :
    loggedEntries (removePassengerFromFlight ctx flightId passengerId none lr).calls =
      if (flight.passengers.find? (fun p => decide (p.row.id = passengerId))).isSome then
        [{ user_id := me, action_type := "DELETE", entity_type := "PASSENGER"
           entity_id := passengerId, created_by := me }]
      else [] := by
  have hcond : (!(hasPermission ctx.userRole ctx.roleDefinitions "passenger" "delete").truthy &&
      !isPassengerOwner (flight.passengers.find? (fun p => decide (p.row.id = passengerId))) me)
        = false := by
    rcases hok with h | h <;> simp [h]
  unfold removePassengerFromFlight
  simp only [hme, hflight, hcond, logActivity_eq]
  cases hfind : flight.passengers.find? (fun p => decide (p.row.id = passengerId)) with
  | none => rfl
  | some p => rfl

theorem finishLogged_logged (call : Call) (st1 : State) (found : Bool) (me : String)
    (actionType entityType : String) (id : JVal) (done : List Toast) (lr : LogResult)
    (hcall : loggedEntries [call] = []) :
    loggedEntries (finishLogged call st1 found me actionType entityType id done lr).calls =
      if found then
        [{ user_id := me, action_type := actionType, entity_type := entityType, entity_id := id
           created_by := me }]
      else [] := by
  unfold finishLogged
  cases found with
  | false => simpa using hcall
  | true =>
    simp only [logActivity_eq, if_true]
    have : ∀ e : LogEntry, loggedEntries [call, Call.activityLogsInsert e] =
        loggedEntries [call] ++ [e] := by
      intro e
      unfold loggedEntries
      rw [show [call, Call.activityLogsInsert e] = [call] ++ [Call.activityLogsInsert e] from rfl,
        List.filterMap_append]
      rfl
    rw [this, hcall]
    rfl

/-- When the backend accepts the log writes, the table gains the rows of the inserts
issued. -/
theorem applyLogCalls_accepted (table : List LogEntry) (calls : List Call) :
    applyLogCalls LogResult.ok table calls = table ++ loggedEntries calls := by
  unfold applyLogCalls
  induction calls generalizing table with
  | nil => simp [loggedEntries]
  | cons c rest ih =>
    rw [List.foldl_cons, ih]
    cases c <;> simp [applyLogCall, loggedEntries]

/-- When the backend answers the log writes with an error or an exception, the table
gains nothing. -/
theorem applyLogCalls_refused (lr : LogResult) (table : List LogEntry) (calls : List Call)
    (hlr : lr ≠ LogResult.ok) : applyLogCalls lr table calls = table := by
  unfold applyLogCalls
  induction calls generalizing table with
  | nil => rfl
  | cons c rest ih =>
    rw [List.foldl_cons, ih]
    cases lr with
    | ok => exact absurd rfl hlr
    | error e => cases c <;> rfl
    | thrown e => cases c <;> rfl

/-! ## Activity-log coverage: theorems -/

/-- C21 (log coverage, counterexample): a staff actor creates a flight, adds a new
passenger, adds an airline and adds an agency; each operation succeeds and changes
the local state or issues its insert, and none of them inserts a row into
`activity_logs`. Deleting an airline the local list does not hold issues the remote
delete and logs nothing either. -/
theorem create_operations_append_no_log :
    ((createFlight sampleToTime sampleActor sampleState (sampleFlightInput "2026-02-01" "FC300")
        (Res.ok (sampleNumberedRow 3 "F3" "2026-02-01" "FC300"))).1.outcome = Outcome.returned ∧
      (createFlight sampleToTime sampleActor sampleState (sampleFlightInput "2026-02-01" "FC300")
        (Res.ok (sampleNumberedRow 3 "F3" "2026-02-01" "FC300"))).1.state.flights.length = 3 ∧
      loggedEntries
        (createFlight sampleToTime sampleActor sampleState (sampleFlightInput "2026-02-01" "FC300")
          (Res.ok (sampleNumberedRow 3 "F3" "2026-02-01" "FC300"))).1.calls = []) ∧
    ((addPassengerToFlight sampleCtx (JVal.num 1) (samplePassengerInput "" "New") "2026-01-01"
        (Res.ok (samplePassengerRow "44444444-4444-4444-4444-444444444444" "F1" "staff1"))
        none none LogResult.ok).outcome = Outcome.returned ∧
      (addPassengerToFlight sampleCtx (JVal.num 1) (samplePassengerInput "" "New") "2026-01-01"
        (Res.ok (samplePassengerRow "44444444-4444-4444-4444-444444444444" "F1" "staff1"))
        none none LogResult.ok).flights ≠ sampleCtx.flights ∧
      loggedEntries
        (addPassengerToFlight sampleCtx (JVal.num 1) (samplePassengerInput "" "New") "2026-01-01"
          (Res.ok (samplePassengerRow "44444444-4444-4444-4444-444444444444" "F1" "staff1"))
          none none LogResult.ok).calls = []) ∧
    ((addAirline sampleActor sampleState (sampleAirlineInput "NewAir") none (some [])).outcome
        = Outcome.returned ∧
      (addAirline sampleActor sampleState (sampleAirlineInput "NewAir") none (some [])).calls
        ≠ [] ∧
      loggedEntries
        (addAirline sampleActor sampleState (sampleAirlineInput "NewAir") none (some [])).calls
        = []) ∧
    ((addAgency sampleActor sampleState (sampleAgencyInput "NewAgency") none (some [])).outcome
        = Outcome.returned ∧
      (addAgency sampleActor sampleState (sampleAgencyInput "NewAgency") none (some [])).calls
        ≠ [] ∧
      loggedEntries
        (addAgency sampleActor sampleState (sampleAgencyInput "NewAgency") none (some [])).calls
        = []) ∧
    ((deleteAirline sampleActor sampleState (JVal.str "A9") none LogResult.ok).calls =
        [Call.airlinesDelete (JVal.str "A9") (JVal.str "owner1")] ∧
      (deleteAirline sampleActor sampleState (JVal.str "A9") none LogResult.ok).outcome
        = Outcome.returned) := by
  decide

/-- C21 (log coverage, amended): for a signed-in actor, a successful update or delete
of a flight, passenger, airline or agency issues exactly one insert into
`activity_logs`, with action type `UPDATE` or `DELETE`, the entity type of the record
and the id of the written record, when the record is held in the local snapshot, and
no insert when it is not; `createFlight`, the insert branch of `addPassengerToFlight`,
`addAirline` and `addAgency` issue no insert, whatever the backend answers. The rows
the table gains are the rows of the inserts issued when the backend accepts the log
write, and none when it answers the log write with an error or an exception. -/
theorem mutation_log_entries (toTime : JVal → Option Int) (a : Actor) (st : State)
    (me : String) (lr : LogResult) (hme : a.currentUser = some me) :
    (∀ table calls, applyLogCalls LogResult.ok table calls = table ++ loggedEntries calls) ∧
    (∀ table calls, lr ≠ LogResult.ok → applyLogCalls lr table calls = table) ∧
    (∀ flight resp, loggedEntries (createFlight toTime a st flight resp).1.calls = []) ∧
    (∀ flightId passenger today resp de ie,
      (passenger.id.truthy && isValidUUID passenger.id) = false →
      loggedEntries
        (addPassengerToFlight (st.ctx a) flightId passenger today resp de ie lr).calls = []) ∧
    (∀ airline respError refetched,
      loggedEntries (addAirline a st airline respError refetched).calls = []) ∧
    (∀ agency respError refetched,
      loggedEntries (addAgency a st agency respError refetched).calls = []) ∧
    (∀ id u data,
      ((hasPermission a.userRole st.roleDefinitions "flight" "delete").truthy = true ∨
        isFlightOwner (st.flights.find? (fun f => decide (f.row.id = id))) me = true) →
      loggedEntries (updateFlight (st.ctx a) id u (Res.ok data) lr).calls =
        if (st.flights.find? (fun f => decide (f.row.id = id))).isSome then
          [{ user_id := me, action_type := "UPDATE", entity_type := "FLIGHT", entity_id := id
             created_by := me }]
        else []) ∧
    (∀ id,
      ((hasPermission a.userRole st.roleDefinitions "flight" "delete").truthy = true ∨
        isFlightOwner (st.flights.find? (fun f => decide (f.row.id = id))) me = true) →
      loggedEntries (deleteFlight (st.ctx a) id none lr).calls =
        if (st.flights.find? (fun f => decide (f.row.id = id))).isSome then
          [{ user_id := me, action_type := "DELETE", entity_type := "FLIGHT", entity_id := id
             created_by := me }]
        else []) ∧
    (∀ flightId passenger today data flight,
      getFlight st.flights flightId = Except.ok (some flight) →
      (passenger.id.truthy && isValidUUID passenger.id) = true →
      loggedEntries
          (addPassengerToFlight (st.ctx a) flightId passenger today (Res.ok data) none none
            lr).calls =
        if (flight.passengers.find? (fun p => decide (p.row.id = passenger.id))).isSome then
          [{ user_id := me, action_type := "UPDATE", entity_type := "PASSENGER"
             entity_id := data.id, created_by := me }]
        else []) ∧
    (∀ flightId passengerId flight,
      getFlight st.flights flightId = Except.ok (some flight) →
      ((hasPermission a.userRole st.roleDefinitions "passenger" "delete").truthy = true ∨
        isPassengerOwner (flight.passengers.find? (fun p => decide (p.row.id = passengerId))) me
          = true) →
      loggedEntries (removePassengerFromFlight (st.ctx a) flightId passengerId none lr).calls =
        if (flight.passengers.find? (fun p => decide (p.row.id = passengerId))).isSome then
          [{ user_id := me, action_type := "DELETE", entity_type := "PASSENGER"
             entity_id := passengerId, created_by := me }]
        else []) ∧
    (∀ id u,
      loggedEntries (updateAirline a st id u none lr).calls =
        if (st.airlines.find? (fun x => decide (x.id = id))).isSome then
          [{ user_id := me, action_type := "UPDATE", entity_type := "AIRLINE", entity_id := id
             created_by := me }]
        else []) ∧
    (∀ id,
      loggedEntries (deleteAirline a st id none lr).calls =
        if (st.airlines.find? (fun x => decide (x.id = id))).isSome then
          [{ user_id := me, action_type := "DELETE", entity_type := "AIRLINE", entity_id := id
             created_by := me }]
        else []) ∧
    (∀ id u,
      loggedEntries (updateAgency a st id u none lr).calls =
        if (st.agencies.find? (fun x => decide (x.id = id))).isSome then
          [{ user_id := me, action_type := "UPDATE", entity_type := "AGENCY", entity_id := id
             created_by := me }]
        else []) ∧
    (∀ id,
      loggedEntries (deleteAgency a st id none lr).calls =
        if (st.agencies.find? (fun x => decide (x.id = id))).isSome then
          [{ user_id := me, action_type := "DELETE", entity_type := "AGENCY", entity_id := id
             created_by := me }]
        else []) := by
  have hctx : (st.ctx a).currentUser = some me := hme
  refine ⟨?_, ?_, ?_, ?_, ?_, ?_, ?_, ?_, ?_, ?_, ?_, ?_, ?_, ?_⟩
  · intro table calls
    exact applyLogCalls_accepted table calls
  · intro table calls hlr
    exact applyLogCalls_refused lr table calls hlr
  · intro flight resp
    exact createFlight_logs_nothing toTime a st flight resp
  · intro flightId passenger today resp de ie hid
    exact addPassengerToFlight_insert_logs_nothing _ flightId passenger today resp de ie lr hid
  · intro airline respError refetched
    exact addAirline_logs_nothing a st airline respError refetched
  · intro agency respError refetched
    exact addAgency_logs_nothing a st agency respError refetched
  · intro id u data hok
    exact updateFlight_logged (st.ctx a) me id u data lr hctx hok
  · intro id hok
    exact deleteFlight_logged (st.ctx a) me id lr hctx hok
  · intro flightId passenger today data flight hflight hid
    exact addPassengerToFlight_update_logged (st.ctx a) me flightId passenger today data lr
      flight hctx hflight hid
  · intro flightId passengerId flight hflight hok
    exact removePassengerFromFlight_logged (st.ctx a) me flightId passengerId lr flight hctx
      hflight hok
  · intro id u
    unfold updateAirline
    simp only [hme]
    exact finishLogged_logged _ _ _ _ _ _ _ _ _ rfl
  · intro id
    unfold deleteAirline
    simp only [hme]
    exact finishLogged_logged _ _ _ _ _ _ _ _ _ rfl
  · intro id u
    unfold updateAgency
    simp only [hme]
    exact finishLogged_logged _ _ _ _ _ _ _ _ _ rfl
  · intro id
    unfold deleteAgency
    simp only [hme]
    exact finishLogged_logged _ _ _ _ _ _ _ _ _ rfl

/-- The staff actor updating the flight it created and deleting the airline `A1`:
one `UPDATE` insert for the flight `1`, one `DELETE` insert for the airline, and the
row the table gains when the backend accepts the first. -/
theorem mutation_log_entries_witness :
    loggedEntries
        (updateFlight (sampleState.ctx sampleActor) (JVal.num 1)
          (sampleFlightInput "2026-01-12" "FC100")
          (Res.ok (sampleNumberedRow 1 "F1" "2026-01-12" "FC100")) LogResult.ok).calls =
      [{ user_id := "staff1", action_type := "UPDATE", entity_type := "FLIGHT"
         entity_id := JVal.num 1, created_by := "staff1" }] ∧
    loggedEntries (deleteAirline sampleActor sampleState (JVal.str "A1") none LogResult.ok).calls =
      [{ user_id := "staff1", action_type := "DELETE", entity_type := "AIRLINE"
         entity_id := JVal.str "A1", created_by := "staff1" }] ∧
    applyLogCalls LogResult.ok []
        (updateFlight (sampleState.ctx sampleActor) (JVal.num 1)
          (sampleFlightInput "2026-01-12" "FC100")
          (Res.ok (sampleNumberedRow 1 "F1" "2026-01-12" "FC100")) LogResult.ok).calls =
      [] ++ loggedEntries
        (updateFlight (sampleState.ctx sampleActor) (JVal.num 1)
          (sampleFlightInput "2026-01-12" "FC100")
          (Res.ok (sampleNumberedRow 1 "F1" "2026-01-12" "FC100")) LogResult.ok).calls ∧
    applyLogCalls (LogResult.error "denied") []
        (updateFlight (sampleState.ctx sampleActor) (JVal.num 1)
          (sampleFlightInput "2026-01-12" "FC100")
          (Res.ok (sampleNumberedRow 1 "F1" "2026-01-12" "FC100"))
          (LogResult.error "denied")).calls = [] :=
  ⟨(mutation_log_entries sampleToTime sampleActor sampleState "staff1" LogResult.ok
      rfl).2.2.2.2.2.2.1 (JVal.num 1) _ _ (Or.inr (by decide)),
    (mutation_log_entries sampleToTime sampleActor sampleState "staff1" LogResult.ok
      rfl).2.2.2.2.2.2.2.2.2.2.2.1 (JVal.str "A1"),
    (mutation_log_entries sampleToTime sampleActor sampleState "staff1" LogResult.ok
      rfl).1 [] _,
    (mutation_log_entries sampleToTime sampleActor sampleState "staff1"
      (LogResult.error "denied") rfl).2.1 [] _ (by decide)⟩

/-! ## Local record after `updateFlight`: auxiliary fact -/

/-- What `updateFlight` leaves locally on success: the flights with the id carry the
returned row, keep their own `flightNumber` property and their passengers; every
other flight is untouched. -/
theorem updateFlight_local_record (ctx : Ctx) (me : String) (id : JVal) (u : FlightInput)
    (data : FlightRow) (lr : LogResult) (hme : ctx.currentUser = some me)
    (hok : (hasPermission ctx.userRole ctx.roleDefinitions "flight" "delete").truthy = true ∨
      isFlightOwner (ctx.flights.find? (fun f => decide (f.row.id = id))) me = true) :
    (updateFlight ctx id u (Res.ok data) lr).flights =
      ctx.flights.map (fun f =>
        if f.row.id = id then
          { row := data, flightNumber := f.flightNumber, passengers := f.passengers }
        else f) := by
  have hcond : (!(hasPermission ctx.userRole ctx.roleDefinitions "flight" "delete").truthy &&
      !isFlightOwner (ctx.flights.find? (fun f => decide (f.row.id = id))) me) = false := by
    rcases hok with h | h <;> simp [h]
  unfold updateFlight
  simp only [hme, hcond, Res.ok, logActivity_eq]
  cases hfind : ctx.flights.find? (fun f => decide (f.row.id = id)) with
  | none => rfl
  | some f => rfl

/-! ## Local record after `updateFlight`: theorem -/

/-- C22 (update reflects the remote record, failing input): the owner changes the
flight number of the loaded flight `1` from `FC100` to `FC999`. The update is issued
and succeeds; locally the row of the flight carries `flight_number = FC999` while the
property `flightNumber`, which the loader had set from `flight_number` and the
passenger form reads, still holds `FC100`. A reload of the same remote rows gives
`flightNumber = FC999`. -/
theorem updateFlight_stale_flightNumber :
    sampleOwnerCtx.flights.map (fun f => (f.row.id, f.row.flight_number, f.flightNumber)) =
      [(JVal.num 2, JVal.str "FC200", JVal.str "FC200"),
       (JVal.num 1, JVal.str "FC100", JVal.str "FC100")] ∧
    (updateFlight sampleOwnerCtx (JVal.num 1) (sampleFlightInput "2026-01-10" "FC999")
        (Res.ok (sampleNumberedRow 1 "F1" "2026-01-10" "FC999")) LogResult.ok).calls.head? =
      some (Call.flightsUpdate (JVal.num 1) (JVal.str "owner1")
        { airline := JVal.str "FlyCo", flight_number := JVal.str "FC999"
          date := JVal.str "2026-01-10", route := JVal.str "AAA-BBB" }) ∧
    (updateFlight sampleOwnerCtx (JVal.num 1) (sampleFlightInput "2026-01-10" "FC999")
        (Res.ok (sampleNumberedRow 1 "F1" "2026-01-10" "FC999")) LogResult.ok).outcome =
      Outcome.returned ∧
    (updateFlight sampleOwnerCtx (JVal.num 1) (sampleFlightInput "2026-01-10" "FC999")
        (Res.ok (sampleNumberedRow 1 "F1" "2026-01-10" "FC999")) LogResult.ok).flights.map
        (fun f => (f.row.id, f.row.flight_number, f.flightNumber)) =
      [(JVal.num 2, JVal.str "FC200", JVal.str "FC200"),
       (JVal.num 1, JVal.str "FC999", JVal.str "FC100")] ∧
    (loadInitialDataFlights sampleToTime "owner1" (some "Admin")
        (Res.ok [sampleNumberedRow 1 "F1" "2026-01-10" "FC999",
          sampleNumberedRow 2 "F2" "2026-01-11" "FC200"])
        (Res.ok []) (Res.ok []) (Res.ok [])).map
        (fun l => l.map (fun f => (f.row.id, f.row.flight_number, f.flightNumber))) =
      some [(JVal.num 2, JVal.str "FC200", JVal.str "FC200"),
       (JVal.num 1, JVal.str "FC999", JVal.str "FC999")] := by
  decide

/-! ## Local infants after `addPassengerToFlight`: theorem -/

/-- C23 (local infants equal the persisted ones, failing input): the staff actor adds
a passenger with the infant list `[" Ann "]`, and updates its passenger `3333...` with
the list `["Bob", ""]`. Both operations succeed. The local passenger carries the
submitted list as it was typed, while the rows stored in `infants` carry the trimmed
names that are not empty, which is what the loader would join on a reload. -/
theorem addPassengerToFlight_local_infants_differ :
    (addPassengerToFlight sampleCtx (JVal.num 1)
        { samplePassengerInput "" "New" with infants := some [" Ann "] } "2026-01-01"
        (Res.ok (samplePassengerRow "44444444-4444-4444-4444-444444444444" "F1" "staff1"))
        none none LogResult.ok).outcome = Outcome.returned ∧
    ((addPassengerToFlight sampleCtx (JVal.num 1)
        { samplePassengerInput "" "New" with infants := some [" Ann "] } "2026-01-01"
        (Res.ok (samplePassengerRow "44444444-4444-4444-4444-444444444444" "F1" "staff1"))
        none none LogResult.ok).flights.flatMap (fun f => f.passengers.filter (fun p =>
          decide (p.row.id = JVal.str "44444444-4444-4444-4444-444444444444")))).map
        (fun p => p.infants) = [some [" Ann "]] ∧
    storedInfantNames
        (applyInfantsCalls []
          (addPassengerToFlight sampleCtx (JVal.num 1)
            { samplePassengerInput "" "New" with infants := some [" Ann "] } "2026-01-01"
            (Res.ok (samplePassengerRow "44444444-4444-4444-4444-444444444444" "F1" "staff1"))
            none none LogResult.ok).calls)
        (JVal.str "44444444-4444-4444-4444-444444444444") = ["Ann"] ∧
    (joinInfants
        (applyInfantsCalls []
          (addPassengerToFlight sampleCtx (JVal.num 1)
            { samplePassengerInput "" "New" with infants := some [" Ann "] } "2026-01-01"
            (Res.ok (samplePassengerRow "44444444-4444-4444-4444-444444444444" "F1" "staff1"))
            none none LogResult.ok).calls)
        (samplePassengerRow "44444444-4444-4444-4444-444444444444" "F1" "staff1")).infants =
      some ["Ann"] ∧
    (addPassengerToFlight sampleCtx (JVal.num 1)
        { samplePassengerInput "33333333-3333-3333-3333-333333333333" "Kept" with
          infants := some ["Bob", ""] } "2026-01-01"
        (Res.ok (samplePassengerRow "33333333-3333-3333-3333-333333333333" "F1" "staff1"))
        none none LogResult.ok).outcome = Outcome.returned ∧
    ((addPassengerToFlight sampleCtx (JVal.num 1)
        { samplePassengerInput "33333333-3333-3333-3333-333333333333" "Kept" with
          infants := some ["Bob", ""] } "2026-01-01"
        (Res.ok (samplePassengerRow "33333333-3333-3333-3333-333333333333" "F1" "staff1"))
        none none LogResult.ok).flights.flatMap (fun f => f.passengers.filter (fun p =>
          decide (p.row.id = JVal.str "33333333-3333-3333-3333-333333333333")))).map
        (fun p => p.infants) = [some ["Bob", ""]] ∧
    storedInfantNames
        (applyInfantsCalls []
          (addPassengerToFlight sampleCtx (JVal.num 1)
            { samplePassengerInput "33333333-3333-3333-3333-333333333333" "Kept" with
              infants := some ["Bob", ""] } "2026-01-01"
            (Res.ok (samplePassengerRow "33333333-3333-3333-3333-333333333333" "F1" "staff1"))
            none none LogResult.ok).calls)
        (JVal.str "33333333-3333-3333-3333-333333333333") = ["Bob"] := by
  decide

/-! ## Refetch scope of `addAirline` and `addAgency`: auxiliary facts -/

/-- Against a backend that accepts the insert, `addAirline` sets the rows stored for
the actor's own id. -/
theorem addAirlineOn_state (table : List AirlineRow) (newId : JVal) (a : Actor)
    (st : State) (me : String) (airline : AirlineInput) (hme : a.currentUser = some me)
    (ht : st.targetUserId.truthy = true) :
    (addAirlineOn table newId a st airline).1.state.airlines =
      (selectAirlines (addAirlineOn table newId a st airline).2 (JVal.str me)).map
        airlineOfRefetched := by
  unfold addAirlineOn addAirline
  simp only [hme, ht, Bool.not_true, Bool.false_eq_true, if_false]

/-- Against a backend that accepts the insert, `addAgency` sets the rows stored for
the actor's own id. -/
theorem addAgencyOn_state (table : List AgencyRow) (newId : JVal) (a : Actor)
    (st : State) (me : String) (agency : AgencyInput) (hme : a.currentUser = some me)
    (ht : st.targetUserId.truthy = true) :
    (addAgencyOn table newId a st agency).1.state.agencies =
      (selectAgencies (addAgencyOn table newId a st agency).2 (JVal.str me)).map
        agencyOfRefetched := by
  unfold addAgencyOn addAgency
  simp only [hme, ht, Bool.not_true, Bool.false_eq_true, if_false]

/-- For an actor who is the scope itself, the lists `addAirline` and `addAgency` set
are the ones stored for the scope. -/
theorem add_on_own_scope (a : Actor) (st : State) (me : String) (hme : a.currentUser = some me)
    (ht : st.targetUserId.truthy = true) (hscope : st.targetUserId = JVal.str me) :
    (∀ table newId airline,
      (addAirlineOn table newId a st airline).1.state.airlines =
        (selectAirlines (addAirlineOn table newId a st airline).2 st.targetUserId).map
          airlineOfRefetched) ∧
    (∀ table newId agency,
      (addAgencyOn table newId a st agency).1.state.agencies =
        (selectAgencies (addAgencyOn table newId a st agency).2 st.targetUserId).map
          agencyOfRefetched) := by
  constructor
  · intro table newId airline
    rw [hscope]
    exact addAirlineOn_state table newId a st me airline hme ht
  · intro table newId agency
    rw [hscope]
    exact addAgencyOn_state table newId a st me agency hme ht

/-! ## Refetch scope of `addAirline` and `addAgency`: theorem -/

/-- C24 (refetch scope, failing input): the staff actor `staff1`, scoped to `owner1`,
adds an airline and an agency while the backend holds one airline and one agency of
`owner1`. Each insert is written with `user_id = owner1` and accepted, the select that
follows asks for `user_id = staff1`, and the local list becomes empty, while the rows
stored for the scope `owner1` are the previous one and the new one. -/
theorem add_refetches_own_rows :
    sampleState.targetUserId = JVal.str "owner1" ∧
    ((addAirlineOn [sampleAirlineRow "A1" "owner1" "FlyCo"] (JVal.str "A2") sampleActor
        sampleState (sampleAirlineInput "NewAir")).1.calls.map
        (fun c =>
          match c with
          | Call.airlinesInsert p => some p.user_id
          | Call.airlinesSelect userId => some userId
          | _ => none) = [some (JVal.str "owner1"), some (JVal.str "staff1")] ∧
      (addAirlineOn [sampleAirlineRow "A1" "owner1" "FlyCo"] (JVal.str "A2") sampleActor
        sampleState (sampleAirlineInput "NewAir")).1.outcome = Outcome.returned ∧
      (addAirlineOn [sampleAirlineRow "A1" "owner1" "FlyCo"] (JVal.str "A2") sampleActor
        sampleState (sampleAirlineInput "NewAir")).1.state.airlines = [] ∧
      ((selectAirlines
          (addAirlineOn [sampleAirlineRow "A1" "owner1" "FlyCo"] (JVal.str "A2") sampleActor
            sampleState (sampleAirlineInput "NewAir")).2 sampleState.targetUserId).map
          airlineOfRefetched).map (fun x => (x.id, x.name)) =
        [(JVal.str "A1", JVal.str "FlyCo"), (JVal.str "A2", JVal.str "NewAir")]) ∧
    ((addAgencyOn [sampleAgencyRow "G1" "owner1" "Partner"] (JVal.str "G2") sampleActor
        sampleState (sampleAgencyInput "NewAgency")).1.calls.map
        (fun c =>
          match c with
          | Call.agenciesInsert p => some p.user_id
          | Call.agenciesSelect userId => some userId
          | _ => none) = [some (JVal.str "owner1"), some (JVal.str "staff1")] ∧
      (addAgencyOn [sampleAgencyRow "G1" "owner1" "Partner"] (JVal.str "G2") sampleActor
        sampleState (sampleAgencyInput "NewAgency")).1.outcome = Outcome.returned ∧
      (addAgencyOn [sampleAgencyRow "G1" "owner1" "Partner"] (JVal.str "G2") sampleActor
        sampleState (sampleAgencyInput "NewAgency")).1.state.agencies = [] ∧
      ((selectAgencies
          (addAgencyOn [sampleAgencyRow "G1" "owner1" "Partner"] (JVal.str "G2") sampleActor
            sampleState (sampleAgencyInput "NewAgency")).2 sampleState.targetUserId).map
          agencyOfRefetched).map (fun x => (x.id, x.name)) =
        [(JVal.str "G1", JVal.str "Partner"), (JVal.str "G2", JVal.str "NewAgency")]) := by
  decide

/-! ## Local flights after `createFlight`: theorem -/

/-- C25 (create adds exactly one flight): for a signed-in actor with a resolved scope,
when the backend answers the insert with the row `data`, the local flights after
`createFlight` are a rearrangement of the previous flights and the created record
`data` with `passengers = []`: the created record is in the list, every previous
flight is still there unchanged, nothing else is, and the operation resolves to
`data`; when the backend answers with an error the state is left as it was, the error
is thrown and nothing is added. -/
theorem createFlight_adds_flight (toTime : JVal → Option Int) (a : Actor) (st : State)
    (me : String) (flight : FlightInput) (hme : a.currentUser = some me)
    (hscope : st.targetUserId.truthy = true) :
    (∀ data,
      ((createFlight toTime a st flight (Res.ok data)).1.state.flights.Perm
          (st.flights ++ [{ row := data, flightNumber := JVal.undefined, passengers := [] }])) ∧
        ({ row := data, flightNumber := JVal.undefined, passengers := [] } : Flight) ∈
          (createFlight toTime a st flight (Res.ok data)).1.state.flights ∧
        (∀ f ∈ st.flights, f ∈ (createFlight toTime a st flight (Res.ok data)).1.state.flights) ∧
        (createFlight toTime a st flight (Res.ok data)).1.state.flights.length =
          st.flights.length + 1 ∧
        (createFlight toTime a st flight (Res.ok data)).1.outcome = Outcome.returned ∧
        (createFlight toTime a st flight (Res.ok data)).2 = some data) ∧
    (∀ data e,
      (createFlight toTime a st flight { data := data, error := some e }).1.state = st ∧
        (createFlight toTime a st flight { data := data, error := some e }).1.outcome =
          Outcome.threw e ∧
        (createFlight toTime a st flight { data := data, error := some e }).2 = none) := by
  constructor
  · intro data
    have hfl : (createFlight toTime a st flight (Res.ok data)).1.state.flights =
        sortFlights toTime
          (st.flights ++ [{ row := data, flightNumber := JVal.undefined, passengers := [] }]) := by
      unfold createFlight
      simp only [hme, hscope, Res.ok, Bool.not_true, Bool.false_eq_true, if_false]
    have hout : (createFlight toTime a st flight (Res.ok data)).1.outcome = Outcome.returned := by
      unfold createFlight
      simp only [hme, hscope, Res.ok, Bool.not_true, Bool.false_eq_true, if_false]
    have hval : (createFlight toTime a st flight (Res.ok data)).2 = some data := by
      unfold createFlight
      simp only [hme, hscope, Res.ok, Bool.not_true, Bool.false_eq_true, if_false]
    have hperm := sortFlights_perm toTime
      (st.flights ++ [{ row := data, flightNumber := JVal.undefined, passengers := [] }])
    rw [hfl]
    refine ⟨hperm, ?_, ?_, ?_, hout, hval⟩
    · exact hperm.symm.subset (by simp)
    · intro f hf
      exact hperm.symm.subset (List.mem_append_left _ hf)
    · have := hperm.length_eq
      simpa using this
  · intro data e
    unfold createFlight
    simp only [hme, hscope, Bool.not_true, Bool.false_eq_true, if_false]
    exact ⟨trivial, trivial, trivial⟩

/-- The staff actor creating a flight dated between the two it holds. -/
theorem createFlight_adds_flight_witness :
    ((createFlight sampleToTime sampleActor sampleState (sampleFlightInput "2026-01-10" "FC300")
        (Res.ok (sampleNumberedRow 3 "F3" "2026-01-10" "FC300"))).1.state.flights.Perm
      (sampleState.flights ++
        [{ row := sampleNumberedRow 3 "F3" "2026-01-10" "FC300", flightNumber := JVal.undefined
           passengers := [] }])) ∧
    (createFlight sampleToTime sampleActor sampleState (sampleFlightInput "2026-01-10" "FC300")
        { data := none, error := some "offline" }).1.state = sampleState :=
  ⟨((createFlight_adds_flight sampleToTime sampleActor sampleState "staff1"
      (sampleFlightInput "2026-01-10" "FC300") rfl rfl).1 _).1,
    ((createFlight_adds_flight sampleToTime sampleActor sampleState "staff1"
      (sampleFlightInput "2026-01-10" "FC300") rfl rfl).2 none "offline").1⟩

/-! ## Name resolution: theorem -/

/-- C26 (name resolution): `resolveUserName(id)` is `'System'` when the id is absent
(`undefined`, `null` or any other falsy value); otherwise `'Me'` when the id is the
acting actor's id, whatever the loaded users hold; otherwise the name of the first
loaded user whose `managed_user_id` or `id` is the id, when that name is not empty;
otherwise `'User'`. -/
theorem resolveUserName_cases (a : Actor) (users : List User) (uuid : JVal) :
    (uuid.truthy = false → resolveUserName a users uuid = JVal.str "System") ∧
    (resolveUserName a users JVal.undefined = JVal.str "System" ∧
      resolveUserName a users JVal.null = JVal.str "System") ∧
    (uuid.truthy = true → (∃ me, a.currentUser = some me ∧ uuid = JVal.str me) →
      resolveUserName a users uuid = JVal.str "Me") ∧
    (uuid.truthy = true → (¬ ∃ me, a.currentUser = some me ∧ uuid = JVal.str me) →
      ∀ u, users.find? (fun u => decide (u.managed_user_id = uuid) || decide (u.id = uuid))
          = some u →
        u.name.truthy = true → resolveUserName a users uuid = u.name) ∧
    (uuid.truthy = true → (¬ ∃ me, a.currentUser = some me ∧ uuid = JVal.str me) →
      (users.find? (fun u => decide (u.managed_user_id = uuid) || decide (u.id = uuid)) = none ∨
        ∃ u, users.find? (fun u => decide (u.managed_user_id = uuid) || decide (u.id = uuid))
            = some u ∧ u.name.truthy = false) →
      resolveUserName a users uuid = JVal.str "User") := by
  have hcur : ∀ h : uuid.truthy = true,
      (uuid = (a.currentUser.map JVal.str).getD JVal.undefined ↔
        ∃ me, a.currentUser = some me ∧ uuid = JVal.str me) := by
    intro h
    cases hc : a.currentUser with
    | none =>
      simp only [Option.map_none', Option.getD_none]
      constructor
      · intro hu
        rw [hu] at h
        exact absurd h (by decide)
      · rintro ⟨me, hme, _⟩
        exact absurd hme (by simp)
    | some me0 =>
      simp only [Option.map_some', Option.getD_some]
      constructor
      · intro hu
        exact ⟨me0, rfl, hu⟩
      · rintro ⟨me, hme, hu⟩
        cases hme
        exact hu
  refine ⟨?_, ⟨rfl, rfl⟩, ?_, ?_, ?_⟩
  · intro h
    unfold resolveUserName
    simp [h]
  · intro h hme
    unfold resolveUserName
    rw [if_neg (by simp [h]), if_pos ((hcur h).2 hme)]
  · intro h hme u hfind hname
    unfold resolveUserName
    have hne : ¬ uuid = (a.currentUser.map JVal.str).getD JVal.undefined :=
      fun hu => hme ((hcur h).1 hu)
    simp only [h, Bool.not_true, Bool.false_eq_true, if_false, hne, hfind, Option.map_some',
      Option.getD_some, JVal.or, hname, if_true]
  · intro h hme hcase
    unfold resolveUserName
    have hne : ¬ uuid = (a.currentUser.map JVal.str).getD JVal.undefined :=
      fun hu => hme ((hcur h).1 hu)
    rcases hcase with hnone | ⟨u, hfind, hname⟩
    · simp only [h, Bool.not_true, Bool.false_eq_true, if_false, hne, hnone, Option.map_none',
        Option.getD_none, JVal.or]
      rfl
    · simp only [h, Bool.not_true, Bool.false_eq_true, if_false, hne, hfind, Option.map_some',
        Option.getD_some, JVal.or, hname]

/-- The staff actor resolving its own id, which a loaded user also carries, and the
id of a managed user. -/
theorem resolveUserName_cases_witness :
    resolveUserName sampleActor
        [sampleUser "m1" "staff1" "Stella", sampleUser "m2" "clerk2" "Carl"]
        (JVal.str "staff1") = JVal.str "Me" ∧
    resolveUserName sampleActor
        [sampleUser "m1" "staff1" "Stella", sampleUser "m2" "clerk2" "Carl"]
        (JVal.str "clerk2") = JVal.str "Carl" ∧
    resolveUserName sampleActor
        [sampleUser "m1" "staff1" "Stella", sampleUser "m2" "clerk2" ""]
        (JVal.str "clerk2") = JVal.str "User" :=
  ⟨(resolveUserName_cases sampleActor _ (JVal.str "staff1")).2.2.1 rfl ⟨"staff1", rfl, rfl⟩,
    (resolveUserName_cases sampleActor _ (JVal.str "clerk2")).2.2.2.1 rfl (by decide)
      (sampleUser "m2" "clerk2" "Carl") (by decide) rfl,
    (resolveUserName_cases sampleActor _ (JVal.str "clerk2")).2.2.2.2 rfl (by decide)
      (Or.inr ⟨sampleUser "m2" "clerk2" "", by decide, rfl⟩)⟩

/-! ## Session lifetime: auxiliary facts -/

theorem digitValue_digitChar (d : Nat) (h : d < 10) : digitValue (Nat.digitChar d) = some d := by
  interval_cases d <;> rfl

theorem radixDigits_digitChars (ds : List Nat) (h : ∀ d ∈ ds, d < 10) :
    radixDigits 10 (ds.map Nat.digitChar) = ds := by
  induction ds with
  | nil => rfl
  | cons d rest ih =>
    have hd : d < 10 := h d (List.mem_cons_self _ _)
    have hrest : ∀ x ∈ rest, x < 10 := fun x hx => h x (List.mem_cons_of_mem _ hx)
    simp only [List.map_cons, radixDigits, digitValue_digitChar d hd, hd, if_true, ih hrest]

theorem foldl_coe_digits (ds : List Nat) (start : Nat) :
    List.foldl (fun acc x => acc * ((10 : Nat) : Int) + (x : Int)) (start : Int) ds =
      ((ds.foldl (fun acc d => acc * 10 + d) start : Nat) : Int) := by
  induction ds generalizing start with
  | nil => rfl
  | cons d rest ih =>
    have h := ih (start * 10 + d)
    push_cast at h ⊢
    simpa using h

/-- The decimal digits `Nat.toDigitsCore` puts in front of its accumulator: at least
one, most significant first, without a leading zero unless the number is zero. -/
theorem toDigitsCore_digits (fuel : Nat) : ∀ (n : Nat) (acc : List Char), n < fuel →
    ∃ ds : List Nat, Nat.toDigitsCore 10 fuel n acc = ds.map Nat.digitChar ++ acc ∧ ds ≠ [] ∧
      (∀ d ∈ ds, d < 10) ∧ (ds.head? = some 0 → ds = [0]) ∧
      ds.foldl (fun acc d => acc * 10 + d) 0 = n := by
  induction fuel with
  | zero => intro n acc h; exact absurd h (Nat.not_lt_zero _)
  | succ fuel ih =>
    intro n acc hn
    simp only [Nat.toDigitsCore]
    by_cases h0 : n / 10 = 0
    · refine ⟨[n % 10], ?_, by simp, ?_, ?_, ?_⟩
      · simp [h0]
      · intro d hd
        simp only [List.mem_singleton] at hd
        omega
      · intro hh
        simp only [List.head?_cons, Option.some.injEq] at hh
        rw [hh]
      · simp only [List.foldl_cons, List.foldl_nil]
        omega
    · obtain ⟨ds, heq, hne, hlt, hz, hval⟩ :=
        ih (n / 10) (Nat.digitChar (n % 10) :: acc) (by omega)
      refine ⟨ds ++ [n % 10], ?_, by simp, ?_, ?_, ?_⟩
      · simp [h0, heq]
      · intro d hd
        rcases List.mem_append.1 hd with h | h
        · exact hlt d h
        · simp only [List.mem_singleton] at h
          omega
      · intro hh
        cases ds with
        | nil => exact absurd rfl hne
        | cons d rest =>
          have hd : (d :: rest) = [0] := hz (by simpa using hh)
          rw [hd] at hval
          simp at hval
          omega
      · rw [List.foldl_append, hval]
        simp only [List.foldl_cons, List.foldl_nil]
        omega

/-- How `parseInt` reads a string that starts with a digit from 1 to 9. -/
theorem parseInt_nonzero_head (d : Nat) (cs : List Char) (h1 : 1 ≤ d) (h9 : d ≤ 9) :
    parseInt (String.mk (Nat.digitChar d :: cs)) =
      if (radixDigits 10 (Nat.digitChar d :: cs)).isEmpty then none
      else some ((radixDigits 10 (Nat.digitChar d :: cs)).foldl
        (fun acc x => acc * ((10 : Nat) : Int) + (x : Int)) 0) := by
  have hcases : d = 1 ∨ d = 2 ∨ d = 3 ∨ d = 4 ∨ d = 5 ∨ d = 6 ∨ d = 7 ∨ d = 8 ∨ d = 9 := by
    omega
  rcases hcases with rfl | rfl | rfl | rfl | rfl | rfl | rfl | rfl | rfl <;> rfl

theorem parseInt_digitChars (ds : List Nat) (hne : ds ≠ []) (hlt : ∀ d ∈ ds, d < 10)
    (hz : ds.head? = some 0 → ds = [0]) :
    parseInt (String.mk (ds.map Nat.digitChar)) =
      some ((ds.foldl (fun acc d => acc * 10 + d) 0 : Nat) : Int) := by
  cases ds with
  | nil => exact absurd rfl hne
  | cons d rest =>
    have hd : d < 10 := hlt d (List.mem_cons_self _ _)
    by_cases hd0 : d = 0
    · subst hd0
      rw [hz rfl]
      decide
    · have hrd := radixDigits_digitChars (d :: rest) hlt
      rw [List.map_cons] at hrd ⊢
      rw [parseInt_nonzero_head d _ (by omega) (by omega), hrd]
      have hcast := foldl_coe_digits (d :: rest) 0
      simp only [List.isEmpty_cons, Bool.false_eq_true, if_false]
      exact congrArg some hcast

/-- Reading back the decimal string of a number gives the number:
`parseInt(now.toString())` is `now`. -/
theorem parseInt_toString (n : Nat) : parseInt (toString n) = some (n : Int) := by
  obtain ⟨ds, heq, hne, hlt, hz, hval⟩ := toDigitsCore_digits (n + 1) n [] (Nat.lt_succ_self n)
  have hs : toString n = String.mk (ds.map Nat.digitChar) := by
    show Nat.repr n = _
    unfold Nat.repr Nat.toDigits
    rw [heq, List.append_nil]
    rfl
  rw [hs, parseInt_digitChars ds hne hlt hz, hval]

theorem exceeds_iff (now : Nat) (since : Option Int) (limit : Int) :
    exceeds now since limit = true ↔ ∃ t, since = some t ∧ (now : Int) - t > limit := by
  cases since with
  | none => simp [exceeds]
  | some t => simp [exceeds]

/-! ## Session lifetime: theorem -/

/-- C27 (session lifetime): on an auth-state change that carries a session, with the
provider mounted, the listener calls `logout()` exactly when `now - lastActive` is
over two hours or `now - sessionStarted` is over twelve hours, the two being the
stored items read with `parseInt`; a missing item reads as `now`. When it logs out it
removes both items, sets none of them and does not go on; otherwise it stores `now`
as `last_active`. -/
theorem onAuthStateChange_expiry (event : String) (now : Nat) (store : SessionStore) :
    ((onAuthStateChange true event true now store).logout = true ↔
      ((∃ lastActive, parseInt (storedOr store.last_active now) = some lastActive ∧
          (now : Int) - lastActive > 2 * 60 * 60 * 1000) ∨
        (∃ sessionStarted, parseInt (storedOr store.session_started now) = some sessionStarted ∧
          (now : Int) - sessionStarted > 12 * 60 * 60 * 1000))) ∧
    parseInt (storedOr none now) = some (now : Int) ∧
    ((onAuthStateChange true event true now store).logout = true →
      (onAuthStateChange true event true now store).store =
          { last_active := none, session_started := none } ∧
        (onAuthStateChange true event true now store).proceeds = false) ∧
    ((onAuthStateChange true event true now store).logout = false →
      (onAuthStateChange true event true now store).store.last_active = some (toString now) ∧
        (onAuthStateChange true event true now store).proceeds = true) := by
  have hstep : onAuthStateChange true event true now store =
      if exceeds now (parseInt (storedOr store.last_active now)) INACTIVITY_LIMIT ||
          exceeds now (parseInt (storedOr store.session_started now)) MAX_SESSION then
        { store := { last_active := none, session_started := none }
          logout := true, proceeds := false }
      else
        { store :=
            { last_active := some (toString now)
              session_started :=
                if event = "SIGNED_IN" ∨ store.session_started = none ∨
                    store.session_started = some "" then some (toString now)
                else store.session_started }
          logout := false, proceeds := true } := rfl
  have hlim : INACTIVITY_LIMIT = 2 * 60 * 60 * 1000 := rfl
  have hmax : MAX_SESSION = 12 * 60 * 60 * 1000 := rfl
  rw [hstep]
  refine ⟨?_, ?_, ?_, ?_⟩
  · rw [← hlim, ← hmax, ← exceeds_iff, ← exceeds_iff, ← Bool.or_eq_true]
    split <;> simp_all
  · exact parseInt_toString now
  · intro h
    split at h
    · split
      · exact ⟨rfl, rfl⟩
      · rename_i h1 h2
        exact absurd h1 h2
    · exact absurd h (by simp)
  · intro h
    split at h
    · exact absurd h (by simp)
    · split
      · rename_i h1 h2
        exact absurd h2 h1
      · exact ⟨rfl, rfl⟩

/-- A session last active 10 000 seconds ago is logged out and its items removed; one
last active a minute ago is kept and refreshed. -/
theorem onAuthStateChange_expiry_witness :
    (onAuthStateChange true "TOKEN_REFRESHED" true 1780000000000
        { last_active := some "1779990000000", session_started := some "1779990000000" }).logout
      = true ∧
    (onAuthStateChange true "TOKEN_REFRESHED" true 1780000000000
        { last_active := some "1779990000000", session_started := some "1779990000000" }).store
      = { last_active := none, session_started := none } ∧
    (onAuthStateChange true "TOKEN_REFRESHED" true 1780000000000
        { last_active := some "1779999940000", session_started := some "1779990000000" }).store
      = { last_active := some "1780000000000", session_started := some "1779990000000" } :=
  ⟨(onAuthStateChange_expiry "TOKEN_REFRESHED" 1780000000000
      { last_active := some "1779990000000", session_started := some "1779990000000" }).1.2
      (Or.inl ⟨1779990000000, by decide, by decide⟩),
    by decide, by decide⟩

/-! ## Partial fetch failure: auxiliary facts -/

theorem loadedList_of_error {α β : Type} (res : Res (List α)) (f : α → β) (prev : List β)
    (h : res.error ≠ none) : loadedList res f prev = prev := by
  unfold loadedList
  rcases res with ⟨data, error⟩
  cases error with
  | none => exact absurd rfl h
  | some e => cases data <;> rfl

theorem loadedSettings_of_error (res : Res SettingsRow) (h : res.error ≠ none) :
    loadedSettings res = none := by
  unfold loadedSettings
  rcases res with ⟨data, error⟩
  cases error with
  | none => exact absurd rfl h
  | some e => cases data <;> rfl

theorem loadInitialDataFlights_of_error (toTime : JVal → Option Int) (me : String)
    (userRole : Option String) (flightsRes : Res (List FlightRow))
    (passengersRes : Res (List PassengerRow)) (infantsRes : Res (List InfantRow))
    (rolesRes : Res (List RoleDefinition)) (h : flightsRes.error ≠ none) :
    loadInitialDataFlights toTime me userRole flightsRes passengersRes infantsRes rolesRes
      = none := by
  unfold loadInitialDataFlights
  rcases flightsRes with ⟨data, error⟩
  cases error with
  | none => exact absurd rfl h
  | some e => cases data <;> rfl

/-- The state the loader leaves when the role lookup and the batch both resolve. -/
theorem loadInitialData_resolved (toTime : JVal → Option Int) (parseFloatStr : String → JNum)
    (a : Actor) (me : String) (roleData : Option RoleRow) (b : Batch)
    (ar : Except String (Option (List AccountRoleRow))) (st : State)
    (hme : a.currentUser = some me) :
    (loadInitialData toTime parseFloatStr a
        { roleLookup := Except.ok roleData, batch := Except.ok b, accountRoles := ar } st).flights =
      (loadInitialDataFlights toTime me a.userRole b.flightsRes b.passengersRes b.infantsRes
        b.rolesRes).getD st.flights ∧
    (loadInitialData toTime parseFloatStr a
        { roleLookup := Except.ok roleData, batch := Except.ok b, accountRoles := ar } st).airlines =
      loadedList b.airlinesRes airlineOfRow st.airlines ∧
    (loadInitialData toTime parseFloatStr a
        { roleLookup := Except.ok roleData, batch := Except.ok b, accountRoles := ar } st).agencies =
      loadedList b.agenciesRes agencyOfRow st.agencies ∧
    (loadInitialData toTime parseFloatStr a
        { roleLookup := Except.ok roleData, batch := Except.ok b, accountRoles := ar } st).prices =
      ((loadedSettings b.settingsRes).map (pricesOfRow parseFloatStr)).getD st.prices ∧
    (loadInitialData toTime parseFloatStr a
        { roleLookup := Except.ok roleData, batch := Except.ok b, accountRoles := ar } st).users =
      (match ar with
        | Except.ok (some aus) => mergeAccountRoles (loadedList b.usersRes userOfRow st.users) aus
        | _ => loadedList b.usersRes userOfRow st.users) ∧
    (loadedSettings b.settingsRes = none →
      (loadInitialData toTime parseFloatStr a
        { roleLookup := Except.ok roleData, batch := Except.ok b, accountRoles := ar }
        st).agencyName = st.agencyName ∧
      (loadInitialData toTime parseFloatStr a
        { roleLookup := Except.ok roleData, batch := Except.ok b, accountRoles := ar }
        st).agencyTagline = st.agencyTagline) := by
  unfold loadInitialData
  simp only [hme]
  cases ar with
  | error e =>
    refine ⟨rfl, rfl, rfl, rfl, rfl, ?_⟩
    intro hs
    simp only [hs]
    exact ⟨trivial, trivial⟩
  | ok o =>
    cases o with
    | none =>
      refine ⟨rfl, rfl, rfl, rfl, rfl, ?_⟩
      intro hs
      simp only [hs]
      exact ⟨trivial, trivial⟩
    | some aus =>
      refine ⟨rfl, rfl, rfl, rfl, rfl, ?_⟩
      intro hs
      simp only [hs]
      exact ⟨trivial, trivial⟩

/-! ## Partial fetch failure: theorems -/

/-- C28 (partial fetch failure, counterexample): the staff actor reloads while every
fetch of the batch comes back with an error, the managed-users fetch included, and the
account-roles query that follows returns one row. The flights, airlines, agencies and
prices keep their previous value, but the users do not: the list, empty before, now
holds the user pushed for the account role. -/
theorem loadInitialData_failed_users_still_merged :
    sampleFailedBatch.usersRes.error = some "offline" ∧
    sampleState.users = [] ∧
    (loadInitialData sampleToTime (fun _ => none) sampleActor
        { roleLookup := Except.ok none, batch := Except.ok sampleFailedBatch
          accountRoles := Except.ok (some [sampleAccountRole "u9" "Zed"]) }
        sampleState).users.map (fun u => (u.id, u.name, u.isAccountUser)) =
      [(JVal.str "u9", JVal.str "Zed", JVal.bool true)] ∧
    (loadInitialData sampleToTime (fun _ => none) sampleActor
        { roleLookup := Except.ok none, batch := Except.ok sampleFailedBatch
          accountRoles := Except.ok (some [sampleAccountRole "u9" "Zed"]) }
        sampleState).users ≠ sampleState.users ∧
    (loadInitialData sampleToTime (fun _ => none) sampleActor
        { roleLookup := Except.ok none, batch := Except.ok sampleFailedBatch
          accountRoles := Except.ok (some [sampleAccountRole "u9" "Zed"]) }
        sampleState).flights = sampleState.flights ∧
    (loadInitialData sampleToTime (fun _ => none) sampleActor
        { roleLookup := Except.ok none, batch := Except.ok sampleFailedBatch
          accountRoles := Except.ok (some [sampleAccountRole "u9" "Zed"]) }
        sampleState).airlines = sampleState.airlines := by
  decide

/-- C28 (partial fetch failure, amended): when the role lookup and the batch resolve,
each part of the snapshot depends on its own fetch only. A flights, airlines, agencies
or settings result that carries an error leaves that part (for settings: the prices
and the branding) at its previous value, and a result that succeeded sets that part
from the fetched rows, whatever the other results are. For the managed users the
value so obtained, the previous list on an error and the mapped rows on success, is
then merged with the rows of the account-roles query, so on an error the users keep
their previous value only when that query fails or returns nothing. -/
theorem loadInitialData_partial_failure (toTime : JVal → Option Int)
    (parseFloatStr : String → JNum) (a : Actor) (me : String) (roleData : Option RoleRow)
    (b : Batch) (ar : Except String (Option (List AccountRoleRow))) (st st1 : State)
    (hme : a.currentUser = some me)
    (hst1 : st1 = loadInitialData toTime parseFloatStr a
      { roleLookup := Except.ok roleData, batch := Except.ok b, accountRoles := ar } st) :
    (b.flightsRes.error ≠ none → st1.flights = st.flights) ∧
    (b.airlinesRes.error ≠ none → st1.airlines = st.airlines) ∧
    (b.agenciesRes.error ≠ none → st1.agencies = st.agencies) ∧
    (b.settingsRes.error ≠ none →
      st1.prices = st.prices ∧ st1.agencyName = st.agencyName ∧
        st1.agencyTagline = st.agencyTagline) ∧
    (b.usersRes.error ≠ none →
      (∀ aus, ar = Except.ok (some aus) → st1.users = mergeAccountRoles st.users aus) ∧
        ((ar = Except.ok none ∨ ∃ e, ar = Except.error e) → st1.users = st.users)) ∧
    (∀ rows, b.flightsRes = Res.ok rows →
      st1.flights = sortFlights toTime (filterVisible a.userRole (currentRoleDefs b.rolesRes) me
        (joinFlights rows (b.passengersRes.data.getD []) (b.infantsRes.data.getD [])))) ∧
    (∀ rows, b.airlinesRes = Res.ok rows → st1.airlines = rows.map airlineOfRow) ∧
    (∀ rows, b.agenciesRes = Res.ok rows → st1.agencies = rows.map agencyOfRow) ∧
    (∀ d, b.settingsRes = Res.ok d → st1.prices = pricesOfRow parseFloatStr d) ∧
    (∀ rows, b.usersRes = Res.ok rows →
      (∀ aus, ar = Except.ok (some aus) →
          st1.users = mergeAccountRoles (rows.map userOfRow) aus) ∧
        ((ar = Except.ok none ∨ ∃ e, ar = Except.error e) →
          st1.users = rows.map userOfRow)) := by
  obtain ⟨hf, hal, hag, hp, hu, hbrand⟩ :=
    loadInitialData_resolved toTime parseFloatStr a me roleData b ar st hme
  subst hst1
  refine ⟨?_, ?_, ?_, ?_, ?_, ?_, ?_, ?_, ?_, ?_⟩
  · intro h
    rw [hf, loadInitialDataFlights_of_error _ _ _ _ _ _ _ h]
    rfl
  · intro h
    rw [hal, loadedList_of_error _ _ _ h]
  · intro h
    rw [hag, loadedList_of_error _ _ _ h]
  · intro h
    have hs := loadedSettings_of_error _ h
    refine ⟨?_, (hbrand hs).1, (hbrand hs).2⟩
    rw [hp, hs]
    rfl
  · intro h
    rw [hu, loadedList_of_error _ _ _ h]
    constructor
    · intro aus har
      rw [har]
    · rintro (har | ⟨e, har⟩) <;> rw [har]
  · intro rows h
    rw [hf, h]
    rfl
  · intro rows h
    rw [hal, h]
    rfl
  · intro rows h
    rw [hag, h]
    rfl
  · intro d h
    rw [hp, h]
    rfl
  · intro rows h
    rw [hu, h]
    constructor
    · intro aus har
      rw [har]
      rfl
    · rintro (har | ⟨e, har⟩) <;> rw [har] <;> rfl

/-- The staff actor reloading while only the airlines fetch succeeds: the airlines
are replaced by the fetched row and the flights are kept. -/
theorem loadInitialData_partial_failure_witness :
    (loadInitialData sampleToTime (fun _ => none) sampleActor
        { roleLookup := Except.ok none
          batch := Except.ok
            { sampleFailedBatch with
              airlinesRes := Res.ok [sampleAirlineRow "A7" "owner1" "SkyJet"] }
          accountRoles := Except.ok none }
        sampleState).airlines = [sampleAirlineRow "A7" "owner1" "SkyJet"].map airlineOfRow ∧
    (loadInitialData sampleToTime (fun _ => none) sampleActor
        { roleLookup := Except.ok none
          batch := Except.ok
            { sampleFailedBatch with
              airlinesRes := Res.ok [sampleAirlineRow "A7" "owner1" "SkyJet"] }
          accountRoles := Except.ok none }
        sampleState).flights = sampleState.flights :=
  ⟨(loadInitialData_partial_failure sampleToTime (fun _ => none) sampleActor "staff1" none
      { sampleFailedBatch with airlinesRes := Res.ok [sampleAirlineRow "A7" "owner1" "SkyJet"] }
      (Except.ok none) sampleState _ rfl rfl).2.2.2.2.2.2.1 _ rfl,
    (loadInitialData_partial_failure sampleToTime (fun _ => none) sampleActor "staff1" none
      { sampleFailedBatch with airlinesRes := Res.ok [sampleAirlineRow "A7" "owner1" "SkyJet"] }
      (Except.ok none) sampleState _ rfl rfl).1 (by decide)⟩

/-! ## Infant cap: auxiliary facts -/

theorem handleChange_infants_le (env : FormEnv) (s : PassengerFormState) (field : FormField)
    (value : String) (checked : Bool) (h : s.infants.length ≤ 5) :
    (handleChange env s field value checked).infants.length ≤ 5 := by
  by_cases hf : field = FormField.type
  · subst hf
    simp only [handleChange, setField, FormField.attrName, FormField.inputType]
    simp
    split <;> simp [h]
  · by_cases hh : field = FormField.hasInfants
    · subst hh
      simp only [handleChange, setField, FormField.attrName, FormField.inputType]
      cases checked
      · simp [JVal.truthy]
      · simp [JVal.truthy]
        split <;> simp [h]
    · rw [handleChange_infants_of_ne env s field value checked hf hh]
      exact h

theorem addInfant_infants_le (env : FormEnv) (s : PassengerFormState)
    (h : s.infants.length ≤ 5) : (addInfant env s).infants.length ≤ 5 := by
  unfold addInfant
  split
  · simp only [List.length_append, List.length_singleton]
    omega
  · exact h

theorem dropIndex_length_le (l : List String) (index : Nat) :
    (dropIndex l index).length ≤ l.length := by
  unfold dropIndex
  rw [List.length_map]
  exact (List.length_filter_le _ _).trans (by simp)

theorem removeInfant_infants_le (env : FormEnv) (s : PassengerFormState) (index : Nat)
    (h : s.infants.length ≤ 5) : (removeInfant env s index).infants.length ≤ 5 :=
  (dropIndex_length_le s.infants index).trans h

theorem handleInfantChange_infants_le (s s1 : PassengerFormState) (index : Nat) (value : String)
    (h : s.infants.length ≤ 5) (hstep : handleInfantChange s index value = some s1) :
    s1.infants.length ≤ 5 := by
  unfold handleInfantChange at hstep
  split at hstep
  · simp only [Option.some.injEq] at hstep
    rw [← hstep]
    simpa using h
  · exact absurd hstep (by simp)

theorem dispatch_infants_le (env : FormEnv) (s s1 : PassengerFormState) (e : FormEvent)
    (h : s.infants.length ≤ 5) (hstep : dispatch env s e = some s1) :
    s1.infants.length ≤ 5 := by
  unfold dispatch at hstep
  split at hstep
  · cases e with
    | change field value checked =>
      simp only [Option.some.injEq] at hstep
      rw [← hstep]
      exact handleChange_infants_le env s field value checked h
    | addInfant =>
      simp only [Option.some.injEq] at hstep
      rw [← hstep]
      exact addInfant_infants_le env s h
    | removeInfant index =>
      simp only [Option.some.injEq] at hstep
      rw [← hstep]
      exact removeInfant_infants_le env s index h
    | infantChange index value =>
      exact handleInfantChange_infants_le s s1 index value h hstep
  · exact absurd hstep (by simp)

/-! ## Infant cap: theorem -/

/-- C29 (infant cap): `addInfant` appends one blank name when the form holds fewer
than five infants and leaves the state as it is when it holds five or more. Each of
`handleChange`, `addInfant`, `removeInfant` and `handleInfantChange` takes a state
with at most five infants to a state with at most five, the reset state holds none,
and so every sequence of interactions from the reset state leaves at most five. -/
theorem addInfant_capped (env : FormEnv) (props : FormProps) :
    (∀ s, s.infants.length < 5 → (addInfant env s).infants = s.infants ++ [""]) ∧
    (∀ s, 5 ≤ s.infants.length → addInfant env s = s) ∧
    (∀ s field value checked, s.infants.length ≤ 5 →
      (handleChange env s field value checked).infants.length ≤ 5) ∧
    (∀ s, s.infants.length ≤ 5 → (addInfant env s).infants.length ≤ 5) ∧
    (∀ s index, s.infants.length ≤ 5 → (removeInfant env s index).infants.length ≤ 5) ∧
    (∀ s index value s1, s.infants.length ≤ 5 → handleInfantChange s index value = some s1 →
      s1.infants.length ≤ 5) ∧
    (resetForm env props).infants = [] ∧
    (∀ events s1, runForm env (resetForm env props) events = some s1 →
      s1.infants.length ≤ 5) := by
  refine ⟨?_, ?_, ?_, ?_, ?_, ?_, rfl, ?_⟩
  · intro s h
    unfold addInfant
    rw [if_pos h]
  · intro s h
    unfold addInfant
    rw [if_neg (by omega)]
  · intro s field value checked h
    exact handleChange_infants_le env s field value checked h
  · intro s h
    exact addInfant_infants_le env s h
  · intro s index h
    exact removeInfant_infants_le env s index h
  · intro s index value s1 h hstep
    exact handleInfantChange_infants_le s s1 index value h hstep
  · have hrun : ∀ events s s1, s.infants.length ≤ 5 → runForm env s events = some s1 →
        s1.infants.length ≤ 5 := by
      intro events
      induction events with
      | nil =>
        intro s s1 hs h
        simp only [runForm, Option.some.injEq] at h
        exact h ▸ hs
      | cons e rest ih =>
        intro s s1 hs h
        unfold runForm at h
        cases hd : dispatch env s e with
        | none => simp [hd] at h
        | some s2 =>
          simp only [hd] at h
          exact ih s2 s1 (dispatch_infants_le env s s2 e hs hd) h
    intro events s1 h
    exact hrun events _ s1 (by simp [resetForm]) h

/-- An adult is given five infants: the form then holds five names, a further
`addInfant` leaves that state as it is, and the add button is no longer offered. -/
theorem addInfant_capped_witness :
    (runForm sampleFormEnv (resetForm sampleFormEnv sampleFormProps)
        [FormEvent.change FormField.hasInfants "" true, FormEvent.addInfant, FormEvent.addInfant,
          FormEvent.addInfant, FormEvent.addInfant]).map (fun s => s.infants.length) = some 5 ∧
    (∀ s1, runForm sampleFormEnv (resetForm sampleFormEnv sampleFormProps)
        [FormEvent.change FormField.hasInfants "" true, FormEvent.addInfant, FormEvent.addInfant,
          FormEvent.addInfant, FormEvent.addInfant] = some s1 →
      s1.infants.length ≤ 5 ∧ addInfant sampleFormEnv s1 = s1) ∧
    runForm sampleFormEnv (resetForm sampleFormEnv sampleFormProps)
        [FormEvent.change FormField.hasInfants "" true, FormEvent.addInfant, FormEvent.addInfant,
          FormEvent.addInfant, FormEvent.addInfant, FormEvent.addInfant] = none :=
  ⟨by decide,
    fun s1 h =>
      ⟨(addInfant_capped sampleFormEnv sampleFormProps).2.2.2.2.2.2.2 _ s1 h,
        (addInfant_capped sampleFormEnv sampleFormProps).2.1 s1 (by
          have hlen : (runForm sampleFormEnv (resetForm sampleFormEnv sampleFormProps)
              [FormEvent.change FormField.hasInfants "" true, FormEvent.addInfant,
                FormEvent.addInfant, FormEvent.addInfant, FormEvent.addInfant]).map
              (fun s => s.infants.length) = some 5 := by decide
          rw [h] at hlen
          simp only [Option.map_some', Option.some.injEq] at hlen
          omega)⟩,
    by decide⟩

/-! ## Date order across mutations: auxiliary facts -/

/-- After a successful `createFlight` every adjacent pair of the local flights is in
date order, whatever the list was before. -/
theorem createFlight_ordered (toTime : JVal → Option Int) (a : Actor) (st : State)
    (me : String) (flight : FlightInput) (data : FlightRow) (hme : a.currentUser = some me)
    (hscope : st.targetUserId.truthy = true) :
    (createFlight toTime a st flight (Res.ok data)).1.state.flights.Chain'
      (dateOrder toTime) := by
  have hfl : (createFlight toTime a st flight (Res.ok data)).1.state.flights =
      sortFlights toTime
        (st.flights ++ [{ row := data, flightNumber := JVal.undefined, passengers := [] }]) := by
    unfold createFlight
    simp only [hme, hscope, Res.ok, Bool.not_true, Bool.false_eq_true, if_false]
  rw [hfl]
  exact sortFlights_chain toTime _

/-- When the dates involved are all valid, the order after a successful
`createFlight` is global: every flight is in date order with every later one. -/
theorem createFlight_pairwise (toTime : JVal → Option Int) (a : Actor) (st : State)
    (me : String) (flight : FlightInput) (data : FlightRow) (hme : a.currentUser = some me)
    (hscope : st.targetUserId.truthy = true)
    (hvalid : ∀ f ∈ st.flights, (toTime f.row.date).isSome = true)
    (hdata : (toTime data.date).isSome = true) :
    (createFlight toTime a st flight (Res.ok data)).1.state.flights.Pairwise
      (dateOrder toTime) := by
  have hchain := createFlight_ordered toTime a st me flight data hme hscope
  have hfl : (createFlight toTime a st flight (Res.ok data)).1.state.flights =
      sortFlights toTime
        (st.flights ++ [{ row := data, flightNumber := JVal.undefined, passengers := [] }]) := by
    unfold createFlight
    simp only [hme, hscope, Res.ok, Bool.not_true, Bool.false_eq_true, if_false]
  have hall : ∀ f ∈ (createFlight toTime a st flight (Res.ok data)).1.state.flights,
      (toTime f.row.date).isSome = true := by
    intro f hf
    rw [hfl, mem_sortFlights] at hf
    rcases List.mem_append.1 hf with h | h
    · exact hvalid f h
    · simp only [List.mem_singleton] at h
      rw [h]
      exact hdata
  refine (chain_valid_pairwise toTime _ hchain hall).imp ?_
  rintro x y ⟨ta, tb, hx, hy, hle⟩
  refine (dateOrder_iff toTime x y).2 ?_
  rintro ⟨ta1, tb1, hx1, hy1, hlt⟩
  rw [hx] at hx1
  rw [hy] at hy1
  cases hx1
  cases hy1
  omega

theorem deleteFlight_flights_cases (ctx : Ctx) (id : JVal) (respError : Option String)
    (lr : LogResult) :
    (deleteFlight ctx id respError lr).flights = ctx.flights ∨
    (deleteFlight ctx id respError lr).flights =
      ctx.flights.filter (fun f => decide (f.row.id ≠ id)) := by
  unfold deleteFlight
  simp only [logActivity_eq]
  cases ctx.currentUser with
  | none => exact Or.inl rfl
  | some me =>
    simp only
    split
    · exact Or.inl rfl
    · cases respError with
      | some e => exact Or.inl rfl
      | none =>
        cases ctx.flights.find? (fun f => decide (f.row.id = id)) with
        | none => exact Or.inr rfl
        | some f => exact Or.inr rfl

/-- A list in which every flight is in date order with every later one stays so
across `deleteFlight`. -/
theorem deleteFlight_ordered (toTime : JVal → Option Int) (ctx : Ctx) (id : JVal)
    (respError : Option String) (lr : LogResult)
    (h : ctx.flights.Pairwise (dateOrder toTime)) :
    (deleteFlight ctx id respError lr).flights.Pairwise (dateOrder toTime) := by
  rcases deleteFlight_flights_cases ctx id respError lr with hc | hc
  · rw [hc]
    exact h
  · rw [hc]
    exact h.sublist (List.filter_sublist _)

/-! ## Date order across mutations: theorem -/

/-- C30 (date order kept, failing input): the owner holds the loaded flights `2`
(2026-01-11) and `1` (2026-01-10), in date order, and moves flight `1` to 2026-03-01.
The update succeeds, the flight keeps its place behind flight `2`, and the local list
is no longer in date order; sorting it, as the loader and `createFlight` do, would put
flight `1` first. -/
theorem updateFlight_breaks_date_order :
    sampleOwnerCtx.flights.map (fun f => (f.row.id, f.row.date)) =
      [(JVal.num 2, JVal.str "2026-01-11"), (JVal.num 1, JVal.str "2026-01-10")] ∧
    sampleOwnerCtx.flights.Pairwise (dateOrder sampleToTime) ∧
    (updateFlight sampleOwnerCtx (JVal.num 1) (sampleFlightInput "2026-03-01" "FC100")
        (Res.ok (sampleNumberedRow 1 "F1" "2026-03-01" "FC100")) LogResult.ok).outcome =
      Outcome.returned ∧
    (updateFlight sampleOwnerCtx (JVal.num 1) (sampleFlightInput "2026-03-01" "FC100")
        (Res.ok (sampleNumberedRow 1 "F1" "2026-03-01" "FC100")) LogResult.ok).flights.map
        (fun f => (f.row.id, f.row.date)) =
      [(JVal.num 2, JVal.str "2026-01-11"), (JVal.num 1, JVal.str "2026-03-01")] ∧
    ¬ (updateFlight sampleOwnerCtx (JVal.num 1) (sampleFlightInput "2026-03-01" "FC100")
        (Res.ok (sampleNumberedRow 1 "F1" "2026-03-01" "FC100")) LogResult.ok).flights.Pairwise
        (dateOrder sampleToTime) ∧
    (sortFlights sampleToTime
        (updateFlight sampleOwnerCtx (JVal.num 1) (sampleFlightInput "2026-03-01" "FC100")
          (Res.ok (sampleNumberedRow 1 "F1" "2026-03-01" "FC100")) LogResult.ok).flights).map
        (fun f => (f.row.id, f.row.date)) =
      [(JVal.num 1, JVal.str "2026-03-01"), (JVal.num 2, JVal.str "2026-01-11")] := by
  decide

end Areys
